import Mathlib

/-!
# Crystals: map loader and map view

A shallow embedding of the C sources of the Crystals tile-map engine
(`src/src/map/mapload.c`, `src/src/field/mapload.c`, `src/src/map/mapview.c`,
`src/src/field/mapview.c`) together with theorems about them.

Conventions of the embedding:

* machine integers are `Nat`/`Int`; a conversion to `uint16_t` is an explicit
  reduction modulo `65536`;
* a `FILE *` is a byte list with a read position and an end-of-file flag;
* a function that can call `fatal` (which calls `exit`), fail a `g_assert`
  (which aborts), or loop for ever returns an `Except Halt _`;
* calls that only write to the log (`g_debug`, `error`) are not modelled.
-/

namespace Crystals

/-! ## The C stream model -/

/-- A C stream opened for reading: the bytes of the file, the file position
indicator and the end-of-file indicator. -/
structure FILE where
  data : List Nat
  pos : Nat
  eof : Bool
deriving DecidableEq, Repr

/-- The value `EOF` of `<stdio.h>`. -/
def EOF : Int := -1

/-- The C function `fgetc`: the next byte as an `unsigned char` converted to
`int`, or `EOF` (setting the end-of-file indicator) when there is none. -/
def fgetc (f : FILE) : Int × FILE :=
  match f.data[f.pos]? with
  | some b => (((b % 256 : Nat) : Int), { f with pos := f.pos + 1 })
  | none => (EOF, { f with eof := true })

/-- The C function `fread (buf, 1, n, file)`: the bytes read (at most `n`),
whose count is the return value; a short read sets the end-of-file
indicator. -/
def fread (n : Nat) (f : FILE) : List Nat × FILE :=
  let got := ((f.data.drop f.pos).take n).map (fun b => b % 256)
  (got, { f with pos := f.pos + got.length, eof := f.eof || decide (got.length < n) })

/-- The C function `fseek (file, offset, SEEK_SET)` for `offset >= 0`: it
always succeeds and clears the end-of-file indicator. -/
def fseek_set (offset : Nat) (f : FILE) : FILE :=
  { f with pos := offset, eof := false }

/-- The C function `fseek (file, offset, SEEK_CUR)` for `offset >= 0`. -/
def fseek_cur (offset : Nat) (f : FILE) : FILE :=
  { f with pos := f.pos + offset, eof := false }

/-- The C function `ftell`. -/
def ftell (f : FILE) : Nat := f.pos

/-- The C function `feof`. -/
def feof (f : FILE) : Bool := f.eof

/-- Conversion of an `int` to `uint16_t`. -/
def to_uint16 (i : Int) : Nat := (i % 65536).toNat

/-- `read_uint16` of `src/src/field/mapload.c`:
```
uint16_t ushort = 0;
ushort |= (uint16_t) (fgetc (file) << 8);
ushort |= (uint16_t) (fgetc (file));
return ushort;
```
The shift of the `int` returned by `fgetc` is a multiplication by 256. -/
def read_uint16 (f : FILE) : Nat × FILE :=
  let r0 := fgetc f
  let ushort := 0 ||| to_uint16 (r0.1 * 256)
  let r1 := fgetc r0.2
  let ushort := ushort ||| to_uint16 r1.1
  (ushort, r1.2)

/-- Modelled from the spec: `read_uint32` is called by the loader but is not
among the sources; the spec's binary layout says that all multi-byte integers
are big-endian, so the 32-bit value is the big-endian combination of two
successive 16-bit reads. -/
def read_uint32 (f : FILE) : Nat × FILE :=
  let hi := read_uint16 f
  let lo := read_uint16 hi.2
  (hi.1 * 65536 + lo.1, lo.2)

/-! ## Ways of not returning -/

/-- The ways in which a call stops the process (or never ends) instead of
returning: the `fatal` calls of the sources (which end in `exit (1)`), a
failed `g_assert`, and a loop of the model that used up its fuel. -/
inductive Halt where
  | fatal_missing_form_header
  | fatal_incorrect_file_type
  | fatal_missing_chunks
  | fatal_incorrect_version
  | fatal_no_tileset
  | assertion
  | out_of_fuel
deriving DecidableEq, Repr

/-- Whether the halt is one of the `fatal` calls. -/
def Halt.is_fatal : Halt → Bool
  | .fatal_missing_form_header => true
  | .fatal_incorrect_file_type => true
  | .fatal_missing_chunks => true
  | .fatal_incorrect_version => true
  | .fatal_no_tileset => true
  | .assertion => false
  | .out_of_fuel => false

/-- A `for` loop `for (l = l0; cond (l); l++)` whose counter is an unsigned
integer that wraps at `wrap`.  The loop need not end; the model gives up when
its fuel is used up. -/
def for_counter {σ : Type} (wrap : Nat) (fuel : Nat) (cond : Nat → Bool)
    (body : Nat → σ → Except Halt σ) (l : Nat) (s : σ) : Except Halt σ :=
  match fuel with
  | 0 => .error .out_of_fuel
  | fuel + 1 =>
    if cond l then
      match body l s with
      | .ok s1 => for_counter wrap fuel cond body ((l + 1) % wrap) s1
      | .error e => .error e
    else .ok s

/-- A `for` loop whose counter is a `uint16_t`. -/
def for_uint16 {σ : Type} (fuel : Nat) (cond : Nat → Bool)
    (body : Nat → σ → Except Halt σ) (l : Nat) (s : σ) : Except Halt σ :=
  for_counter 65536 fuel cond body l s

/-- A `for` loop whose counter is an `unsigned char`. -/
def for_uint8 {σ : Type} (fuel : Nat) (cond : Nat → Bool)
    (body : Nat → σ → Except Halt σ) (l : Nat) (s : σ) : Except Halt σ :=
  for_counter 256 fuel cond body l s

/-- Decidable equality of results. -/
instance instDecidableEqExcept {ε α : Type} [DecidableEq ε] [DecidableEq α] :
    DecidableEq (Except ε α) := fun a b =>
  match a, b with
  | .ok x, .ok y =>
    if h : x = y then isTrue (by rw [h]) else isFalse (fun e => h (by cases e; rfl))
  | .error x, .error y =>
    if h : x = y then isTrue (by rw [h]) else isFalse (fun e => h (by cases e; rfl))
  | .ok _, .error _ => isFalse (fun e => by cases e)
  | .error _, .ok _ => isFalse (fun e => by cases e)

/-! ## The map (data model) -/

/-- Modelled from the spec: the declaration of `map_t` (map.h) is not among
the sources.  The fields follow the spec's data model and the accesses made by
the sources (`map->width`, `map->height`, `map->value_planes[layer][i]`): the
dimensions in tiles, the highest layer and zone indices, one tag and one dense
value plane and zone plane per layer, and one properties word per zone. -/
structure map_t where
  width : Nat
  height : Nat
  max_layer_index : Nat
  max_zone_index : Nat
  layer_tags : List Nat
  value_planes : List (List Nat)
  zone_planes : List (List Nat)
  zone_properties : List Nat
deriving DecidableEq, Repr

/-- Modelled from the spec: `init_map` of the newer map.c is not among the
sources; it allocates the map for the given dimensions with every tag, tile,
zone and property zero: `max_layer_index + 1` planes of `width * height`
entries each and `max_zone_index + 1` property words. -/
def init_map (width height max_layer_index max_zone_index : Nat) : map_t :=
  { width := width
    height := height
    max_layer_index := max_layer_index
    max_zone_index := max_zone_index
    layer_tags := List.replicate (max_layer_index + 1) 0
    value_planes := List.replicate (max_layer_index + 1) (List.replicate (width * height) 0)
    zone_planes := List.replicate (max_layer_index + 1) (List.replicate (width * height) 0)
    zone_properties := List.replicate (max_zone_index + 1) 0 }

/-- Modelled from the spec: accessor of the missing map.c. -/
def get_map_width (map : map_t) : Nat := map.width

/-- Modelled from the spec: accessor of the missing map.c. -/
def get_map_height (map : map_t) : Nat := map.height

/-- Modelled from the spec: accessor of the missing map.c. -/
def get_max_layer (map : map_t) : Nat := map.max_layer_index

/-- Modelled from the spec: accessor of the missing map.c. -/
def get_max_zone (map : map_t) : Nat := map.max_zone_index

/-- Modelled from the spec: the offset of tile `(x, y)` in a plane.  The
accessors of the missing map.c are modelled with the row-major offset
`x + y * width` that the spec fixes for storage. -/
def tile_offset (map : map_t) (x y : Nat) : Nat := x + y * map.width

/-- Modelled from the spec: mutator of the missing map.c. -/
def set_layer_tag (map : map_t) (layer tag : Nat) : map_t :=
  { map with layer_tags := map.layer_tags.set layer tag }

/-- Modelled from the spec: accessor of the missing map.c. -/
def get_layer_tag (map : map_t) (layer : Nat) : Nat :=
  map.layer_tags.getD layer 0

/-- Modelled from the spec: mutator of the missing map.c; it stores the value
of tile `(x, y)` of the layer. -/
def set_tile_value (map : map_t) (layer x y value : Nat) : map_t :=
  let plane := (map.value_planes.getD layer []).set (tile_offset map x y) value
  { map with value_planes := map.value_planes.set layer plane }

/-- Modelled from the spec: accessor of the missing map.c. -/
def get_tile_value (map : map_t) (layer x y : Nat) : Nat :=
  (map.value_planes.getD layer []).getD (tile_offset map x y) 0

/-- Modelled from the spec: mutator of the missing map.c; it stores the zone
of tile `(x, y)` of the layer. -/
def set_tile_zone (map : map_t) (layer x y zone : Nat) : map_t :=
  let plane := (map.zone_planes.getD layer []).set (tile_offset map x y) zone
  { map with zone_planes := map.zone_planes.set layer plane }

/-- Modelled from the spec: accessor of the missing map.c. -/
def get_tile_zone (map : map_t) (layer x y : Nat) : Nat :=
  (map.zone_planes.getD layer []).getD (tile_offset map x y) 0

/-- Modelled from the spec: mutator of the missing map.c. -/
def set_zone_properties (map : map_t) (zone properties : Nat) : map_t :=
  { map with zone_properties := map.zone_properties.set zone properties }

/-! ## The map loader (`src/src/map/mapload.c`) -/

/-- Expected map version. -/
def MAP_VERSION : Nat := 1

/-- Sentinel chunk position. -/
def CHUNK_NOT_FOUND : Int := -1

/-- The enumeration `chunk_ids`. -/
def ID_FORM : Nat := 0
def ID_HEADER : Nat := 1
def ID_VERSION : Nat := 2
def ID_DIMENSIONS : Nat := 3
def ID_TAGS : Nat := 4
def ID_VALUES : Nat := 5
def ID_ZONES : Nat := 6
def ID_PROPERTIES : Nat := 7
def NUM_CHUNKS : Nat := 8

/-- Length in bytes of each chunk ID. -/
def ID_LENGTH : Nat := 4

/-- The array `CHUNK_IDS` as NUL-terminated byte strings: FORM, CMFT, VERS,
DIMS, TAGS, VALS, ZONE, PROP. -/
def CHUNK_IDS : List (List Nat) :=
  [ [70, 79, 82, 77, 0],
    [67, 77, 70, 84, 0],
    [86, 69, 82, 83, 0],
    [68, 73, 77, 83, 0],
    [84, 65, 71, 83, 0],
    [86, 65, 76, 83, 0],
    [90, 79, 78, 69, 0],
    [80, 82, 79, 80, 0] ]

/-- The C string held in a character buffer: the bytes before the first NUL. -/
def c_str (buf : List Nat) : List Nat := buf.takeWhile (fun b => b != 0)

/-- The C function `strlen`. -/
def strlen (buf : List Nat) : Nat := (c_str buf).length

/-- The test `strcmp (a, b) == 0`. -/
def strcmp_eq (a b : List Nat) : Bool := c_str a == c_str b

/-- `check_magic_sequence`: reads `strlen (sequence)` bytes into a zeroed
buffer, asserts that all of them were read, and compares the buffer with the
sequence. -/
def check_magic_sequence (file : FILE) (sequence : List Nat) : Except Halt (Bool × FILE) :=
  let r := fread (strlen sequence) file
  if r.1.length ≠ strlen sequence then .error .assertion
  else if ! strcmp_eq sequence (r.1 ++ [0]) then .ok (false, r.2)
  else .ok (true, r.2)

/-- `init_chunk_positions_array`: every position from `ID_VERSION` on holds
the sentinel; FORM and CMFT are at 0 and 4. -/
def init_chunk_positions_array : List Int :=
  let result := List.replicate NUM_CHUNKS (0 : Int)
  let result := (List.range' ID_VERSION (NUM_CHUNKS - ID_VERSION)).foldl
    (fun r i => r.set i CHUNK_NOT_FOUND) result
  let result := result.set ID_FORM 0
  result.set ID_HEADER 4

/-- The inner `for` loop of `scan_body_for_chunks`: every entry of `CHUNK_IDS`
equal to the chunk name gets the current file position. -/
def record_chunk_position (chunk_name : List Nat) (position : Nat)
    (chunk_positions : List Int) : List Int :=
  (List.range NUM_CHUNKS).foldl
    (fun cp i =>
      if strcmp_eq chunk_name (CHUNK_IDS.getD i []) then cp.set i (position : Int) else cp)
    chunk_positions

/-- The `while (feof (file) == 0)` loop of `scan_body_for_chunks`. -/
def scan_loop (fuel : Nat) (file : FILE) (chunk_positions : List Int) :
    Except Halt (List Int × FILE) :=
  match fuel with
  | 0 => .error .out_of_fuel
  | fuel + 1 =>
    if feof file then .ok (chunk_positions, file)
    else
      let r := fread ID_LENGTH file
      if r.1.length ≠ ID_LENGTH then .ok (chunk_positions, r.2)
      else
        let chunk_name := r.1 ++ [0]
        let len := read_uint32 r.2
        let chunk_positions := record_chunk_position chunk_name (ftell len.2) chunk_positions
        scan_loop fuel (fseek_cur len.1 len.2) chunk_positions

/-- `scan_body_for_chunks`.  Every turn of the loop that does not leave it
reads the four bytes of a chunk name, so the loop makes at most one turn per
byte of the file and one more; that is the fuel given to it.  The size check
after the loop only logs. -/
def scan_body_for_chunks (file : FILE) (file_length : Nat) (chunk_positions : List Int) :
    Except Halt (List Int × FILE) :=
  let _ := file_length
  scan_loop (file.data.length + 1) file chunk_positions

/-- `find_chunks`. -/
def find_chunks (file : FILE) : Except Halt (List Int × FILE) :=
  let chunk_positions := init_chunk_positions_array
  let file := fseek_set 0 file
  match check_magic_sequence file (CHUNK_IDS.getD ID_FORM []) with
  | .error e => .error e
  | .ok (false, _) => .error .fatal_missing_form_header
  | .ok (true, file) =>
    let len := read_uint32 file
    match check_magic_sequence len.2 (CHUNK_IDS.getD ID_HEADER []) with
    | .error e => .error e
    | .ok (false, _) => .error .fatal_incorrect_file_type
    | .ok (true, file) => scan_body_for_chunks file len.1 chunk_positions

/-- `chunks_missing`. -/
def chunks_missing (chunk_positions : List Int) : Bool :=
  (List.range NUM_CHUNKS).any (fun i => chunk_positions.getD i 0 == CHUNK_NOT_FOUND)

/-- `skip_to_chunk`. -/
def skip_to_chunk (file : FILE) (chunk_position : Int) : Except Halt FILE :=
  if chunk_position < 0 then .error .assertion
  else .ok (fseek_set chunk_position.toNat file)

/-- `read_map_version`. -/
def read_map_version (file : FILE) : Nat × FILE := read_uint16 file

/-- `read_map_version_chunk`. -/
def read_map_version_chunk (file : FILE) (chunk_position : Int) : Except Halt (Nat × FILE) :=
  match skip_to_chunk file chunk_position with
  | .error e => .error e
  | .ok file => .ok (read_map_version file)

/-- The four values stored in the DIMS chunk. -/
structure dimensions where
  width : Nat
  height : Nat
  max_layer_index : Nat
  max_zone_index : Nat
deriving DecidableEq, Repr

/-- `read_map_dimensions`. -/
def read_map_dimensions (file : FILE) : dimensions × FILE :=
  let w := read_uint16 file
  let h := read_uint16 w.2
  let l := read_uint16 h.2
  let z := read_uint16 l.2
  ({ width := w.1, height := h.1, max_layer_index := l.1, max_zone_index := z.1 }, z.2)

/-- `read_map_dimensions_chunk`. -/
def read_map_dimensions_chunk (file : FILE) (chunk_position : Int) :
    Except Halt (dimensions × FILE) :=
  match skip_to_chunk file chunk_position with
  | .error e => .error e
  | .ok file => .ok (read_map_dimensions file)

/-- `read_map_tags`: `for (l = 0; l <= get_max_layer (map); l++)`. -/
def read_map_tags (fuel : Nat) (s : FILE × map_t) : Except Halt (FILE × map_t) :=
  for_uint16 fuel (fun l => decide (l ≤ get_max_layer s.2))
    (fun l s =>
      let v := read_uint16 s.1
      .ok (v.2, set_layer_tag s.2 l v.1))
    0 s

/-- `read_map_tags_chunk`. -/
def read_map_tags_chunk (fuel : Nat) (file : FILE) (map : map_t) (chunk_position : Int) :
    Except Halt (FILE × map_t) :=
  match skip_to_chunk file chunk_position with
  | .error e => .error e
  | .ok file => read_map_tags fuel (file, map)

/-- `read_map_value_plane`: the outer loop runs over `x`, the inner one
over `y`. -/
def read_map_value_plane (fuel : Nat) (layer : Nat) (s : FILE × map_t) :
    Except Halt (FILE × map_t) :=
  for_uint16 fuel (fun x => decide (x < get_map_width s.2))
    (fun x s =>
      for_uint16 fuel (fun y => decide (y < get_map_height s.2))
        (fun y s =>
          let v := read_uint16 s.1
          .ok (v.2, set_tile_value s.2 layer x y v.1))
        0 s)
    0 s

/-- `read_map_value_planes`. -/
def read_map_value_planes (fuel : Nat) (s : FILE × map_t) : Except Halt (FILE × map_t) :=
  for_uint16 fuel (fun l => decide (l ≤ get_max_layer s.2))
    (fun l s => read_map_value_plane fuel l s)
    0 s

/-- `read_map_value_planes_chunk`. -/
def read_map_value_planes_chunk (fuel : Nat) (file : FILE) (map : map_t)
    (chunk_position : Int) : Except Halt (FILE × map_t) :=
  match skip_to_chunk file chunk_position with
  | .error e => .error e
  | .ok file => read_map_value_planes fuel (file, map)

/-- `read_layer_zone_plane`: the outer loop runs over `x`, the inner one
over `y`. -/
def read_layer_zone_plane (fuel : Nat) (layer : Nat) (s : FILE × map_t) :
    Except Halt (FILE × map_t) :=
  for_uint16 fuel (fun x => decide (x < get_map_width s.2))
    (fun x s =>
      for_uint16 fuel (fun y => decide (y < get_map_height s.2))
        (fun y s =>
          let v := read_uint16 s.1
          .ok (v.2, set_tile_zone s.2 layer x y v.1))
        0 s)
    0 s

/-- `read_map_zone_planes`. -/
def read_map_zone_planes (fuel : Nat) (s : FILE × map_t) : Except Halt (FILE × map_t) :=
  for_uint16 fuel (fun l => decide (l ≤ get_max_layer s.2))
    (fun l s => read_layer_zone_plane fuel l s)
    0 s

/-- `read_map_zone_planes_chunk`. -/
def read_map_zone_planes_chunk (fuel : Nat) (file : FILE) (map : map_t)
    (chunk_position : Int) : Except Halt (FILE × map_t) :=
  match skip_to_chunk file chunk_position with
  | .error e => .error e
  | .ok file => read_map_zone_planes fuel (file, map)

/-- `read_map_zone_properties`. -/
def read_map_zone_properties (fuel : Nat) (s : FILE × map_t) : Except Halt (FILE × map_t) :=
  for_uint16 fuel (fun i => decide (i ≤ get_max_zone s.2))
    (fun i s =>
      let v := read_uint16 s.1
      .ok (v.2, set_zone_properties s.2 i v.1))
    0 s

/-- `read_map_zone_properties_chunk`. -/
def read_map_zone_properties_chunk (fuel : Nat) (file : FILE) (map : map_t)
    (chunk_position : Int) : Except Halt (FILE × map_t) :=
  match skip_to_chunk file chunk_position with
  | .error e => .error e
  | .ok file => read_map_zone_properties fuel (file, map)

/-- The part of `parse_map_file` after the version check: dimensions, map
allocation, tags, value planes, zone planes, zone properties. -/
def parse_map_chunks (fuel : Nat) (file : FILE) (chunks : List Int) : Except Halt map_t :=
  match read_map_dimensions_chunk file (chunks.getD ID_DIMENSIONS 0) with
  | .error e => .error e
  | .ok (d, file) =>
    let map := init_map d.width d.height d.max_layer_index d.max_zone_index
    match read_map_tags_chunk fuel file map (chunks.getD ID_TAGS 0) with
    | .error e => .error e
    | .ok (file, map) =>
      match read_map_value_planes_chunk fuel file map (chunks.getD ID_VALUES 0) with
      | .error e => .error e
      | .ok (file, map) =>
        match read_map_zone_planes_chunk fuel file map (chunks.getD ID_ZONES 0) with
        | .error e => .error e
        | .ok (file, map) =>
          match read_map_zone_properties_chunk fuel file map (chunks.getD ID_PROPERTIES 0) with
          | .error e => .error e
          | .ok (_, map) => .ok map

/-- `parse_map_file`.  The loops whose counter can wrap get `fuel` turns
each. -/
def parse_map_file (fuel : Nat) (file : FILE) : Except Halt map_t :=
  match find_chunks file with
  | .error e => .error e
  | .ok (chunks, file) =>
    if chunks_missing chunks then .error .fatal_missing_chunks
    else
      match read_map_version_chunk file (chunks.getD ID_VERSION 0) with
      | .error e => .error e
      | .ok (version, file) =>
        if version ≠ MAP_VERSION then .error .fatal_incorrect_version
        else parse_map_chunks fuel file chunks

/-- The stream that `fopen (path, "rb")` gives for a file with these bytes. -/
def fopen (bytes : List Nat) : FILE := { data := bytes, pos := 0, eof := false }

/-! ## The file layout of the spec (reference encoder) -/

/-- A chunk of the file body: its 4-byte ID and its payload. -/
structure chunk where
  id : List Nat
  payload : List Nat
deriving DecidableEq, Repr

/-- Big-endian bytes of a 16-bit value. -/
def encode_uint16 (v : Nat) : List Nat := [v / 256 % 256, v % 256]

/-- Big-endian bytes of a 32-bit value. -/
def encode_uint32 (v : Nat) : List Nat :=
  encode_uint16 (v / 65536 % 65536) ++ encode_uint16 (v % 65536)

/-- A sequence of 16-bit values, each big-endian. -/
def encode_values (vs : List Nat) : List Nat := vs.flatMap encode_uint16

/-- A chunk on file: ID, length of the payload (the length field excludes
itself and the ID), payload. -/
def encode_chunk (c : chunk) : List Nat :=
  c.id ++ encode_uint32 c.payload.length ++ c.payload

/-- A file body: the chunks one after the other. -/
def encode_body (cs : List chunk) : List Nat := cs.flatMap encode_chunk

/-- A whole file: `FORM <u32 body_length> CMFT` and the chunks. -/
def encode_file (cs : List chunk) : List Nat :=
  [70, 79, 82, 77] ++ encode_uint32 (4 + (encode_body cs).length) ++ [67, 77, 70, 84]
    ++ encode_body cs

/-- The tiles of a plane in row-major order (outer loop over rows), the
order the spec fixes. -/
def plane_row_major (map : map_t) (plane : List Nat) : List Nat :=
  (List.range map.height).flatMap (fun y =>
    (List.range map.width).map (fun x => plane.getD (tile_offset map x y) 0))

/-- The tiles of a plane in column-major order (outer loop over columns). -/
def plane_column_major (map : map_t) (plane : List Nat) : List Nat :=
  (List.range map.width).flatMap (fun x =>
    (List.range map.height).map (fun y => plane.getD (tile_offset map x y) 0))

/-- The VERS chunk. -/
def vers_chunk : chunk := { id := [86, 69, 82, 83], payload := encode_uint16 MAP_VERSION }

/-- The DIMS chunk of a map. -/
def dims_chunk (map : map_t) : chunk :=
  { id := [68, 73, 77, 83]
    payload := encode_values [map.width, map.height, map.max_layer_index, map.max_zone_index] }

/-- The TAGS chunk of a map. -/
def tags_chunk (map : map_t) : chunk :=
  { id := [84, 65, 71, 83], payload := encode_values map.layer_tags }

/-- The VALS chunk of a map, each plane written in the given tile order. -/
def vals_chunk (order : map_t → List Nat → List Nat) (map : map_t) : chunk :=
  { id := [86, 65, 76, 83], payload := encode_values (map.value_planes.flatMap (order map)) }

/-- The ZONE chunk of a map, each plane written in the given tile order. -/
def zone_chunk (order : map_t → List Nat → List Nat) (map : map_t) : chunk :=
  { id := [90, 79, 78, 69], payload := encode_values (map.zone_planes.flatMap (order map)) }

/-- The PROP chunk of a map. -/
def prop_chunk (map : map_t) : chunk :=
  { id := [80, 82, 79, 80], payload := encode_values map.zone_properties }

/-- The six chunks of a map in the order of the spec's layout. -/
def map_chunks (order : map_t → List Nat → List Nat) (map : map_t) : List chunk :=
  [vers_chunk, dims_chunk map, tags_chunk map, vals_chunk order map, zone_chunk order map,
    prop_chunk map]

/-- The reference encoder: the spec's layout with the planes in the given
tile order. -/
def encode_map (order : map_t → List Nat → List Nat) (map : map_t) : List Nat :=
  encode_file (map_chunks order map)

/-- A well-formed map that the layout can hold: positive dimensions, at most
65535 layers and zones, one tag and one plane of `width * height` entries per
layer, one property word per zone, every stored number a 16-bit value and
every chunk length a 32-bit value. -/
def map_t.well_formed (map : map_t) : Bool :=
  decide (0 < map.width) && decide (map.width < 65536)
    && decide (0 < map.height) && decide (map.height < 65536)
    && decide (map.max_layer_index < 65535) && decide (map.max_zone_index < 65535)
    && decide (2 * (map.width * map.height * (map.max_layer_index + 1)) < 4294967296)
    && decide (map.layer_tags.length = map.max_layer_index + 1)
    && decide (map.value_planes.length = map.max_layer_index + 1)
    && decide (map.zone_planes.length = map.max_layer_index + 1)
    && decide (map.zone_properties.length = map.max_zone_index + 1)
    && map.layer_tags.all (fun v => decide (v < 65536))
    && map.zone_properties.all (fun v => decide (v < 65536))
    && map.value_planes.all (fun p =>
        decide (p.length = map.width * map.height) && p.all (fun v => decide (v < 65536)))
    && map.zone_planes.all (fun p =>
        decide (p.length = map.width * map.height) && p.all (fun v => decide (v < 65536)))

/-! ## The map view (`src/src/map/mapview.c`) -/

def TILE_W : Nat := 32
def TILE_H : Nat := 32

/-- Width of the screen in pixels (graphics.h). -/
def SCREEN_W : Nat := 640

/-- Height of the screen in pixels (graphics.h). -/
def SCREEN_H : Nat := 480

/-- The tag of a layer that takes no sprites. -/
def NULL_TAG : Nat := 0

/-- Value raised by functions upon success (util.h). -/
def SUCCESS : Int := 1

/-- Value raised by functions upon failure (util.h). -/
def FAILURE : Int := 0

/-- Conversion of an `int` to `int16_t` (`short`). -/
def to_int16 (i : Int) : Int := (i + 32768) % 65536 - 32768

/-- The value of an `int` (`int32_t`) sum or difference that wraps at 32
bits. -/
def to_int32 (i : Int) : Int := (i + 2147483648) % 4294967296 - 2147483648

/-- A dirty rectangle, in map pixels.  The `parent` pointer of the C
structure points back to the view that holds the rectangle. -/
structure dirty_rectangle_t where
  start_x : Int
  start_y : Int
  width : Int
  height : Int
deriving DecidableEq, Repr

/-- The image descriptor of an object (the fields that `init_object_image`
of `src/src/field/mapview.c` sets). -/
structure object_image_t where
  filename : Option (List Nat)
  image_x : Int
  image_y : Int
  map_x : Int
  map_y : Int
  width : Nat
  height : Nat
deriving DecidableEq, Repr

/-- An object of the registry (the fields that `add_object` of `src/object.c`
sets). -/
structure object_t where
  name : List Nat
  script_filename : List Nat
  tag : Nat
  is_dirty : Bool
  image : object_image_t
deriving DecidableEq, Repr

/-- A node of a sprite queue: the object it points to, given by name, and
the image it points to. -/
structure render_node_t where
  object : List Nat
  image : object_image_t
deriving DecidableEq, Repr

/-- A call made to the graphics subsystem. -/
inductive gfx_call where
  | add_update_rectangle (x y width height : Int)
  | draw_image_direct (image_x image_y screen_x screen_y : Int) (width height : Nat)
  | draw_image (filename : Option (List Nat)) (image_x image_y screen_x screen_y : Int)
      (width height : Nat)
  | scroll_screen (x_offset y_offset : Int)
deriving DecidableEq, Repr

/-- The map view: viewport offset, map, sprite queues (one per tag, queue
`tag - 1` for tag `tag`) and the list of dirty rectangles. -/
structure mapview_t where
  x_offset : Int
  y_offset : Int
  map : map_t
  num_object_queues : Nat
  object_queue : List (List render_node_t)
  dirty_rectangles : List dirty_rectangle_t
deriving DecidableEq, Repr

/-- The state outside the view that rendering reads and writes: the object
registry, whether `load_image (FN_TILESET)` gives an image, and the calls made
to the graphics subsystem so far, oldest first. -/
structure engine_t where
  objects : List object_t
  tileset_loads : Bool
  calls : List gfx_call
deriving DecidableEq, Repr

/-- The effect of `apply_to_objects (dirty_object_test, rectangle)`, whose
code is not among the sources, on the sprite queues and on the registry; it is
a parameter of the renderer.  It gets the view to read from. -/
abbrev object_pass : Type :=
  mapview_t → dirty_rectangle_t → List object_t →
    Except Halt (List (List render_node_t) × List object_t)

/-- The GLib function `g_slist_foreach`: calls the function on each element
of the list, first to last. -/
def g_slist_foreach {α σ : Type} (list : List α) (func : α → σ → Except Halt σ) (s : σ) :
    Except Halt σ :=
  match list with
  | [] => .ok s
  | a :: rest =>
    match func a s with
    | .ok s1 => g_slist_foreach rest func s1
    | .error e => .error e

/-- `mark_dirty_rect` of `src/src/map/mapview.c`: asserts `width > 0 &&
height > 0` and prepends the rectangle to the list. -/
def mark_dirty_rect (mapview : mapview_t) (start_x start_y width height : Int) :
    Except Halt mapview_t :=
  if ¬ (width > 0 ∧ height > 0) then .error .assertion
  else
    let rect : dirty_rectangle_t :=
      { start_x := start_x, start_y := start_y, width := width, height := height }
    .ok { mapview with dirty_rectangles := rect :: mapview.dirty_rectangles }

/-- `handle_dirty_rectangle`: a rectangle off the screen is left alone;
otherwise it is passed on in screen co-ordinates and the objects are tested
against it.  The fields of the rectangle are `int32_t` values, and the sums of
the test are made in `int`: a sum outside the 32-bit range, which C leaves
undefined, is taken to wrap.  The prototype of `add_update_rectangle` is not
among the sources; the call is recorded with the arguments as the entry point
of the graphics module receives them,
`add_update_rectangle_internal (int16_t x, int16_t y, uint16_t width,
uint16_t height)` in `src/src/modules/gfx-dummy.c`. -/
def handle_dirty_rectangle (objects_pass : object_pass) (rectangle : dirty_rectangle_t)
    (s : mapview_t × engine_t) : Except Halt (mapview_t × engine_t) :=
  let mapview := s.1
  if rectangle.start_x ≥ to_int32 ((SCREEN_W : Int) + mapview.x_offset)
      ∨ rectangle.start_y ≥ to_int32 ((SCREEN_H : Int) + mapview.y_offset)
      ∨ to_int32 (rectangle.start_x + rectangle.width) ≤ mapview.x_offset
      ∨ to_int32 (rectangle.start_y + rectangle.height) ≤ mapview.y_offset then .ok s
  else
    let calls := s.2.calls ++ [gfx_call.add_update_rectangle
      (to_int16 (to_int32 (rectangle.start_x - mapview.x_offset)))
      (to_int16 (to_int32 (rectangle.start_y - mapview.y_offset)))
      ((to_uint16 rectangle.width : Nat) : Int) ((to_uint16 rectangle.height : Nat) : Int)]
    match objects_pass mapview rectangle s.2.objects with
    | .error e => .error e
    | .ok (queues, objects) =>
      .ok ({ mapview with object_queue := queues },
           { s.2 with objects := objects, calls := calls })

/-- The integers `first, first + 1, ..., last - 1`, the values of an `int`
counter in `for (x = first; x < last; x += 1)`. -/
def int_range (first last : Int) : List Int :=
  (List.range (last - first).toNat).map (fun i => first + (i : Int))

/-- The body of the inner loop of `render_rect_layer` for tile `(x, y)`. -/
def render_tile (mapview : mapview_t) (layer : Nat) (x y : Int) (calls : List gfx_call) :
    List gfx_call :=
  if y > (mapview.map.height : Int) ∨ y < 0 then calls
  else
    let screen_x := x * (TILE_W : Int) - mapview.x_offset
    let screen_y := y * (TILE_H : Int) - mapview.y_offset
    let tile :=
      (mapview.map.value_planes.getD layer []).getD (x + y * (mapview.map.height : Int)).toNat 0
    if tile > 0 then
      let tileset_x : Int := (TILE_W : Int) * (tile : Int)
      calls ++ [gfx_call.draw_image_direct (to_int16 tileset_x) 0 (to_int16 screen_x)
        (to_int16 screen_y) TILE_W TILE_H]
    else calls

/-- `render_rect_layer`: the tiles of one layer under one dirty rectangle.
A read outside the plane is taken to give 0. -/
def render_rect_layer (mapview : mapview_t) (layer : Nat) (rectangle : dirty_rectangle_t)
    (calls : List gfx_call) : List gfx_call :=
  let tile_start_x := Int.tdiv rectangle.start_x (TILE_W : Int)
  let tile_start_y := Int.tdiv rectangle.start_y (TILE_H : Int)
  let tile_end_x := Int.tdiv (rectangle.start_x + rectangle.width) (TILE_W : Int)
  let tile_end_y := Int.tdiv (rectangle.start_y + rectangle.height) (TILE_H : Int)
  let tile_end_x :=
    if Int.tmod (rectangle.start_x + rectangle.width) (TILE_W : Int) > 0 then tile_end_x + 1
    else tile_end_x
  let tile_end_y :=
    if Int.tmod (rectangle.start_y + rectangle.height) (TILE_H : Int) > 0 then tile_end_y + 1
    else tile_end_y
  (int_range tile_start_x tile_end_x).foldl
    (fun calls x =>
      if x > (mapview.map.width : Int) ∨ x < 0 then calls
      else (int_range tile_start_y tile_end_y).foldl
        (fun calls y => render_tile mapview layer x y calls) calls)
    calls

/-- `render_map_layer`: fatal without the tileset; otherwise every dirty
rectangle of the list is rendered for the layer. -/
def render_map_layer (layer : Nat) (s : mapview_t × engine_t) :
    Except Halt (mapview_t × engine_t) :=
  if ! s.2.tileset_loads then .error .fatal_no_tileset
  else
    .ok (s.1, { s.2 with calls :=
      s.1.dirty_rectangles.foldl (fun calls r => render_rect_layer s.1 layer r calls) s.2.calls })

/-- One turn of the `while` loop of `render_map_objects`: the head node of
the queue is drawn and its object marked as no longer dirty. -/
def render_node (mapview : mapview_t) (node : render_node_t) (engine : engine_t) : engine_t :=
  { engine with
    calls := engine.calls ++ [gfx_call.draw_image node.image.filename node.image.image_x
      node.image.image_y (to_int16 (node.image.map_x - mapview.x_offset))
      (to_int16 (node.image.map_y - mapview.y_offset)) node.image.width node.image.height]
    objects := engine.objects.map
      (fun o => if o.name = node.object then { o with is_dirty := false } else o) }

/-- `render_map_objects`: if the layer has a tag, the queue of the tag is
drawn node by node and left empty. -/
def render_map_objects (layer : Nat) (s : mapview_t × engine_t) : mapview_t × engine_t :=
  let tag := get_layer_tag s.1.map layer
  if tag > NULL_TAG then
    let queue := s.1.object_queue.getD (tag - 1) []
    ({ s.1 with object_queue := s.1.object_queue.set (tag - 1) [] },
      queue.foldl (fun engine node => render_node s.1 node engine) s.2)
  else s

/-- `render_map`: nothing to do without dirty rectangles; otherwise the
rectangles are handled, the layers are rendered in turn (the layer counter is
an `unsigned char`), each followed by its objects, and the list of dirty
rectangles is freed and set to `NULL`. -/
def render_map (fuel : Nat) (objects_pass : object_pass) (s : mapview_t × engine_t) :
    Except Halt (mapview_t × engine_t) :=
  if s.1.dirty_rectangles = [] then .ok s
  else
    match g_slist_foreach s.1.dirty_rectangles (handle_dirty_rectangle objects_pass) s with
    | .error e => .error e
    | .ok s1 =>
      match for_uint8 fuel (fun l => decide (l ≤ get_max_layer s1.1.map))
          (fun l s =>
            match render_map_layer l s with
            | .error e => .error e
            | .ok s2 => .ok (render_map_objects l s2))
          0 s1 with
      | .error e => .error e
      | .ok s3 => .ok ({ s3.1 with dirty_rectangles := [] }, s3.2)

/-! ## The map view with a dirty-tile matrix (`src/src/field/mapview.c`) -/

namespace Field

/-- The map of this generation (`struct map` as used by `src/src/field/map.c`
and `src/src/field/mapview.c`). -/
structure map where
  width : Int
  height : Int
  num_layers : Nat
  layer_tags : List Nat
  data_layers : List (List Nat)
deriving DecidableEq, Repr

/-- A dirty rectangle, in tiles; the `next` pointer is the rest of the
queue. -/
structure dirty_rectangle where
  start_x : Int
  start_y : Int
  width : Int
  height : Int
deriving DecidableEq, Repr

/-- A queued copy of an object image; `parent` names the object. -/
structure object_image where
  parent : Option (List Nat)
  filename : Option (List Nat)
  image_x : Int
  image_y : Int
  map_x : Int
  map_y : Int
  width : Nat
  height : Nat
deriving DecidableEq, Repr

/-- The map view of this generation. -/
structure map_view where
  x_offset : Int
  y_offset : Int
  map : map
  dirty_tiles : List Nat
  num_object_queues : Nat
  object_queue : List (List object_image)
  dirty_rectangles : List dirty_rectangle
deriving DecidableEq, Repr

/-- `add_dirty_rect`: the rectangle goes to the end of the queue. -/
def add_dirty_rect (mapview : map_view) (start_x start_y width height : Int) :
    Int × map_view :=
  let rect : dirty_rectangle :=
    { start_x := start_x, start_y := start_y, width := width, height := height }
  (SUCCESS, { mapview with dirty_rectangles := mapview.dirty_rectangles ++ [rect] })

/-- The two nested loops of `mark_dirty_rect` that set the tiles of the
rectangle inside the map to the number of layers, at index
`x + y * map->width`. -/
def mark_dirty_tiles (mapview : map_view) (rect : dirty_rectangle) : List Nat :=
  (int_range rect.start_x (rect.start_x + rect.width)).foldl
    (fun tiles x =>
      (int_range rect.start_y (rect.start_y + rect.height)).foldl
        (fun tiles y =>
          if x ≥ 0 ∧ y ≥ 0 ∧ x < mapview.map.width ∧ y < mapview.map.height then
            tiles.set (x + y * mapview.map.width).toNat mapview.map.num_layers
          else tiles)
        tiles)
    mapview.dirty_tiles

/-- The `while (mapview->dirty_rectangles != NULL)` loop of `mark_dirty_rect`.
The code behind `apply_to_hash_objects (g_objects, dirty_object_test, rect)` is
not among the sources: it is the parameter `objects_pass`, acting on the view
and on the object state `ω`. -/
def process_dirty_rectangles {ω : Type} (fuel : Nat)
    (objects_pass : dirty_rectangle → map_view × ω → map_view × ω) (s : map_view × ω) :
    Except Halt (map_view × ω) :=
  match fuel with
  | 0 => .error .out_of_fuel
  | fuel + 1 =>
    match s.1.dirty_rectangles with
    | [] => .ok s
    | rect :: _ =>
      let marked : map_view := { s.1 with dirty_tiles := mark_dirty_tiles s.1 rect }
      let s1 := objects_pass rect (marked, s.2)
      process_dirty_rectangles fuel objects_pass
        ({ s1.1 with dirty_rectangles := s1.1.dirty_rectangles.tail }, s1.2)

/-- `mark_dirty_rect` of `src/src/field/mapview.c`; a `NULL` view is `none`. -/
def mark_dirty_rect {ω : Type} (fuel : Nat)
    (objects_pass : dirty_rectangle → map_view × ω → map_view × ω)
    (mapview : Option map_view) (objects : ω) (start_x start_y width height : Int) :
    Except Halt (Int × Option map_view × ω) :=
  match mapview with
  | none => .ok (FAILURE, none, objects)
  | some mv =>
    if width ≤ 0 ∨ height ≤ 0 then .ok (FAILURE, some mv, objects)
    else if mv.dirty_rectangles ≠ [] then
      let r := add_dirty_rect mv start_x start_y width height
      .ok (r.1, some r.2, objects)
    else
      let r := add_dirty_rect mv start_x start_y width height
      if r.1 = FAILURE then .ok (FAILURE, some r.2, objects)
      else
        match process_dirty_rectangles fuel objects_pass (r.2, objects) with
        | .error e => .error e
        | .ok s => .ok (SUCCESS, some s.1, s.2)

end Field

/-! ## Sample states -/

/-- A view of a 1x1 map with an empty queue (field generation). -/
def sample_field_view : Field.map_view :=
  { x_offset := 0, y_offset := 0
    map := { width := 1, height := 1, num_layers := 1, layer_tags := [1], data_layers := [[1]] }
    dirty_tiles := [0], num_object_queues := 1, object_queue := [[]], dirty_rectangles := [] }

/-- A 2x2 single-layer map with tag 1. -/
def sample_map : map_t :=
  { width := 2, height := 2, max_layer_index := 0, max_zone_index := 0
    layer_tags := [1], value_planes := [[1, 0, 0, 1]], zone_planes := [[0, 0, 0, 0]]
    zone_properties := [0] }

/-- A view of the sample map with one queued rectangle. -/
def sample_mapview : mapview_t :=
  { x_offset := 0, y_offset := 0, map := sample_map, num_object_queues := 1
    object_queue := [[]]
    dirty_rectangles := [{ start_x := 0, start_y := 0, width := 64, height := 64 }] }

/-- An object pass that dirties no object. -/
def no_objects_pass : object_pass := fun mv _ objs => .ok (mv.object_queue, objs)

/-! ## Chunk sequences -/

/-- A chunk that the layout can hold: a 4-byte ID and a payload whose length
fits the 32-bit length field. -/
def chunk.valid (c : chunk) : Bool :=
  decide (c.id.length = 4) && c.id.all (fun b => decide (b < 256))
    && decide (c.payload.length < 4294967296)

/-- The chunk positions that a scan of the chunks `cs`, the first of which
starts at file position `p`, leaves in the array `cp`: each chunk in turn
records the position of its payload under every ID equal to its own. -/
def chunk_positions_after (cs : List chunk) (p : Nat) (cp : List Int) : List Int :=
  match cs with
  | [] => cp
  | c :: rest =>
    chunk_positions_after rest (p + 8 + c.payload.length)
      (record_chunk_position (c.id ++ [0]) (p + 8) cp)

/-- The chunk `c` occurs in the sequence `cs` and no later chunk of `cs` has
the same ID. -/
def is_last_with_id (cs : List chunk) (c : chunk) : Prop :=
  ∃ pre post, cs = pre ++ c :: post ∧ ∀ d ∈ post, d.id ≠ c.id

/-- The ID of every chunk the loader looks for, without the NUL. -/
def chunk_id (i : Nat) : List Nat := (CHUNK_IDS.getD i []).take 4

/-- A file body with every chunk but DIMS. -/
def chunks_without_dims : List chunk :=
  [vers_chunk, tags_chunk sample_map, vals_chunk plane_column_major sample_map,
    zone_chunk plane_column_major sample_map, prop_chunk sample_map]


/-- The 16-bit big-endian value stored in the file at position `p`, if the
file has two bytes there. -/
def stored_uint16 (data : List Nat) (p : Nat) : Option Nat :=
  match data[p]?, data[p + 1]? with
  | some b0, some b1 => some (256 * (b0 % 256) + b1 % 256)
  | _, _ => none

/-- The file of the sample map with version number 2 in its VERS chunk. -/
def sample_file_version_2 : List Nat :=
  encode_file [{ id := [86, 69, 82, 83], payload := encode_uint16 2 }, dims_chunk sample_map,
    tags_chunk sample_map, vals_chunk plane_column_major sample_map,
    zone_chunk plane_column_major sample_map, prop_chunk sample_map]

/-- The file of the sample map cut off before the two payload bytes of its
PROP chunk, the last chunk. -/
def sample_file_truncated : List Nat :=
  (encode_map plane_column_major sample_map).take 88

/-! ## The reading loops as folds -/

/-- The body of the innermost loop of a plane reader: a 16-bit read whose
value is stored with `setter` (`set_tile_value` or `set_tile_zone`). -/
def read_tile (setter : map_t → Nat → Nat → Nat → Nat → map_t) (layer x y : Nat)
    (s : FILE × map_t) : FILE × map_t :=
  ((read_uint16 s.1).2, setter s.2 layer x y (read_uint16 s.1).1)

/-- The inner loop of a plane reader, over `y`. -/
def read_column (setter : map_t → Nat → Nat → Nat → Nat → map_t) (layer x : Nat)
    (s : FILE × map_t) : FILE × map_t :=
  (List.range' 0 (get_map_height s.2)).foldl (fun s y => read_tile setter layer x y s) s

/-- The outer loop of a plane reader, over `x`. -/
def read_plane (setter : map_t → Nat → Nat → Nat → Nat → map_t) (layer : Nat)
    (s : FILE × map_t) : FILE × map_t :=
  (List.range' 0 (get_map_width s.2)).foldl (fun s x => read_column setter layer x s) s

/-- The body of a loop that reads one 16-bit value per index and stores it
with `setter` (`set_layer_tag` or `set_zone_properties`). -/
def read_entry (setter : map_t → Nat → Nat → map_t) (i : Nat) (s : FILE × map_t) :
    FILE × map_t :=
  ((read_uint16 s.1).2, setter s.2 i (read_uint16 s.1).1)

/-- The tiles that a plane reader stores, with the values it is given, in
the order of its loops: `x` outside, `y` inside. -/
def write_plane (setter : map_t → Nat → Nat → Nat → Nat → map_t) (w h : Nat)
    (value : Nat → Nat → Nat) (layer : Nat) (map : map_t) : map_t :=
  (List.range' 0 w).foldl
    (fun m x => (List.range' 0 h).foldl (fun m y => setter m layer x y (value x y)) m) map

/-- The bytes of one plane as the plane readers take them: column after
column. -/
def plane_bytes (w h : Nat) (value : Nat → Nat → Nat) : List Nat :=
  (List.range' 0 w).flatMap
    (fun x => (List.range' 0 h).flatMap (fun y => encode_uint16 (value x y)))

/-- The dimensions are what the DIMS chunk says and every one of them lets
the 16-bit loop counters reach the end. -/
def dims_ok (w h : Nat) (fuel : Nat) (map : map_t) : Prop :=
  map.width = w ∧ map.height = h ∧ w < 65536 ∧ h < 65536 ∧ w < fuel ∧ h < fuel

/-- A setter of tiles leaves the dimensions of the map alone. -/
def keeps_dims (setter : map_t → Nat → Nat → Nat → Nat → map_t) : Prop :=
  ∀ m l x y v, (setter m l x y v).width = m.width ∧ (setter m l x y v).height = m.height

/-! ## Fields of the map -/

/-- A tile plane of the map seen as a field with a getter and a putter. -/
structure plane_field where
  get : map_t → List (List Nat)
  put : List (List Nat) → map_t → map_t
  setter : map_t → Nat → Nat → Nat → Nat → map_t
  get_put : ∀ v m, get (put v m) = v
  put_put : ∀ u v m, put v (put u m) = put v m
  put_get : ∀ m, put (get m) m = m
  width_put : ∀ v m, (put v m).width = m.width
  setter_eq : ∀ m l x y v,
    setter m l x y v = put ((get m).set l (((get m).getD l []).set (x + y * m.width) v)) m

/-- The value planes as a field. -/
def value_field : plane_field :=
  { get := fun m => m.value_planes
    put := fun v m => { m with value_planes := v }
    setter := set_tile_value
    get_put := fun _ _ => rfl
    put_put := fun _ _ _ => rfl
    put_get := fun _ => rfl
    width_put := fun _ _ => rfl
    setter_eq := fun _ _ _ _ _ => rfl }

/-- The zone planes as a field. -/
def zone_field : plane_field :=
  { get := fun m => m.zone_planes
    put := fun v m => { m with zone_planes := v }
    setter := set_tile_zone
    get_put := fun _ _ => rfl
    put_put := fun _ _ _ => rfl
    put_get := fun _ => rfl
    width_put := fun _ _ => rfl
    setter_eq := fun _ _ _ _ _ => rfl }

/-- A list of entries of the map seen as a field with a getter and a putter. -/
structure entry_field where
  get : map_t → List Nat
  put : List Nat → map_t → map_t
  setter : map_t → Nat → Nat → map_t
  get_put : ∀ v m, get (put v m) = v
  put_put : ∀ u v m, put v (put u m) = put v m
  put_get : ∀ m, put (get m) m = m
  setter_eq : ∀ m i v, setter m i v = put ((get m).set i v) m

/-- The layer tags as a field. -/
def tag_field : entry_field :=
  { get := fun m => m.layer_tags
    put := fun v m => { m with layer_tags := v }
    setter := set_layer_tag
    get_put := fun _ _ => rfl
    put_put := fun _ _ _ => rfl
    put_get := fun _ => rfl
    setter_eq := fun _ _ _ => rfl }

/-- The zone properties as a field. -/
def property_field : entry_field :=
  { get := fun m => m.zone_properties
    put := fun v m => { m with zone_properties := v }
    setter := set_zone_properties
    get_put := fun _ _ => rfl
    put_put := fun _ _ _ => rfl
    put_get := fun _ => rfl
    setter_eq := fun _ _ _ => rfl }

/-- The planes of a map are the planes of a well-formed map of `n` layers of
`w * h` tiles. -/
def planes_ok (w h n : Nat) (planes : List (List Nat)) : Prop :=
  planes.length = n ∧ ∀ pl ∈ planes, pl.length = w * h ∧ ∀ v ∈ pl, v < 65536

/-- A 2x2 single-layer map whose value plane and zone plane are not
symmetric. -/
def sample_map_2 : map_t :=
  { width := 2, height := 2, max_layer_index := 0, max_zone_index := 0
    layer_tags := [1], value_planes := [[1, 2, 3, 4]], zone_planes := [[0, 1, 0, 0]]
    zone_properties := [5] }

/-- The second sample map with both planes transposed. -/
def sample_map_2_transposed : map_t :=
  { sample_map_2 with value_planes := [[1, 3, 2, 4]], zone_planes := [[0, 0, 1, 0]] }

/-- A chunk with an ID ("JUNK") that the loader does not look for. -/
def junk_chunk : chunk := { id := [74, 85, 78, 75], payload := [1, 2, 3] }

/-- A 3x2 single-layer map. -/
def sample_map_3x2 : map_t :=
  { width := 3, height := 2, max_layer_index := 0, max_zone_index := 0
    layer_tags := [1], value_planes := [[1, 2, 3, 4, 5, 6]]
    zone_planes := [[0, 1, 0, 0, 2, 0]], zone_properties := [5] }

/-! ## The sprite queues (`src/src/map/mapview.c`) -/

/-- The value by which `add_object_image` orders a queue:
`image->map_y + image->height` of the node. -/
def render_key (node : render_node_t) : Int :=
  node.image.map_y + (node.image.height : Int)

/-- The `for` loop of `add_object_image` and the insertion that follows it.
The loop stands at `ptr`, which has `rest` after it in the queue; it moves on
while there is a next node and the key of the next node is at most the key of
the new node, and the new node is linked in right after the node at which the
loop stops. -/
def insert_after (new_rnode ptr : render_node_t) (rest : List render_node_t) :
    List render_node_t :=
  match rest with
  | [] => [ptr, new_rnode]
  | next :: rest1 =>
    if render_key next ≤ render_key new_rnode then ptr :: insert_after new_rnode next rest1
    else ptr :: new_rnode :: next :: rest1

/-- The last `if` of `add_object_image`, on the queue of the tag: the new
node becomes the head if the queue is empty or the key of the head is greater
than its key; otherwise it goes where the loop stops. -/
def queue_insert (new_rnode : render_node_t) (queue : List render_node_t) :
    List render_node_t :=
  match queue with
  | [] => [new_rnode]
  | head :: rest =>
    if render_key head > render_key new_rnode then new_rnode :: head :: rest
    else insert_after new_rnode head rest

/-- `add_object_image` of `src/src/map/mapview.c`: the assertions on the tag
and on the image of the object, then the insertion of a node for the object
in the queue of the tag.  The node points to the object and to its image; the
model keeps the name of the object and the image as it is while the node is
queued. -/
def add_object_image (mapview : mapview_t) (tag : Nat) (object : object_t) :
    Except Halt mapview_t :=
  if tag = NULL_TAG then .error .assertion
  else if ¬ (tag ≤ mapview.num_object_queues) then .error .assertion
  else
    let image := object.image
    if image.filename = none then .error .assertion
    else if ¬ (image.width ≠ 0 ∧ image.height ≠ 0) then .error .assertion
    else
      let new_rnode : render_node_t := { object := object.name, image := image }
      let queue := queue_insert new_rnode (mapview.object_queue.getD (tag - 1) [])
      .ok { mapview with object_queue := mapview.object_queue.set (tag - 1) queue }

/-- A sequence of calls of `add_object_image` for one tag, one call per
object of the list, first to last. -/
def add_object_images (mapview : mapview_t) (tag : Nat) (objects : List object_t) :
    Except Halt mapview_t :=
  match objects with
  | [] => .ok mapview
  | object :: rest =>
    match add_object_image mapview tag object with
    | .error e => .error e
    | .ok mapview1 => add_object_images mapview1 tag rest

/-- The node that `add_object_image` makes for an object. -/
def node_of (object : object_t) : render_node_t :=
  { object := object.name, image := object.image }

/-- Modelled from the spec: `set_dirty (object, view)` of the object registry
(section 4.3), whose code for this generation is not among the sources.  An
object that is dirty already is not enqueued again; an object whose bounds do
not lie within the pixel extents of the map fails; otherwise, only if the tag
is not zero, the object is marked dirty and enqueued in the view. -/
def set_dirty (object : object_t) (mapview : mapview_t) :
    Except Halt (Int × object_t × mapview_t) :=
  if object.is_dirty then .ok (SUCCESS, object, mapview)
  else if object.image.map_x < 0 ∨ object.image.map_y < 0
      ∨ object.image.map_x + (object.image.width : Int)
          > ((mapview.map.width * TILE_W : Nat) : Int)
      ∨ object.image.map_y + (object.image.height : Int)
          > ((mapview.map.height * TILE_H : Nat) : Int) then
    .ok (FAILURE, object, mapview)
  else if object.tag ≠ 0 then
    let dirty : object_t := { object with is_dirty := true }
    match add_object_image mapview object.tag dirty with
    | .error e => .error e
    | .ok mapview1 => .ok (SUCCESS, dirty, mapview1)
  else .ok (FAILURE, object, mapview)

/-- Modelled from the spec: the test of one registered object against a dirty
rectangle (section 4.2, step 3), whose code is not among the sources: an
object whose bounding box intersects the rectangle, both in map pixels, is set
dirty. -/
def dirty_object_test (rectangle : dirty_rectangle_t) (object : object_t)
    (mapview : mapview_t) : Except Halt (object_t × mapview_t) :=
  if object.image.map_x < rectangle.start_x + rectangle.width
      ∧ rectangle.start_x < object.image.map_x + (object.image.width : Int)
      ∧ object.image.map_y < rectangle.start_y + rectangle.height
      ∧ rectangle.start_y < object.image.map_y + (object.image.height : Int) then
    match set_dirty object mapview with
    | .error e => .error e
    | .ok r => .ok (r.2.1, r.2.2)
  else .ok (object, mapview)

/-- Modelled from the spec: the test applied to every object of the registry
in turn. -/
def dirty_objects (rectangle : dirty_rectangle_t) (objects : List object_t)
    (mapview : mapview_t) : Except Halt (List object_t × mapview_t) :=
  match objects with
  | [] => .ok ([], mapview)
  | object :: rest =>
    match dirty_object_test rectangle object mapview with
    | .error e => .error e
    | .ok r =>
      match dirty_objects rectangle rest r.2 with
      | .error e => .error e
      | .ok r1 => .ok (r.1 :: r1.1, r1.2)

/-- Modelled from the spec: `apply_to_objects (dirty_object_test, rectangle)`
as an object pass of the renderer. -/
def apply_to_objects : object_pass := fun mapview rectangle objects =>
  match dirty_objects rectangle objects mapview with
  | .error e => .error e
  | .ok r => .ok (r.2.object_queue, r.1)

/-! ## Making a view (`src/src/field/mapview.c`, `src/src/field/map.c`) -/

namespace Field

/-- `get_tag` of `src/src/field/map.c`; a `NULL` map is `none`. -/
def get_tag (m : Option map) (layer : Nat) : Nat :=
  match m with
  | none => NULL_TAG
  | some mp => if layer ≥ mp.num_layers then NULL_TAG else mp.layer_tags.getD layer 0

/-- `get_max_tag` of `src/src/field/map.c`: the highest tag over the layers
`0 .. num_layers - 1`, and `NULL_TAG` for a `NULL` map. -/
def get_max_tag (m : Option map) : Nat :=
  match m with
  | none => NULL_TAG
  | some mp =>
    (List.range mp.num_layers).foldl
      (fun result l => if get_tag (some mp) l > result then get_tag (some mp) l else result)
      NULL_TAG

/-- `init_mapview` of `src/src/field/mapview.c`; the result `NULL` is `none`.
Allocation is taken to succeed, and the dirty-tile matrix to start with
zeros. -/
def init_mapview {ω : Type} (fuel : Nat)
    (objects_pass : dirty_rectangle → map_view × ω → map_view × ω)
    (m : Option map) (objects : ω) : Except Halt (Option map_view × ω) :=
  match m with
  | none => .ok (none, objects)
  | some mp =>
    let width := mp.width
    let height := mp.height
    if width ≤ 0 ∨ height ≤ 0 then .ok (none, objects)
    else
      let num_object_queues := get_max_tag (some mp)
      if num_object_queues = 0 then .ok (none, objects)
      else
        let mapview : map_view :=
          { x_offset := 0, y_offset := 0, map := mp
            dirty_tiles := List.replicate (width * height).toNat 0
            num_object_queues := num_object_queues
            object_queue := List.replicate num_object_queues []
            dirty_rectangles := [] }
        match mark_dirty_rect fuel objects_pass (some mapview) objects 0 0 mp.width mp.height with
        | .error e => .error e
        | .ok r => .ok (r.2.1, r.2.2)

end Field

/-! ## The draw calls of a render pass -/

/-- Whether the call draws a tile (`draw_image_direct`). -/
def is_tile_draw : gfx_call → Bool
  | .draw_image_direct _ _ _ _ _ _ => true
  | _ => false

/-- Whether the call draws a sprite (`draw_image`). -/
def is_sprite_draw : gfx_call → Bool
  | .draw_image _ _ _ _ _ _ _ => true
  | _ => false

/-- Whether the call forwards an update rectangle. -/
def is_update_rectangle : gfx_call → Bool
  | .add_update_rectangle _ _ _ _ => true
  | _ => false

/-- The tile draws that `render_map_layer` makes for a layer: every dirty
rectangle of the list in turn. -/
def tile_draws (mapview : mapview_t) (layer : Nat) : List gfx_call :=
  mapview.dirty_rectangles.foldl (fun calls r => render_rect_layer mapview layer r calls) []

/-- The `draw_image` call that `render_map_objects` makes for a node. -/
def sprite_draw (mapview : mapview_t) (node : render_node_t) : gfx_call :=
  gfx_call.draw_image node.image.filename node.image.image_x node.image.image_y
    (to_int16 (node.image.map_x - mapview.x_offset))
    (to_int16 (node.image.map_y - mapview.y_offset)) node.image.width node.image.height

/-- The queue that `render_map_objects` finds for a layer in a pass that
starts with the given queues: the queue of the tag of the layer, unless the tag
is `NULL_TAG` or a layer below has the same tag (and has emptied the queue). -/
def layer_queue (mapview : mapview_t) (layer : Nat) : List render_node_t :=
  if get_layer_tag mapview.map layer > NULL_TAG
      ∧ ∀ k, k < layer → get_layer_tag mapview.map k ≠ get_layer_tag mapview.map layer then
    mapview.object_queue.getD (get_layer_tag mapview.map layer - 1) []
  else []

/-- The draw calls of the layers `0 .. n - 1` in turn: for each layer its
tile draws, then the sprite draws of its queue, first node first. -/
def layer_draws (mapview : mapview_t) (n : Nat) : List gfx_call :=
  (List.range n).foldl
    (fun calls l => calls ++ tile_draws mapview l
      ++ (layer_queue mapview l).map (sprite_draw mapview))
    []

/-- One turn of the layer loop of `render_map` when the tileset loads. -/
def render_layer (layer : Nat) (s : mapview_t × engine_t) : mapview_t × engine_t :=
  let calls :=
    s.1.dirty_rectangles.foldl (fun calls r => render_rect_layer s.1 layer r calls) s.2.calls
  render_map_objects layer (s.1, { s.2 with calls := calls })

/-- Whether the rectangle and the viewport of the view,
`[x_offset, x_offset + SCREEN_W) x [y_offset, y_offset + SCREEN_H)`, overlap:
in each direction the larger of the two starts is below the smaller of the two
ends. -/
@[reducible] def overlaps_viewport (mapview : mapview_t) (rectangle : dirty_rectangle_t) : Prop :=
  max rectangle.start_x mapview.x_offset
      < min (rectangle.start_x + rectangle.width) (mapview.x_offset + (SCREEN_W : Int))
    ∧ max rectangle.start_y mapview.y_offset
      < min (rectangle.start_y + rectangle.height) (mapview.y_offset + (SCREEN_H : Int))

/-- An object with tag 1 at map pixel `(0, 0)` with a sprite of one tile. -/
def sample_object : object_t :=
  { name := [111], script_filename := [115], tag := 1, is_dirty := false
    image := { filename := some [105], image_x := 0, image_y := 0, map_x := 0, map_y := 0
               width := 32, height := 32 } }

/-- A view of the sample map with nothing queued. -/
def sample_clean_view : mapview_t :=
  { x_offset := 0, y_offset := 0, map := sample_map, num_object_queues := 1
    object_queue := [[]], dirty_rectangles := [] }

/-- A 2x2 map of two layers with the tags 0 and 2: tag 1 is bound to no
layer. -/
def sample_map_unbound_tag : map_t :=
  { width := 2, height := 2, max_layer_index := 1, max_zone_index := 0
    layer_tags := [0, 2], value_planes := [[1, 0, 0, 1], [0, 0, 0, 0]]
    zone_planes := [[0, 0, 0, 0], [0, 0, 0, 0]], zone_properties := [0] }

/-- A view of the map with the unbound tag: two queues, nothing queued. -/
def sample_view_unbound_tag : mapview_t :=
  { x_offset := 0, y_offset := 0, map := sample_map_unbound_tag, num_object_queues := 2
    object_queue := [[], []], dirty_rectangles := [] }

/-- A map of 21x1 tiles with one layer; only tile `(20, 0)`, which starts at
map pixel 640, has a value. -/
def sample_wide_map : map_t :=
  { width := 21, height := 1, max_layer_index := 0, max_zone_index := 0
    layer_tags := [1], value_planes := [List.replicate 20 0 ++ [1]]
    zone_planes := [List.replicate 21 0], zone_properties := [0] }

/-- A view of the wide map at offset `(0, 0)` with nothing queued. -/
def sample_wide_view : mapview_t :=
  { x_offset := 0, y_offset := 0, map := sample_wide_map, num_object_queues := 1
    object_queue := [[]], dirty_rectangles := [] }

/-- An engine state with the given objects, a tileset that loads and no calls
made. -/
def sample_engine (objects : List object_t) : engine_t :=
  { objects := objects, tileset_loads := true, calls := [] }

/-- An object of the given name with tag 1 whose sprite is `height` pixels
high and stands at map line `map_y`. -/
def sample_sprite (name : Nat) (map_y : Int) (height : Nat) : object_t :=
  { name := [name], script_filename := [115], tag := 1, is_dirty := false
    image := { filename := some [105], image_x := 0, image_y := 0, map_x := 0, map_y := map_y
               width := 32, height := height } }

/-- A map of the field generation with two layers, of tags 0 and 3. -/
def sample_field_map : Field.map :=
  { width := 1, height := 1, num_layers := 2, layer_tags := [0, 3], data_layers := [[1], [1]] }

/-- A map of the field generation whose layers all have tag 0. -/
def sample_field_map_no_tags : Field.map :=
  { width := 1, height := 1, num_layers := 2, layer_tags := [0, 0], data_layers := [[1], [1]] }

/-- A view of the sample map with one queued rectangle and one queued
sprite. -/
def sample_queued_view : mapview_t :=
  { x_offset := 0, y_offset := 0, map := sample_map, num_object_queues := 1
    object_queue := [[node_of sample_object]]
    dirty_rectangles := [{ start_x := 0, start_y := 0, width := 64, height := 64 }] }

/-- The sample view with a sprite in the queue of tag 1 and no dirty
rectangle. -/
def sample_view_with_sprite : mapview_t :=
  { x_offset := 0, y_offset := 0, map := sample_map, num_object_queues := 1
    object_queue := [[node_of sample_object]], dirty_rectangles := [] }

/-- The view of the map with the unbound tag, with a sprite in the queue of
tag 1 and no dirty rectangle. -/
def sample_view_unbound_tag_with_sprite : mapview_t :=
  { x_offset := 0, y_offset := 0, map := sample_map_unbound_tag, num_object_queues := 2
    object_queue := [[node_of sample_object], []], dirty_rectangles := [] }

/-- The same view with the whole map marked dirty. -/
def sample_view_unbound_tag_marked : mapview_t :=
  { x_offset := 0, y_offset := 0, map := sample_map_unbound_tag, num_object_queues := 2
    object_queue := [[node_of sample_object], []]
    dirty_rectangles := [{ start_x := 0, start_y := 0, width := 64, height := 64 }] }

/-- The wide view with the rectangle of tile `(20, 0)` queued; the rectangle
starts at map pixel 640, right of the viewport. -/
def sample_wide_view_marked : mapview_t :=
  { x_offset := 0, y_offset := 0, map := sample_wide_map, num_object_queues := 1
    object_queue := [[]]
    dirty_rectangles := [{ start_x := 640, start_y := 0, width := 32, height := 32 }] }

/-- The sample view after the rectangles `(0, 0, 32, 32)` and then
`(32, 32, 32, 32)` have been marked. -/
def sample_view_two_rectangles : mapview_t :=
  { x_offset := 0, y_offset := 0, map := sample_map, num_object_queues := 1
    object_queue := [[]]
    dirty_rectangles := [{ start_x := 32, start_y := 32, width := 32, height := 32 },
      { start_x := 0, start_y := 0, width := 32, height := 32 }] }

/-- The sample view after the rectangle `(0, 0, 32, 32)` has been marked. -/
def sample_view_one_rectangle : mapview_t :=
  { x_offset := 0, y_offset := 0, map := sample_map, num_object_queues := 1
    object_queue := [[]]
    dirty_rectangles := [{ start_x := 0, start_y := 0, width := 32, height := 32 }] }

/-! ## Scrolling (`src/src/map/mapview.c`) -/

/-- The least `short` (limits.h). -/
def SHRT_MIN : Int := -32768

/-- The part of `scroll_map` that works out the dirty rectangles and marks
them: one for a scroll to the west or to the east, then one for a scroll to
the north or to the south.  The cast `(dimension_t) abs (x_offset)` keeps the
value. -/
def scroll_map_marks (mapview : mapview_t) (x_offset y_offset : Int) : Except Halt mapview_t :=
  let marked :=
    if x_offset < 0 then
      mark_dirty_rect mapview mapview.x_offset mapview.y_offset (Int.natAbs x_offset) SCREEN_H
    else if x_offset > 0 then
      mark_dirty_rect mapview ((SCREEN_W : Int) + mapview.x_offset - x_offset) mapview.y_offset
        x_offset SCREEN_H
    else .ok mapview
  match marked with
  | .error e => .error e
  | .ok mapview1 =>
    if y_offset < 0 then
      mark_dirty_rect mapview1 mapview1.x_offset mapview1.y_offset SCREEN_W (Int.natAbs y_offset)
    else if y_offset > 0 then
      mark_dirty_rect mapview1 mapview1.x_offset
        ((SCREEN_H : Int) + mapview1.y_offset - y_offset) SCREEN_W y_offset
    else .ok mapview1

/-- `scroll_map`: the assertion on the offsets, the marking of the dirty
rectangles, the change of the offset of the view, `scroll_screen` and
`render_map`. -/
def scroll_map (fuel : Nat) (objects_pass : object_pass) (s : mapview_t × engine_t)
    (x_offset y_offset : Int) : Except Halt (mapview_t × engine_t) :=
  if ¬ (x_offset ≠ SHRT_MIN ∧ y_offset ≠ SHRT_MIN) then .error .assertion
  else
    match scroll_map_marks s.1 x_offset y_offset with
    | .error e => .error e
    | .ok mapview1 =>
      let mapview2 : mapview_t :=
        { mapview1 with
          x_offset := mapview1.x_offset + x_offset
          y_offset := mapview1.y_offset + y_offset }
      let calls := s.2.calls
        ++ [gfx_call.scroll_screen (to_int16 (-x_offset)) (to_int16 (-y_offset))]
      render_map fuel objects_pass (mapview2, { s.2 with calls := calls })

/-- Whether pixel column `px` is in the viewport when the view has the given
offset. -/
@[reducible] def column_visible (x_offset px : Int) : Prop :=
  x_offset ≤ px ∧ px < x_offset + (SCREEN_W : Int)

/-! ## Nodes and the images they point to (`src/src/map/mapview.c`) -/

/-- A store to the image of the object of the given name, made through the
pointer that `get_object_image (object)` gives.  `add_object_image` puts that
same pointer in the node it makes (`new_rnode->image = image`), so the store
shows in every queued node of the object as well as in the registry. -/
def store_object_image (name : List Nat) (image : object_image_t)
    (s : mapview_t × engine_t) : mapview_t × engine_t :=
  let queues := s.1.object_queue.map
    (fun queue => queue.map
      (fun node => if node.object = name then { node with image := image } else node))
  let objects := s.2.objects.map
    (fun o => if o.name = name then { o with image := image } else o)
  ({ s.1 with object_queue := queues }, { s.2 with objects := objects })

/-! ## The object registry (`src/object.c`) -/

/-- Ways in which a call has no defined result: it reads through a `NULL`
pointer, or it frees a block that has been freed already. -/
inductive Fault where
  | null_dereference
  | double_free
deriving DecidableEq, Repr

/-- Conversion to `unsigned int` (32 bits). -/
def to_uint32 (i : Int) : Int := i % 4294967296

namespace Field

/-- Modelled from the spec: the declaration of `struct object_t` (object.h) is
not among the sources.  The fields are those of the spec's Object and of the
accesses made by `src/object.c`: the name, the script file name, the tag, the
dirty flag and the pointer to the image (`NULL` is `none`); the `next` pointer
is the rest of the chain the object stands in.  The coordinates of the image
are `unsigned int` and its sizes `unsigned short`, as in the parameters of
`set_object_image`. -/
structure object_t where
  name : List Nat
  script_filename : List Nat
  tag : Nat
  is_dirty : Bool
  image : Option object_image
deriving DecidableEq, Repr

/-- `init_object_image` of `src/src/field/mapview.c`, for an image and a
parent that are not `NULL`. -/
def init_object_image (parent : List Nat) : object_image :=
  { parent := some parent, filename := none, image_x := 0, image_y := 0, map_x := 0, map_y := 0
    width := 0, height := 0 }

/-- The `for` loop of `get_object` and of `delete_object` up to the first
node whose name compares equal: the node found, if any. -/
def find_object (object_name : List Nat) (chain : List object_t) : Option object_t :=
  match chain with
  | [] => none
  | object :: rest =>
    if strcmp_eq object_name object.name then some object else find_object object_name rest

/-- `get_object`: the table `g_objects` is the list of its chains, the hash
function `ascii_hash` (not among the sources) is a parameter.  The result is
the pointer returned (`NULL` is `none`), the table, and whether
`free_object (add_pointer)` has been called. -/
def get_object (ascii_hash : List Nat → Nat) (g_objects : List (List object_t))
    (object_name : List Nat) (add_pointer : Option object_t) :
    Option object_t × List (List object_t) × Bool :=
  let h := ascii_hash object_name
  match find_object object_name (g_objects.getD h []) with
  | some object =>
    if add_pointer ≠ none then (none, g_objects, true)
    else (some object, g_objects, false)
  | none =>
    match add_pointer with
    | some added => (some added, g_objects.set h (added :: g_objects.getD h []), false)
    | none => (none, g_objects, false)

/-- `add_object`; allocation is taken to succeed.  The buffer for the script
file name is allocated and nothing is copied into it: the model keeps no
characters for it.  When `get_object` gives `NULL` the new object is freed;
that is a second `free` if `get_object` has freed it already. -/
def add_object (ascii_hash : List Nat → Nat) (g_objects : List (List object_t))
    (object_name script_filename : Option (List Nat)) :
    Except Fault (Option object_t × List (List object_t)) :=
  match object_name, script_filename with
  | none, _ => .ok (none, g_objects)
  | some _, none => .ok (none, g_objects)
  | some name, some _ =>
    let object : object_t :=
      { name := name, script_filename := [], tag := 0, is_dirty := false
        image := some (init_object_image name) }
    let r := get_object ascii_hash g_objects name (some object)
    if r.1 = none then
      if r.2.2 then .error .double_free
      else .ok (none, r.2.1)
    else .ok (r.1, r.2.1)

/-- `delete_object`.  The variable `prev` is `NULL` when the loop starts and
nothing assigns to it, so a node whose name compares equal is always unlinked
as the head of the chain, and the step `object = prev->next` after a node of
another name reads through `NULL`. -/
def delete_object (ascii_hash : List Nat → Nat) (g_objects : List (List object_t))
    (object_name : List Nat) : Except Fault (Int × List (List object_t)) :=
  let h := ascii_hash object_name
  match g_objects.getD h [] with
  | [] => .ok (0, g_objects)
  | object :: rest =>
    if strcmp_eq object_name object.name then .ok (1, g_objects.set h rest)
    else .error .null_dereference

/-- `set_object_coordinates`; the value of `BOTTOM_LEFT` (not among the
sources) is a parameter.  The comparison and the subtraction are made in
`unsigned int`, to which `height - 1` is converted. -/
def set_object_coordinates (BOTTOM_LEFT : Nat) (object : Option object_t) (x y : Int)
    (reference : Nat) : Int × Option object_t :=
  match object with
  | none => (FAILURE, none)
  | some o =>
    match o.image with
    | none => (FAILURE, some o)
    | some image =>
      let image1 : object_image := { image with map_x := x, map_y := y }
      if reference = BOTTOM_LEFT then
        if image1.map_y < to_uint32 ((image1.height : Int) - 1) then
          (FAILURE, some { o with image := some image1 })
        else
          let map_y := to_uint32 (image1.map_y - to_uint32 ((image1.height : Int) - 1))
          (SUCCESS, some { o with image := some { image1 with map_y := map_y } })
      else (SUCCESS, some { o with image := some image1 })

end Field

/-! ## Dirtying an object (`src/object.c`, `src/src/field/mapview.c`) -/

namespace Field

/-- The value by which the copying `add_object_image` orders a queue:
`map_y + height`, computed in `unsigned int`. -/
def image_key (image : object_image) : Int :=
  to_uint32 (image.map_y + (image.height : Int))

/-- The `for` loop of `add_object_image` and the insertion that follows it:
from `ptr`, which has `rest` after it in the queue, the loop moves on while
there is a next image whose key is at most the key of the new image, and the
new image is linked in right after the image at which the loop stops. -/
def insert_after (new_image ptr : object_image) (rest : List object_image) :
    List object_image :=
  match rest with
  | [] => [ptr, new_image]
  | next :: rest1 =>
    if image_key next ≤ image_key new_image then ptr :: insert_after new_image next rest1
    else ptr :: new_image :: next :: rest1

/-- `add_object_image` of `src/src/field/mapview.c`: the checks, the copy of
the image (allocation is taken to succeed) and the insertion of the copy in
the queue of the tag.  The copy is made with `memcpy`, which also copies the
`next` pointer; it is `NULL` in the image of an object, so that a copy put at
the head of an empty queue has nothing after it. -/
def add_object_image (mapview : Option map_view) (tag : Nat) (image : Option object_image) :
    Int × Option map_view :=
  match mapview, image with
  | none, _ => (FAILURE, none)
  | some mv, none => (FAILURE, some mv)
  | some mv, some img =>
    if tag = 0 then (FAILURE, some mv)
    else if tag > mv.num_object_queues then (FAILURE, some mv)
    else if img.filename = none then (FAILURE, some mv)
    else if img.width = 0 ∨ img.height = 0 then (FAILURE, some mv)
    else
      let new_image := img
      let queue :=
        match mv.object_queue.getD (tag - 1) [] with
        | [] => [new_image]
        | head :: rest => insert_after new_image head rest
      (SUCCESS, some { mv with object_queue := mv.object_queue.set (tag - 1) queue })

/-- `set_object_dirty` of `src/object.c`.  The sum of the bounds test is made
in `unsigned int`, to which the product on the other side is converted.  An
object without an image makes the test read through `NULL`. -/
def set_object_dirty (object : Option object_t) (mapview : Option map_view) :
    Except Fault (Int × Option object_t × Option map_view) :=
  match object, mapview with
  | none, _ => .ok (FAILURE, none, mapview)
  | some o, none => .ok (FAILURE, some o, none)
  | some o, some mv =>
    if o.is_dirty = true then .ok (SUCCESS, some o, some mv)
    else
      match o.image with
      | none => .error .null_dereference
      | some image =>
        if to_uint32 (image.map_x + (image.width : Int))
              > to_uint32 (mv.map.width * (TILE_W : Int))
            ∨ to_uint32 (image.map_y + (image.height : Int))
              > to_uint32 (mv.map.height * (TILE_H : Int)) then
          .ok (FAILURE, some o, some mv)
        else if o.tag ≠ 0 then
          let dirty : object_t := { o with is_dirty := true }
          let r := add_object_image (some mv) o.tag (some image)
          .ok (r.1, some dirty, r.2)
        else .ok (FAILURE, some o, some mv)

/-- Whether the image lies within the pixel extents of the map, in unbounded
integers. -/
@[reducible] def in_bounds (image : object_image) (m : map) : Prop :=
  image.map_x + (image.width : Int) ≤ m.width * (TILE_W : Int)
    ∧ image.map_y + (image.height : Int) ≤ m.height * (TILE_H : Int)

/-- Whether the numbers of the image and of the map are values of their C
types: `unsigned int` coordinates, `unsigned short` sizes, and `int`
dimensions whose products with the tile size are `int` values. -/
@[reducible] def in_range (image : object_image) (m : map) : Prop :=
  0 ≤ image.map_x ∧ image.map_x < 4294967296 ∧ 0 ≤ image.map_y ∧ image.map_y < 4294967296
    ∧ image.width < 65536 ∧ image.height < 65536
    ∧ 0 ≤ m.width ∧ m.width * (TILE_W : Int) < 2147483648
    ∧ 0 ≤ m.height ∧ m.height * (TILE_H : Int) < 2147483648

end Field

/-! ## Modules (`src/src/module.c`) -/

/-- The function names that `src/src/module.c` looks up in a library. -/
inductive symbol where
  | init
  | term
  | init_screen_internal
  | draw_rect_internal
  | load_image_data
  | free_image_data
  | draw_image_internal
  | update_screen_internal
  | scroll_screen_internal
  | process_events_internal
  | register_release_handle
deriving DecidableEq, Repr

/-- Modelled from the spec: the declaration of `module_data` (module.h) is not
among the sources.  The fields are those that `module_bare_init` sets: the
library handle and the `init` and `term` functions; `NULL` is `none`, and a
handle or a function is given by a number. -/
structure module_data where
  lib_handle : Option Nat
  init : Option Nat
  term : Option Nat
deriving DecidableEq, Repr

/-- Modelled from the spec: the graphics slot of the module set (module.h is
not among the sources), with the function pointers that `load_module_gfx`
resolves. -/
structure module_gfx where
  metadata : module_data
  init_screen_internal : Option Nat
  draw_rect_internal : Option Nat
  load_image_data : Option Nat
  free_image_data : Option Nat
  draw_image_internal : Option Nat
  update_screen_internal : Option Nat
  scroll_screen_internal : Option Nat
deriving DecidableEq, Repr

/-- Modelled from the spec: the event slot of the module set (module.h is not
among the sources), with the function pointers that `load_module_event`
resolves. -/
structure module_event where
  metadata : module_data
  process_events_internal : Option Nat
  register_release_handle : Option Nat
deriving DecidableEq, Repr

/-- Modelled from the spec: `module_set` (module.h is not among the sources):
the search root and the two slots. -/
structure module_set where
  path : List Nat
  gfx : module_gfx
  event : module_event
deriving DecidableEq, Repr

/-- What the macros `DLLOPEN` and `DLLLOOKUP` (module.h, not among the
sources) give: the handle of the library at a path, and the address of a
function of a library; `NULL` is `none`. -/
structure linker where
  DLLOPEN : List Nat → Option Nat
  DLLLOOKUP : Option Nat → symbol → Option Nat

/-- A call made to the dynamic linker or into a library. -/
inductive module_call where
  | DLLOPEN (modulepath : List Nat)
  | DLLLOOKUP (lib_handle : Option Nat) (function : symbol)
  | DLLERROR
  | DLLCLOSE (lib_handle : Nat)
  | call (function : Nat)
deriving DecidableEq, Repr

/-- `module_bare_init`. -/
def module_bare_init (module : module_data) : module_data :=
  { module with lib_handle := none, init := none, term := none }

/-- `get_module_path`: the search root, the name and the suffix in a row;
allocation is taken to succeed. -/
def get_module_path (MODULESUFFIX : List Nat) (module modulespath : List Nat) :
    Int × Option (List Nat) :=
  (SUCCESS, some (modulespath ++ module ++ MODULESUFFIX))

/-- `get_module_function`: the function pointer is written whether the
lookup finds the function or not. -/
def get_module_function (ld : linker) (module : module_data) (function : symbol)
    (calls : List module_call) : Int × Option Nat × List module_call :=
  let func := ld.DLLLOOKUP module.lib_handle function
  let calls1 := calls ++ [module_call.DLLLOOKUP module.lib_handle function]
  if func = none then (FAILURE, func, calls1 ++ [module_call.DLLERROR])
  else (SUCCESS, func, calls1)

/-- `get_module`. -/
def get_module (ld : linker) (modulepath : List Nat) (module : module_data)
    (calls : List module_call) : Int × module_data × List module_call :=
  if module.lib_handle ≠ none then (FAILURE, module, calls)
  else
    let module1 : module_data := { module with lib_handle := ld.DLLOPEN modulepath }
    let calls1 := calls ++ [module_call.DLLOPEN modulepath]
    if module1.lib_handle = none then (FAILURE, module1, calls1 ++ [module_call.DLLERROR])
    else
      let r_init := get_module_function ld module1 symbol.init calls1
      let module2 : module_data := { module1 with init := r_init.2.1 }
      let r_term := get_module_function ld module2 symbol.term r_init.2.2
      let module3 : module_data := { module2 with term := r_term.2.1 }
      match module3.init with
      | some f => (SUCCESS, module3, r_term.2.2 ++ [module_call.call f])
      | none => (SUCCESS, module3, r_term.2.2)

/-- `get_module_by_name`. -/
def get_module_by_name (ld : linker) (MODULESUFFIX : List Nat) (name modulespath : List Nat)
    (module : module_data) (calls : List module_call) : Int × module_data × List module_call :=
  let r := get_module_path MODULESUFFIX name modulespath
  if r.1 = FAILURE then (FAILURE, module, calls)
  else
    match r.2 with
    | some modulepath => get_module ld modulepath module calls
    | none => (FAILURE, module, calls)

/-- `load_module_gfx`: the library is found and opened by name, then the
seven functions of the graphics slot are looked up in turn; the first failure
ends the call. -/
def load_module_gfx (ld : linker) (MODULESUFFIX : List Nat) (name : List Nat)
    (modules : module_set) (calls : List module_call) : Int × module_set × List module_call :=
  let r0 := get_module_by_name ld MODULESUFFIX name modules.path modules.gfx.metadata calls
  let m0 : module_set := { modules with gfx := { modules.gfx with metadata := r0.2.1 } }
  if r0.1 = FAILURE then (FAILURE, m0, r0.2.2)
  else
    let r1 := get_module_function ld m0.gfx.metadata symbol.init_screen_internal r0.2.2
    let m1 : module_set := { m0 with gfx := { m0.gfx with init_screen_internal := r1.2.1 } }
    if r1.1 = FAILURE then (FAILURE, m1, r1.2.2)
    else
      let r2 := get_module_function ld m1.gfx.metadata symbol.draw_rect_internal r1.2.2
      let m2 : module_set := { m1 with gfx := { m1.gfx with draw_rect_internal := r2.2.1 } }
      if r2.1 = FAILURE then (FAILURE, m2, r2.2.2)
      else
        let r3 := get_module_function ld m2.gfx.metadata symbol.load_image_data r2.2.2
        let m3 : module_set := { m2 with gfx := { m2.gfx with load_image_data := r3.2.1 } }
        if r3.1 = FAILURE then (FAILURE, m3, r3.2.2)
        else
          let r4 := get_module_function ld m3.gfx.metadata symbol.free_image_data r3.2.2
          let m4 : module_set := { m3 with gfx := { m3.gfx with free_image_data := r4.2.1 } }
          if r4.1 = FAILURE then (FAILURE, m4, r4.2.2)
          else
            let r5 := get_module_function ld m4.gfx.metadata symbol.draw_image_internal r4.2.2
            let m5 : module_set :=
              { m4 with gfx := { m4.gfx with draw_image_internal := r5.2.1 } }
            if r5.1 = FAILURE then (FAILURE, m5, r5.2.2)
            else
              let r6 :=
                get_module_function ld m5.gfx.metadata symbol.update_screen_internal r5.2.2
              let m6 : module_set :=
                { m5 with gfx := { m5.gfx with update_screen_internal := r6.2.1 } }
              if r6.1 = FAILURE then (FAILURE, m6, r6.2.2)
              else
                let r7 :=
                  get_module_function ld m6.gfx.metadata symbol.scroll_screen_internal r6.2.2
                let m7 : module_set :=
                  { m6 with gfx := { m6.gfx with scroll_screen_internal := r7.2.1 } }
                if r7.1 = FAILURE then (FAILURE, m7, r7.2.2)
                else (SUCCESS, m7, r7.2.2)

/-- `load_module_event`: the library is found and opened by name, then the
two functions of the event slot are looked up in turn. -/
def load_module_event (ld : linker) (MODULESUFFIX : List Nat) (name : List Nat)
    (modules : module_set) (calls : List module_call) : Int × module_set × List module_call :=
  let r0 := get_module_by_name ld MODULESUFFIX name modules.path modules.event.metadata calls
  let m0 : module_set := { modules with event := { modules.event with metadata := r0.2.1 } }
  if r0.1 = FAILURE then (FAILURE, m0, r0.2.2)
  else
    let r1 := get_module_function ld m0.event.metadata symbol.process_events_internal r0.2.2
    let m1 : module_set :=
      { m0 with event := { m0.event with process_events_internal := r1.2.1 } }
    if r1.1 = FAILURE then (FAILURE, m1, r1.2.2)
    else
      let r2 := get_module_function ld m1.event.metadata symbol.register_release_handle r1.2.2
      let m2 : module_set :=
        { m1 with event := { m1.event with register_release_handle := r2.2.1 } }
      if r2.1 = FAILURE then (FAILURE, m2, r2.2.2)
      else (SUCCESS, m2, r2.2.2)

/-! ## Sample registry, objects and modules -/

/-- A hash function that puts every name in chain 0. -/
def sample_hash : List Nat → Nat := fun _ => 0

/-- An object of the registry with the given name and tag, with an image of
16x48 pixels at map pixel `(60, 60)`. -/
def sample_field_object (name tag : Nat) : Field.object_t :=
  { name := [name], script_filename := [], tag := tag, is_dirty := false
    image := some { parent := some [name], filename := some [105], image_x := 0, image_y := 0
                    map_x := 60, map_y := 60, width := 16, height := 48 } }

/-- A table of one chain with two objects, the object named 2 at the head. -/
def sample_registry : List (List Field.object_t) :=
  [[sample_field_object 2 1, sample_field_object 1 1]]

/-- A view of a 4x4 map (128x128 pixels) with one queue and nothing
queued. -/
def sample_field_view_4x4 : Field.map_view :=
  { x_offset := 0, y_offset := 0
    map := { width := 4, height := 4, num_layers := 1, layer_tags := [1]
             data_layers := [List.replicate 16 1] }
    dirty_tiles := List.replicate 16 0, num_object_queues := 1, object_queue := [[]]
    dirty_rectangles := [] }

/-- A linker that knows one library, at every path, with every function. -/
def sample_linker : linker :=
  { DLLOPEN := fun _ => some 7, DLLLOOKUP := fun _ _ => some 9 }

/-- A module set with both slots bound. -/
def sample_modules_bound : module_set :=
  { path := [47]
    gfx := { metadata := { lib_handle := some 1, init := some 2, term := some 3 }
             init_screen_internal := some 4, draw_rect_internal := some 4
             load_image_data := some 4, free_image_data := some 4
             draw_image_internal := some 4, update_screen_internal := some 4
             scroll_screen_internal := some 4 }
    event := { metadata := { lib_handle := some 5, init := none, term := none }
               process_events_internal := some 6, register_release_handle := some 6 } }

/-- The sample view after `scroll_map` has marked the rectangle for a scroll
of 32 pixels to the east. -/
def sample_view_marked_east : mapview_t :=
  { x_offset := 0, y_offset := 0, map := sample_map, num_object_queues := 1
    object_queue := [[]]
    dirty_rectangles := [{ start_x := 608, start_y := 0, width := 32, height := 480 }] }

/-- The sample view after `scroll_map` has marked the rectangle for a scroll
of 32 pixels to the west. -/
def sample_view_marked_west : mapview_t :=
  { x_offset := 0, y_offset := 0, map := sample_map, num_object_queues := 1
    object_queue := [[]]
    dirty_rectangles := [{ start_x := 0, start_y := 0, width := 32, height := 480 }] }

/-- The sample view at offset `(32, 0)`. -/
def sample_view_at_32 : mapview_t :=
  { x_offset := 32, y_offset := 0, map := sample_map, num_object_queues := 1
    object_queue := [[]], dirty_rectangles := [] }

/-- The calls of a scenario: a sprite is enqueued for the sample object on
the sample view, the image of the object is then replaced by `moved`, the
whole map is marked dirty and rendered. -/
def calls_after_move (moved : object_image_t) : Except Halt (List gfx_call) :=
  match add_object_image sample_clean_view 1 sample_object with
  | .error e => .error e
  | .ok view1 =>
    let s2 := store_object_image sample_object.name moved (view1, sample_engine [sample_object])
    match mark_dirty_rect s2.1 0 0 64 64 with
    | .error e => .error e
    | .ok view3 =>
      match render_map 256 no_objects_pass (view3, s2.2) with
      | .error e => .error e
      | .ok s4 => .ok s4.2.calls

/-- The queue of tag 1 in a scenario: sprites of the keys 10 and 20 are
enqueued on the sample view, then the first object is moved down to map line
40. -/
def queue_after_move : Except Halt (List render_node_t) :=
  match add_object_images sample_clean_view 1 [sample_sprite 1 0 10, sample_sprite 2 0 20] with
  | .error e => .error e
  | .ok view1 =>
    let s2 := store_object_image [1] (sample_sprite 1 40 10).image
      (view1, sample_engine [sample_sprite 1 0 10, sample_sprite 2 0 20])
    .ok (s2.1.object_queue.getD 0 [])

/-- The sample object of the registry with its image at the given map
pixel. -/
def sample_field_object_at (name tag : Nat) (map_x map_y : Int) : Field.object_t :=
  { name := [name], script_filename := [], tag := tag, is_dirty := false
    image := some { parent := some [name], filename := some [105], image_x := 0, image_y := 0
                    map_x := map_x, map_y := map_y, width := 16, height := 48 } }

/-- An object of the registry with tag 1 whose image ends at map column
`2^32`: `map_x = 2^32 - 16` and a width of 16. -/
def sample_far_object : Field.object_t :=
  { name := [1], script_filename := [], tag := 1, is_dirty := false
    image := some { parent := some [1], filename := some [105], image_x := 0, image_y := 0
                    map_x := 4294967280, map_y := 0, width := 16, height := 16 } }

/-- The view of the 4x4 map with the image of the far object queued. -/
def sample_field_view_far_queued : Field.map_view :=
  { x_offset := 0, y_offset := 0
    map := { width := 4, height := 4, num_layers := 1, layer_tags := [1]
             data_layers := [List.replicate 16 1] }
    dirty_tiles := List.replicate 16 0, num_object_queues := 1
    object_queue := [[{ parent := some [1], filename := some [105], image_x := 0, image_y := 0
                        map_x := 4294967280, map_y := 0, width := 16, height := 16 }]]
    dirty_rectangles := [] }

/-! ## Closing a module (`src/src/module.c`) -/

/-- `close_module`: if the module has a library handle, its `term` function
is called when there is one, and the handle is closed.  Nothing is stored in
the module. -/
def close_module (module : module_data) (calls : List module_call) :
    module_data × List module_call :=
  match module.lib_handle with
  | some lib_handle =>
    let calls1 :=
      match module.term with
      | some term => calls ++ [module_call.call term]
      | none => calls
    (module, calls1 ++ [module_call.DLLCLOSE lib_handle])
  | none => (module, calls)

/-- The path that `get_module_by_name` opens for a name. -/
def module_path_of (MODULESUFFIX name : List Nat) (modules : module_set) : List Nat :=
  modules.path ++ name ++ MODULESUFFIX

/-- Whether every function pointer of the graphics slot is resolved. -/
@[reducible] def gfx_resolved (gfx : module_gfx) : Prop :=
  gfx.init_screen_internal ≠ none ∧ gfx.draw_rect_internal ≠ none
    ∧ gfx.load_image_data ≠ none ∧ gfx.free_image_data ≠ none
    ∧ gfx.draw_image_internal ≠ none ∧ gfx.update_screen_internal ≠ none
    ∧ gfx.scroll_screen_internal ≠ none

/-- Whether every function pointer of the event slot is resolved. -/
@[reducible] def event_resolved (event : module_event) : Prop :=
  event.process_events_internal ≠ none ∧ event.register_release_handle ≠ none

/-! ## The state machine (`src/src/state.c`) -/

def STATE_NULL : Nat := 0
def STATE_FIELD : Nat := 1
def STATE_QUIT : Nat := 42

/-- The static variables of `src/src/state.c`: the current state and the
enqueued state. -/
structure state_globals where
  sg_state : Nat
  sg_enqueued_state : Nat
deriving DecidableEq, Repr

/-- `get_state`. -/
def get_state (g : state_globals) : Nat := g.sg_state

/-- `set_state`. -/
def set_state (g : state_globals) (new_state : Nat) : Int × state_globals :=
  if g.sg_state = STATE_QUIT then (FAILURE, g)
  else if new_state = STATE_NULL then (FAILURE, g)
  else if g.sg_state = new_state then (FAILURE, g)
  else (SUCCESS, { g with sg_enqueued_state := new_state })

/-- `init_state`; the result of `init_field ()`, whose code for this
generation is not among the sources, is a parameter. -/
def init_state (init_field : Int) (state : Nat) : Int :=
  if state = STATE_FIELD then init_field
  else if state = STATE_QUIT then SUCCESS
  else FAILURE

/-- `cleanup_state`; the result of `cleanup_field ()`, whose code for this
generation is not among the sources, is a parameter. -/
def cleanup_state (cleanup_field : Int) (state : Nat) : Int :=
  if state = STATE_FIELD then cleanup_field
  else if state = STATE_NULL then SUCCESS
  else FAILURE

/-- `update_state`: the value returned and the variables afterwards. -/
def update_state (init_field cleanup_field : Int) (g : state_globals) : Int × state_globals :=
  if g.sg_enqueued_state = STATE_NULL then ((g.sg_state : Int), g)
  else if cleanup_state cleanup_field g.sg_state = FAILURE then ((STATE_NULL : Int), g)
  else if init_state init_field g.sg_enqueued_state = FAILURE then ((STATE_NULL : Int), g)
  else
    let g1 : state_globals := { sg_state := g.sg_enqueued_state, sg_enqueued_state := STATE_NULL }
    ((g1.sg_state : Int), g1)
/-! ## Rendering from the dirty-tile matrix (`src/src/field/mapview.c`) -/

def SHRT_MAX : Int := 32767

namespace Field

/-- The body of the inner loop of `render_map_layer` for the screen tile
`(x, y)`: the view and the calls afterwards, and whether the body has made the
function `return`.  A read outside an array is taken to give 0. -/
def render_map_layer_tile (layer : Nat) (x y : Int) (s : map_view × List gfx_call) :
    (map_view × List gfx_call) × Bool :=
  let mapview := s.1
  let map := mapview.map
  let true_x := x + Int.tdiv mapview.x_offset (TILE_W : Int)
  let true_y := y + Int.tdiv mapview.y_offset (TILE_H : Int)
  if true_y ≥ 0 ∧ true_y < map.height
      ∧ mapview.dirty_tiles.getD (true_x + true_y * map.height).toNat 0 ≠ 0 then
    let screen_x := x * (TILE_W : Int) - Int.tmod mapview.x_offset (TILE_W : Int)
    let screen_y := y * (TILE_H : Int) - Int.tmod mapview.y_offset (TILE_H : Int)
    let layer_offset := true_x + true_y * map.height
    let tile := (map.data_layers.getD layer []).getD layer_offset.toNat 0
    let tileset_x : Int := (TILE_W : Int) * (tile : Int)
    if screen_x < SHRT_MIN ∨ screen_x > SHRT_MAX ∨ screen_y < SHRT_MIN ∨ screen_y > SHRT_MAX then
      (s, true)
    else if layer_offset < 0 ∨ layer_offset ≥ map.width * map.height then (s, true)
    else if tileset_x < 0 ∨ tileset_x > SHRT_MAX then (s, true)
    else
      let calls :=
        if tile ≠ 0 then
          s.2 ++ [gfx_call.draw_image_direct (to_int16 tileset_x) 0 (to_int16 screen_x)
            (to_int16 screen_y) TILE_W TILE_H]
        else s.2
      (({ mapview with
          dirty_tiles := mapview.dirty_tiles.set layer_offset.toNat
            (mapview.dirty_tiles.getD layer_offset.toNat 0 - 1) }, calls), false)
  else (s, false)

/-- The body of the outer loop of `render_map_layer` for the screen column
`x`; nothing more is done once the function has returned. -/
def render_map_layer_column (layer : Nat) (x : Int) (s : (map_view × List gfx_call) × Bool) :
    (map_view × List gfx_call) × Bool :=
  if s.2 then s
  else
    let true_x := x + Int.tdiv s.1.1.x_offset (TILE_W : Int)
    if true_x ≥ 0 ∧ true_x < s.1.1.map.width then
      (int_range (-1) ((SCREEN_H / TILE_H : Nat) + 1)).foldl
        (fun s y => if s.2 then s else render_map_layer_tile layer x y s.1) s
    else s

/-- `render_map_layer` of `src/src/field/mapview.c`; `tileset_loads` tells
whether `load_image (FN_TILESET)` gives an image with data. -/
def render_map_layer (tileset_loads : Bool) (layer : Nat) (s : map_view × List gfx_call) :
    map_view × List gfx_call :=
  if ! tileset_loads then s
  else
    ((int_range (-1) ((SCREEN_W / TILE_W : Nat) + 1)).foldl
      (fun s x => render_map_layer_column layer x s) (s, false)).1

/-! ## Checking chunk IDs in sequence (`src/src/field/mapload.c`) -/

/-- The string "CMFT". -/
def MAGIC_HEADER : List Nat := [67, 77, 70, 84, 0]

/-- The string "TAGS". -/
def MAGIC_TAGS : List Nat := [84, 65, 71, 83, 0]

/-- The string "VALS". -/
def MAGIC_VALUES : List Nat := [86, 65, 76, 83, 0]

/-- The string "ZONE". -/
def MAGIC_ZONES : List Nat := [90, 79, 78, 69, 0]

/-- The string "PROP". -/
def MAGIC_PROPERTIES : List Nat := [80, 82, 79, 80, 0]

/-- `check_magic_sequence` of `src/src/field/mapload.c`: the bytes are read
and dropped; the comparison is commented out. -/
def check_magic_sequence (file : FILE) (sequence : List Nat) : Int × FILE :=
  let r := fread (strlen sequence) file
  (SUCCESS, r.2)

/-- `read_layer_tags_chunk`; the loop of `read_layer_tags` is that of
`read_map_tags`. -/
def read_layer_tags_chunk (fuel : Nat) (file : FILE) (map : map_t) :
    Except Halt (FILE × map_t) :=
  let r := check_magic_sequence file MAGIC_TAGS
  if ¬ (r.1 ≠ FAILURE) then .error .assertion
  else read_map_tags fuel (r.2, map)

/-- `read_map_value_planes_chunk`; `result` stays `SUCCESS` in the loops,
which are those of the newer loader. -/
def read_map_value_planes_chunk (fuel : Nat) (file : FILE) (map : map_t) :
    Except Halt (FILE × map_t) :=
  let r := check_magic_sequence file MAGIC_VALUES
  if ¬ (r.1 ≠ FAILURE) then .error .assertion
  else read_map_value_planes fuel (r.2, map)

/-- `read_map_zone_planes_chunk`: the sequence passed is `MAGIC_VALUES`. -/
def read_map_zone_planes_chunk (fuel : Nat) (file : FILE) (map : map_t) :
    Except Halt (FILE × map_t) :=
  let r := check_magic_sequence file MAGIC_VALUES
  if ¬ (r.1 ≠ FAILURE) then .error .assertion
  else read_map_zone_planes fuel (r.2, map)

/-- `read_map_zone_properties_chunk`: the sequence passed is
`MAGIC_VALUES`. -/
def read_map_zone_properties_chunk (fuel : Nat) (file : FILE) (map : map_t) :
    Except Halt (FILE × map_t) :=
  let r := check_magic_sequence file MAGIC_VALUES
  if ¬ (r.1 ≠ FAILURE) then .error .assertion
  else read_map_zone_properties fuel (r.2, map)

end Field

/-! ## The plane entries read by `render_rect_layer` -/

/-- A read of a value plane: the tile for which it is made and the index
used. -/
structure plane_read where
  x : Int
  y : Int
  index : Int
deriving DecidableEq, Repr

/-- The loops of `render_rect_layer`, keeping for every tile that is not
skipped the index `x + (y * map->height)` at which the plane is read. -/
def render_rect_layer_reads (mapview : mapview_t) (rectangle : dirty_rectangle_t) :
    List plane_read :=
  let tile_start_x := Int.tdiv rectangle.start_x (TILE_W : Int)
  let tile_start_y := Int.tdiv rectangle.start_y (TILE_H : Int)
  let tile_end_x := Int.tdiv (rectangle.start_x + rectangle.width) (TILE_W : Int)
  let tile_end_y := Int.tdiv (rectangle.start_y + rectangle.height) (TILE_H : Int)
  let tile_end_x :=
    if Int.tmod (rectangle.start_x + rectangle.width) (TILE_W : Int) > 0 then tile_end_x + 1
    else tile_end_x
  let tile_end_y :=
    if Int.tmod (rectangle.start_y + rectangle.height) (TILE_H : Int) > 0 then tile_end_y + 1
    else tile_end_y
  (int_range tile_start_x tile_end_x).foldl
    (fun reads x =>
      if x > (mapview.map.width : Int) ∨ x < 0 then reads
      else (int_range tile_start_y tile_end_y).foldl
        (fun reads y =>
          if y > (mapview.map.height : Int) ∨ y < 0 then reads
          else reads ++ [{ x := x, y := y, index := x + y * (mapview.map.height : Int) }])
        reads)
    []
/-! ## Sample states for modules, states and rendering -/

/-- A module set with both slots unbound, as `module_bare_init` leaves
them. -/
def sample_modules_unbound : module_set :=
  { path := [47]
    gfx := { metadata := { lib_handle := none, init := none, term := none }
             init_screen_internal := none, draw_rect_internal := none
             load_image_data := none, free_image_data := none
             draw_image_internal := none, update_screen_internal := none
             scroll_screen_internal := none }
    event := { metadata := { lib_handle := none, init := none, term := none }
               process_events_internal := none, register_release_handle := none } }

/-- A linker whose library, with handle 7, lacks the functions
`draw_rect_internal` and `register_release_handle`. -/
def sample_linker_missing_symbol : linker :=
  { DLLOPEN := fun _ => some 7
    DLLLOOKUP := fun _ function =>
      if function = symbol.draw_rect_internal ∨ function = symbol.register_release_handle
      then none else some 9 }

/-- A linker that finds no library. -/
def sample_linker_no_library : linker :=
  { DLLOPEN := fun _ => none, DLLLOOKUP := fun _ _ => none }

/-- The state variables at program start. -/
def sample_state_start : state_globals :=
  { sg_state := STATE_NULL, sg_enqueued_state := STATE_NULL }

/-- A view of a map 2 tiles wide and 3 tiles high whose plane holds the
values 1 to 6, with a dirty rectangle over the whole map. -/
def sample_view_2x3 : mapview_t :=
  { x_offset := 0, y_offset := 0
    map := { width := 2, height := 3, max_layer_index := 0, max_zone_index := 0
             layer_tags := [1], value_planes := [[1, 2, 3, 4, 5, 6]]
             zone_planes := [[0, 0, 0, 0, 0, 0]], zone_properties := [0] }
    num_object_queues := 1, object_queue := [[]]
    dirty_rectangles := [{ start_x := 0, start_y := 0, width := 64, height := 96 }] }

/-- A view (field generation) of a map 3 tiles wide and 2 tiles high whose
layer holds the values 1 to 6, with nothing dirty. -/
def sample_field_view_3x2 : Field.map_view :=
  { x_offset := 0, y_offset := 0
    map := { width := 3, height := 2, num_layers := 1, layer_tags := [1]
             data_layers := [[1, 2, 3, 4, 5, 6]] }
    dirty_tiles := [0, 0, 0, 0, 0, 0], num_object_queues := 1, object_queue := [[]]
    dirty_rectangles := [] }

/-- An object pass (field generation) that leaves the view and the objects
alone. -/
def no_field_objects_pass : Field.dirty_rectangle → Field.map_view × Unit → Field.map_view × Unit :=
  fun _ s => s

/-- An image (field generation) of the given height at map line 0, named by
`parent`. -/
def sample_field_image (parent height : Nat) : Field.object_image :=
  { parent := some [parent], filename := some [105], image_x := 0, image_y := 0
    map_x := 0, map_y := 0, width := 16, height := height }

/-- The outcome of enqueueing an image of key 20 and then an image of key 10
for tag 1 on the view of the 4x4 map. -/
def queue_after_two_adds : Int × Int × Option Field.map_view :=
  let r1 := Field.add_object_image (some sample_field_view_4x4) 1 (some (sample_field_image 1 20))
  let r2 := Field.add_object_image r1.2 1 (some (sample_field_image 2 10))
  (r1.1, r2.1, r2.2)

/-- A file that starts with the bytes "XXXX", followed by two zero bytes. -/
def sample_file_wrong_id : FILE := fopen [88, 88, 88, 88, 0, 0]

/-- A 1x1 map with 256 layers. -/
def sample_map_256_layers : map_t := init_map 1 1 255 0

/-- A view of the map of 256 layers with a dirty rectangle over its tile. -/
def sample_view_256_layers : mapview_t :=
  { x_offset := 0, y_offset := 0, map := sample_map_256_layers, num_object_queues := 0
    object_queue := []
    dirty_rectangles := [{ start_x := 0, start_y := 0, width := 32, height := 32 }] }

/-- A view of a 1x1 map whose tile has the value 1024, with a dirty rectangle
over the tile. -/
def sample_view_tile_1024 : mapview_t :=
  { x_offset := 0, y_offset := 0
    map := { width := 1, height := 1, max_layer_index := 0, max_zone_index := 0
             layer_tags := [0], value_planes := [[1024]], zone_planes := [[0]]
             zone_properties := [0] }
    num_object_queues := 0, object_queue := []
    dirty_rectangles := [{ start_x := 0, start_y := 0, width := 32, height := 32 }] }

/-- A view (field generation) of a 1x1 map whose tile has the value 1024 and
is dirty. -/
def sample_field_view_tile_1024 : Field.map_view :=
  { x_offset := 0, y_offset := 0
    map := { width := 1, height := 1, num_layers := 1, layer_tags := [0]
             data_layers := [[1024]] }
    dirty_tiles := [1], num_object_queues := 0, object_queue := []
    dirty_rectangles := [] }

/-- The functions that `load_module_gfx` looks up for the graphics slot. -/
def gfx_symbols : List symbol :=
  [symbol.init_screen_internal, symbol.draw_rect_internal, symbol.load_image_data,
   symbol.free_image_data, symbol.draw_image_internal, symbol.update_screen_internal,
   symbol.scroll_screen_internal]

/-- The functions that `load_module_event` looks up for the event slot. -/
def event_symbols : List symbol :=
  [symbol.process_events_internal, symbol.register_release_handle]

/-- The call of `term` that `close_module` makes for a bound module, if the
function was found. -/
def term_calls (module : module_data) : List module_call :=
  match module.term with
  | some term => [module_call.call term]
  | none => []

/-- The module set with the graphics slot closed by `close_module`. -/
def close_gfx (modules : module_set) (calls : List module_call) : module_set :=
  { modules with gfx := { modules.gfx with metadata := (close_module modules.gfx.metadata calls).1 } }

/-- The module set with the event slot closed by `close_module`. -/
def close_event (modules : module_set) (calls : List module_call) : module_set :=
  { modules with
    event := { modules.event with metadata := (close_module modules.event.metadata calls).1 } }

/-- The sample set after a load of the graphics slot with the sample
linker. -/
def sample_modules_loaded : module_set :=
  (load_module_gfx sample_linker [46, 115, 111] [103] sample_modules_unbound []).2.1

/-- The dirty-tile matrix after `mark_dirty_rect` has marked tile `(0, 1)` of
the 3x2 view, the draw calls of `render_map_layer` for layer 0 on the marked
view, and the matrix after the pass. -/
def field_render_after_mark : Except Halt (List Nat × List gfx_call × List Nat) :=
  match Field.mark_dirty_rect 2 no_field_objects_pass (some sample_field_view_3x2) () 0 1 1 1 with
  | .error e => .error e
  | .ok (_, none, _) => .ok ([], [], [])
  | .ok (_, some marked, _) =>
    let r := Field.render_map_layer true 0 (marked, [])
    .ok (marked.dirty_tiles, r.2, r.1.dirty_tiles)

/-- The tileset is there and no call has been made. -/
def sample_engine_start : engine_t := { objects := [], tileset_loads := true, calls := [] }

/-- A 1x1 map whose highest layer index is 65535. -/
def sample_map_max_layers : map_t := init_map 1 1 65535 0

/-- A 1x1 map whose highest zone index is 65535. -/
def sample_map_max_zones : map_t := init_map 1 1 0 65535

/-! ## Integer ranges, and sequences of state calls -/

/-- A view at offset `(0, 0)` of a map 2048 tiles wide and 1 tile high, with
the rectangle over the whole map (65536x32 pixels) queued. -/
def sample_view_2048_wide : mapview_t :=
  { x_offset := 0, y_offset := 0, map := init_map 2048 1 0 0, num_object_queues := 0
    object_queue := []
    dirty_rectangles := [{ start_x := 0, start_y := 0, width := 65536, height := 32 }] }

/-- A call of the state machine: `set_state (new_state)`, or `update_state ()`
during which `init_field ()` and `cleanup_field ()`, if called, return the
given values. -/
inductive state_call where
  | set_state (new_state : Nat)
  | update_state (init_field cleanup_field : Int)
deriving DecidableEq, Repr

/-- The state variables after a sequence of calls, first to last. -/
def run_state_calls (calls : List state_call) (g : state_globals) : state_globals :=
  calls.foldl
    (fun g call =>
      match call with
      | .set_state new_state => (set_state g new_state).2
      | .update_state init_field cleanup_field => (update_state init_field cleanup_field g).2)
    g

/-- The state variables in the field state with nothing enqueued. -/
def sample_state_field : state_globals :=
  { sg_state := STATE_FIELD, sg_enqueued_state := STATE_NULL }

/-! ## Theorems: reading integers -/

theorem fgetc_of_getElem? (f : FILE) (b : Nat) (h : f.data[f.pos]? = some b) :
    fgetc f = (((b % 256 : Nat) : Int), { f with pos := f.pos + 1 }) := by
  simp [fgetc, h]

theorem fgetc_of_none (f : FILE) (h : f.data[f.pos]? = none) :
    fgetc f = (EOF, { f with eof := true }) := by
  simp [fgetc, h]

theorem to_uint16_byte_shift (b : Nat) (hb : b < 256) :
    to_uint16 (((b : Nat) : Int) * 256) = b * 256 := by
  unfold to_uint16
  omega

theorem to_uint16_byte (b : Nat) (hb : b < 256) : to_uint16 ((b : Nat) : Int) = b := by
  unfold to_uint16
  omega

theorem lor_bytes (b0 b1 : Nat) (hb1 : b1 < 256) : (0 ||| b0 * 256) ||| b1 = 256 * b0 + b1 := by
  have h := Nat.mul_add_lt_is_or (i := 8) (b := b1) (by simpa using hb1) b0
  simp only [Nat.zero_or]
  rw [Nat.mul_comm b0 256]
  exact h.symm

/-- The value and stream that `read_uint16` gives when two bytes are left. -/
theorem read_uint16_of_bytes (f : FILE) (b0 b1 : Nat)
    (h0 : f.data[f.pos]? = some b0) (h1 : f.data[f.pos + 1]? = some b1) :
    read_uint16 f = (256 * (b0 % 256) + b1 % 256, { f with pos := f.pos + 2 }) := by
  have hb0 : b0 % 256 < 256 := Nat.mod_lt _ (by decide)
  have hb1 : b1 % 256 < 256 := Nat.mod_lt _ (by decide)
  unfold read_uint16
  rw [fgetc_of_getElem? f b0 h0]
  simp only []
  rw [fgetc_of_getElem? _ b1 (by simpa using h1)]
  simp only [to_uint16_byte_shift _ hb0, to_uint16_byte _ hb1, lor_bytes _ _ hb1]

/-- C8: `read_uint16` decodes big-endian: when the next two bytes of the file
are `b0` then `b1` (each in 0..255), the result is `256 * b0 + b1`, it lies in
0..65535, and the stream has advanced by two bytes. -/
theorem read_uint16_big_endian (f : FILE) (b0 b1 : Nat) (hb0 : b0 < 256) (hb1 : b1 < 256)
    (h0 : f.data[f.pos]? = some b0) (h1 : f.data[f.pos + 1]? = some b1) :
    (read_uint16 f).1 = 256 * b0 + b1 ∧ (read_uint16 f).1 ≤ 65535
      ∧ (read_uint16 f).2 = { f with pos := f.pos + 2 } := by
  rw [read_uint16_of_bytes f b0 b1 h0 h1, Nat.mod_eq_of_lt hb0, Nat.mod_eq_of_lt hb1]
  refine ⟨rfl, ?_, rfl⟩
  show 256 * b0 + b1 ≤ 65535
  omega

/-- Witness of C8 on the two bytes `0x12 0x34`. -/
theorem read_uint16_big_endian_witness :
    (read_uint16 (fopen [18, 52])).1 = 256 * 18 + 52 ∧ (read_uint16 (fopen [18, 52])).1 ≤ 65535
      ∧ (read_uint16 (fopen [18, 52])).2 = { fopen [18, 52] with pos := (fopen [18, 52]).pos + 2 } :=
  read_uint16_big_endian (fopen [18, 52]) 18 52 (by decide) (by decide) (by rfl) (by rfl)

/-! ## Theorems: loops -/

theorem for_counter_eq_foldl {σ : Type} (wrap n : Nat) (hn : n < wrap) (cond : Nat → Bool)
    (hcond : ∀ i, cond i = decide (i < n)) (body : Nat → σ → Except Halt σ)
    (g : Nat → σ → σ) (I : σ → Prop)
    (hbody : ∀ i s, i < n → I s → body i s = .ok (g i s) ∧ I (g i s)) :
    ∀ (fuel l : Nat) (s : σ), l ≤ n → n - l < fuel → I s →
      for_counter wrap fuel cond body l s
          = .ok ((List.range' l (n - l)).foldl (fun s i => g i s) s)
        ∧ I ((List.range' l (n - l)).foldl (fun s i => g i s) s) := by
  intro fuel
  induction fuel with
  | zero => intro l s _ h; omega
  | succ fuel ih =>
    intro l s hl hf hI
    unfold for_counter
    by_cases hlt : l < n
    · have hb := hbody l s hlt hI
      have hstep : n - l = (n - (l + 1)) + 1 := by omega
      have hmod : (l + 1) % wrap = l + 1 := Nat.mod_eq_of_lt (by omega)
      rw [hcond l]
      simp only [hlt, decide_True, if_true, hb.1, hmod]
      rw [hstep, List.range'_succ, List.foldl_cons]
      exact ih (l + 1) (g l s) (by omega) (by omega) hb.2
    · have h0 : n - l = 0 := by omega
      rw [hcond l]
      simp [hlt, h0, hI]

theorem g_slist_foreach_handle (pass : object_pass)
    (hpass : ∀ mv r objs, ∃ q, pass mv r objs = .ok q) :
    ∀ (rects : List dirty_rectangle_t) (s : mapview_t × engine_t),
      ∃ s1, g_slist_foreach rects (handle_dirty_rectangle pass) s = .ok s1
        ∧ s1.1.map = s.1.map ∧ s1.2.tileset_loads = s.2.tileset_loads
        ∧ s1.1.dirty_rectangles = s.1.dirty_rectangles := by
  intro rects
  induction rects with
  | nil => intro s; exact ⟨s, rfl, rfl, rfl, rfl⟩
  | cons r rest ih =>
    intro s
    have hstep : ∃ s0, handle_dirty_rectangle pass r s = .ok s0 ∧ s0.1.map = s.1.map
        ∧ s0.2.tileset_loads = s.2.tileset_loads
        ∧ s0.1.dirty_rectangles = s.1.dirty_rectangles := by
      unfold handle_dirty_rectangle
      obtain ⟨q, hq⟩ := hpass s.1 r s.2.objects
      simp only [hq]
      split
      · exact ⟨s, rfl, rfl, rfl, rfl⟩
      · exact ⟨_, rfl, rfl, rfl, rfl⟩
    obtain ⟨s0, h0, hm, ht, hd⟩ := hstep
    obtain ⟨s1, h1, hm1, ht1, hd1⟩ := ih s0
    refine ⟨s1, ?_, by rw [hm1, hm], by rw [ht1, ht], by rw [hd1, hd]⟩
    simp only [g_slist_foreach, h0, h1]

/-- C9: `mark_dirty_rect` with `width <= 0` or `height <= 0` fails and changes
nothing: in `src/src/field/mapview.c` it returns `FAILURE` and the view (queue
and every other field) and the objects are as before; in
`src/src/map/mapview.c` the assertion `width > 0 && height > 0` fails, so the
call does not return and no view is produced. -/
theorem mark_dirty_rect_rejects_empty_rectangle {ω : Type} (fuel : Nat)
    (objects_pass : Field.dirty_rectangle → Field.map_view × ω → Field.map_view × ω)
    (field_view : Field.map_view) (objects : ω) (mapview : mapview_t) (x y width height : Int)
    (h : width ≤ 0 ∨ height ≤ 0) :
    Field.mark_dirty_rect fuel objects_pass (some field_view) objects x y width height
        = .ok (FAILURE, some field_view, objects)
      ∧ mark_dirty_rect mapview x y width height = .error .assertion := by
  constructor
  · simp [Field.mark_dirty_rect, h]
  · have h2 : ¬ (width > 0 ∧ height > 0) := by omega
    simp [mark_dirty_rect, h2]

/-- Witness of C9: a rectangle of width 0. -/
theorem mark_dirty_rect_rejects_empty_rectangle_witness :
    Field.mark_dirty_rect 5 (fun _ (s : Field.map_view × Unit) => s) (some sample_field_view) ()
        0 0 0 3 = .ok (FAILURE, some sample_field_view, ())
      ∧ mark_dirty_rect sample_mapview 0 0 0 3 = .error .assertion :=
  mark_dirty_rect_rejects_empty_rectangle 5 (fun _ s => s) sample_field_view () sample_mapview
    0 0 0 3 (Or.inl (by decide))

theorem for_counter_returns {σ : Type} (wrap n : Nat) (hn : n < wrap) (cond : Nat → Bool)
    (hcond : ∀ i, cond i = decide (i < n)) (body : Nat → σ → Except Halt σ) (I : σ → Prop)
    (hbody : ∀ i s, i < n → I s → ∃ s1, body i s = .ok s1 ∧ I s1) :
    ∀ (fuel l : Nat) (s : σ), l ≤ n → n - l < fuel → I s →
      ∃ s1, for_counter wrap fuel cond body l s = .ok s1 ∧ I s1 := by
  intro fuel
  induction fuel with
  | zero => intro l s _ h; omega
  | succ fuel ih =>
    intro l s hl hf hI
    unfold for_counter
    by_cases hlt : l < n
    · obtain ⟨s1, hb, hI1⟩ := hbody l s hlt hI
      have hmod : (l + 1) % wrap = l + 1 := Nat.mod_eq_of_lt (by omega)
      rw [hcond l]
      simp only [hlt, decide_True, if_true, hb, hmod]
      exact ih (l + 1) s1 (by omega) (by omega) hI1
    · rw [hcond l]
      simp only [hlt, decide_False, Bool.false_eq_true, if_false]
      exact ⟨s, rfl, hI⟩

theorem foldl_render_node_tileset (mv : mapview_t) (q : List render_node_t) (e : engine_t) :
    (q.foldl (fun engine node => render_node mv node engine) e).tileset_loads
      = e.tileset_loads := by
  induction q generalizing e with
  | nil => rfl
  | cons n q ih => rw [List.foldl_cons, ih]; rfl

theorem render_map_objects_tileset (l : Nat) (s : mapview_t × engine_t) :
    (render_map_objects l s).2.tileset_loads = s.2.tileset_loads := by
  by_cases h : get_layer_tag s.1.map l > NULL_TAG
  · simp only [render_map_objects, h, if_true]
    exact foldl_render_node_tileset _ _ _
  · simp only [render_map_objects, h, if_false]

theorem render_layer_step (l : Nat) (s : mapview_t × engine_t) (ht : s.2.tileset_loads = true) :
    ∃ s1, (match render_map_layer l s with
      | .error e => .error e
      | .ok s2 => .ok (render_map_objects l s2)) = (.ok s1 : Except Halt (mapview_t × engine_t))
      ∧ s1.2.tileset_loads = true := by
  simp only [render_map_layer, ht, Bool.not_true, Bool.false_eq_true, if_false]
  exact ⟨_, rfl, by simp [render_map_objects_tileset, ht]⟩

/-- C10: after `render_map` returns, the queue of dirty rectangles is empty,
for every view, engine state, object pass and amount of fuel; and `render_map`
does return when the object pass returns, the tileset loads, the highest layer
index is below 255 and the layer loop gets 256 turns of fuel. -/
theorem render_map_leaves_dirty_queue_empty (fuel : Nat) (objects_pass : object_pass)
    (s : mapview_t × engine_t) :
    (∀ s1, render_map fuel objects_pass s = .ok s1 → s1.1.dirty_rectangles = [])
      ∧ ((∀ mv r objs, ∃ q, objects_pass mv r objs = .ok q) → s.2.tileset_loads = true →
          get_max_layer s.1.map < 255 → 256 ≤ fuel →
          ∃ s1, render_map fuel objects_pass s = .ok s1 ∧ s1.1.dirty_rectangles = []) := by
  have part1 : ∀ s1, render_map fuel objects_pass s = .ok s1 → s1.1.dirty_rectangles = [] := by
    intro s1 h
    unfold render_map at h
    split at h
    · next hnil => cases h; exact hnil
    · split at h
      · cases h
      · split at h
        · cases h
        · cases h; rfl
  refine ⟨part1, ?_⟩
  intro hpass ht hmax hfuel
  by_cases hnil : s.1.dirty_rectangles = []
  · exact ⟨s, by simp [render_map, hnil], hnil⟩
  · obtain ⟨s0, h0, hm, ht0, _⟩ := g_slist_foreach_handle objects_pass hpass s.1.dirty_rectangles s
    have hr : ∃ s1, render_map fuel objects_pass s = .ok s1 := by
      unfold render_map
      simp only [hnil, if_false, h0, for_uint8]
      generalize hX : for_counter 256 fuel _ _ 0 s0 = X
      have hok : ∃ s3, X = .ok s3 ∧ s3.2.tileset_loads = true := by
        rw [← hX]
        refine for_counter_returns 256 (get_max_layer s0.1.map + 1) ?_ _ ?_ _
          (fun s => s.2.tileset_loads = true) (fun i s _ hI => render_layer_step i s hI)
          fuel 0 s0 ?_ ?_ ?_
        · rw [hm]; omega
        · intro i; simp [Nat.lt_succ_iff]
        · omega
        · rw [hm]; omega
        · show s0.2.tileset_loads = true
          rw [ht0]; exact ht
      obtain ⟨s3, h3, _⟩ := hok
      rw [h3]
      exact ⟨_, rfl⟩
    obtain ⟨s1, hs1⟩ := hr
    exact ⟨s1, hs1, part1 s1 hs1⟩

theorem render_map_leaves_dirty_queue_empty_witness :
    ∃ s1, render_map 256 no_objects_pass
        (sample_mapview, { objects := [], tileset_loads := true, calls := [] }) = .ok s1
      ∧ s1.1.dirty_rectangles = [] :=
  (render_map_leaves_dirty_queue_empty 256 no_objects_pass
    (sample_mapview, { objects := [], tileset_loads := true, calls := [] })).2
    (fun mv _ objs => ⟨(mv.object_queue, objs), rfl⟩) rfl (by decide) (by decide)

/-! ## Theorems: reading at a position -/

theorem getElem?_of_drop_eq_cons {α : Type} (D : List α) (p : Nat) (a : α) (rest : List α)
    (h : D.drop p = a :: rest) : D[p]? = some a ∧ D.drop (p + 1) = rest := by
  constructor
  · have := List.getElem?_drop D p 0
    rw [h] at this
    simpa using this.symm
  · have h2 : D.drop (p + 1) = (D.drop p).drop 1 := by rw [List.drop_drop]
    rw [h2, h]; rfl

theorem encode_uint16_value (v : Nat) (hv : v < 65536) :
    256 * (v / 256 % 256 % 256) + v % 256 % 256 = v := by omega

theorem read_uint16_at (D : List Nat) (p : Nat) (e : Bool) (v : Nat) (rest : List Nat)
    (hv : v < 65536) (h : D.drop p = encode_uint16 v ++ rest) :
    read_uint16 { data := D, pos := p, eof := e } = (v, { data := D, pos := p + 2, eof := e })
      ∧ D.drop (p + 2) = rest := by
  obtain ⟨h0, hd1⟩ := getElem?_of_drop_eq_cons D p _ _ (by simpa [encode_uint16] using h)
  obtain ⟨h1, hd2⟩ := getElem?_of_drop_eq_cons D (p + 1) _ _ hd1
  refine ⟨?_, hd2⟩
  rw [read_uint16_of_bytes _ _ _ h0 h1, encode_uint16_value v hv]

theorem read_uint32_at (D : List Nat) (p : Nat) (e : Bool) (n : Nat) (rest : List Nat)
    (hn : n < 4294967296) (h : D.drop p = encode_uint32 n ++ rest) :
    read_uint32 { data := D, pos := p, eof := e } = (n, { data := D, pos := p + 4, eof := e })
      ∧ D.drop (p + 4) = rest := by
  unfold encode_uint32 at h
  rw [List.append_assoc] at h
  obtain ⟨r1, hd1⟩ := read_uint16_at D p e (n / 65536 % 65536) _ (Nat.mod_lt _ (by decide)) h
  obtain ⟨r2, hd2⟩ := read_uint16_at D (p + 2) e (n % 65536) _ (Nat.mod_lt _ (by decide)) hd1
  refine ⟨?_, hd2⟩
  unfold read_uint32
  rw [r1]
  simp only []
  rw [r2]
  simp only [Prod.mk.injEq, and_true]
  omega

theorem fread_at (D : List Nat) (p : Nat) (e : Bool) (bytes rest : List Nat)
    (hb : ∀ b ∈ bytes, b < 256) (h : D.drop p = bytes ++ rest) :
    fread bytes.length { data := D, pos := p, eof := e }
        = (bytes, { data := D, pos := p + bytes.length, eof := e })
      ∧ D.drop (p + bytes.length) = rest := by
  have hmap : bytes.map (fun b => b % 256) = bytes := by
    conv_rhs => rw [← List.map_id bytes]
    apply List.map_congr_left
    intro b hbm
    exact Nat.mod_eq_of_lt (hb b hbm)
  constructor
  · unfold fread
    simp only [h, List.take_left', hmap, lt_self_iff_false, decide_False, Bool.or_false]
  · rw [← List.drop_drop, h, List.drop_left']
    rfl

/-! ## Theorems: chunk names and positions -/

theorem takeWhile_append_zero (l : List Nat) :
    (l ++ [0]).takeWhile (fun b => b != 0) = l.takeWhile (fun b => b != 0) := by
  induction l with
  | nil => rfl
  | cons a l ih =>
    by_cases ha : a = 0
    · simp [List.takeWhile, ha]
    · simp [List.takeWhile, ha, ih]

theorem c_str_buffer (name : List Nat) :
    c_str (name ++ [0]) = name.takeWhile (fun b => b != 0) := takeWhile_append_zero name

/-- The comparison of a 4-byte chunk name with one of the eight IDs is an
equality of the four bytes. -/
theorem strcmp_eq_chunk_id (name : List Nat) (hlen : name.length = 4) (i : Nat) (hi : i < 8) :
    strcmp_eq (name ++ [0]) (CHUNK_IDS.getD i []) = true ↔ name = chunk_id i := by
  have hid : c_str (CHUNK_IDS.getD i []) = chunk_id i ∧ (chunk_id i).length = 4
      ∧ (chunk_id i).takeWhile (fun b => b != 0) = chunk_id i := by
    interval_cases i <;> decide
  unfold strcmp_eq
  rw [c_str_buffer, hid.1, beq_iff_eq]
  constructor
  · intro h
    have hp : (name.takeWhile (fun b => b != 0)) <+: name := List.takeWhile_prefix _
    rw [h] at hp
    exact (hp.eq_of_length (by rw [hid.2.1, hlen])).symm
  · intro h
    rw [h, hid.2.2]

theorem foldl_set_if_getElem? {α : Type} (t : Nat → Bool) (v : α) :
    ∀ (js : List Nat) (cp : List α) (i : Nat),
      (js.foldl (fun cp j => if t j then cp.set j v else cp) cp)[i]?
        = if i ∈ js ∧ t i = true ∧ i < cp.length then some v else cp[i]? := by
  intro js
  induction js with
  | nil => intro cp i; simp
  | cons j js ih =>
    intro cp i
    rw [List.foldl_cons, ih]
    by_cases htj : t j = true
    · simp only [htj, if_true, List.length_set, List.mem_cons]
      by_cases hij : i = j
      · subst hij
        by_cases hlen : i < cp.length
        · simp [htj, hlen, List.getElem?_set]
        · have hle : cp.length ≤ i := by omega
          simp [htj, hlen, List.getElem?_set, hle]
      · have hji : ¬ j = i := fun h => hij h.symm
        simp [hij, hji, List.getElem?_set]
    · simp only [htj, Bool.false_eq_true, if_false, List.mem_cons]
      by_cases hij : i = j
      · subst hij; simp [htj]
      · simp [hij]

theorem foldl_set_if_length {α : Type} (t : Nat → Bool) (v : α) :
    ∀ (js : List Nat) (cp : List α),
      (js.foldl (fun cp j => if t j then cp.set j v else cp) cp).length = cp.length := by
  intro js
  induction js with
  | nil => intro cp; rfl
  | cons j js ih =>
    intro cp
    rw [List.foldl_cons, ih]
    split <;> simp

theorem record_chunk_position_length (name : List Nat) (pos : Nat) (cp : List Int) :
    (record_chunk_position name pos cp).length = cp.length :=
  foldl_set_if_length _ _ _ _

theorem record_chunk_position_getElem? (name : List Nat) (pos : Nat) (cp : List Int)
    (hcp : cp.length = 8) (i : Nat) (hi : i < 8) :
    (record_chunk_position name pos cp)[i]?
      = if strcmp_eq name (CHUNK_IDS.getD i []) = true then some (pos : Int) else cp[i]? := by
  unfold record_chunk_position
  rw [foldl_set_if_getElem?]
  have hmem : i ∈ List.range NUM_CHUNKS := by simp [NUM_CHUNKS, hi]
  simp [hmem, hcp, hi]

theorem chunk_valid_iff (c : chunk) :
    c.valid = true ↔ c.id.length = 4 ∧ (∀ b ∈ c.id, b < 256) ∧ c.payload.length < 4294967296 := by
  simp [chunk.valid, and_assoc]

theorem encode_uint32_length (n : Nat) : (encode_uint32 n).length = 4 := rfl

theorem encode_chunk_length (c : chunk) (hc : c.valid = true) :
    (encode_chunk c).length = 8 + c.payload.length := by
  rw [chunk_valid_iff] at hc
  simp only [encode_chunk, List.length_append, encode_uint32_length, hc.1]

theorem scan_loop_chunk (fuel : Nat) (D : List Nat) (p : Nat) (cp : List Int) (c : chunk)
    (rest : List Nat) (hc : c.valid = true) (h : D.drop p = encode_chunk c ++ rest) :
    scan_loop (fuel + 1) { data := D, pos := p, eof := false } cp
        = scan_loop fuel { data := D, pos := p + 8 + c.payload.length, eof := false }
            (record_chunk_position (c.id ++ [0]) (p + 8) cp)
      ∧ D.drop (p + 8 + c.payload.length) = rest := by
  rw [chunk_valid_iff] at hc
  obtain ⟨hlen, hbytes, hpay⟩ := hc
  unfold encode_chunk at h
  rw [List.append_assoc, List.append_assoc] at h
  obtain ⟨hr, hd⟩ := fread_at D p false c.id _ hbytes h
  rw [hlen] at hr hd
  obtain ⟨hr2, hd2⟩ := read_uint32_at D (p + 4) false c.payload.length _ hpay hd
  have hd3 : D.drop (p + 8 + c.payload.length) = rest := by
    have : p + 8 + c.payload.length = (p + 4 + 4) + c.payload.length := by omega
    rw [this, ← List.drop_drop, hd2, List.drop_left']
    rfl
  refine ⟨?_, hd3⟩
  rw [scan_loop]
  simp only [feof, Bool.false_eq_true, if_false, ID_LENGTH, hr, hlen, ne_eq, not_true_eq_false,
    hr2, ftell, fseek_cur]

theorem scan_loop_end (fuel : Nat) (D : List Nat) (p : Nat) (cp : List Int)
    (h : D.drop p = []) :
    scan_loop (fuel + 1) { data := D, pos := p, eof := false } cp
      = .ok (cp, { data := D, pos := p, eof := true }) := by
  rw [scan_loop]
  simp [feof, fread, h, ID_LENGTH]

/-- The scan of a file whose bytes from position `p` on are the chunks `cs`
leaves the positions `chunk_positions_after cs p cp`. -/
theorem scan_loop_encode_body (D : List Nat) :
    ∀ (cs : List chunk) (fuel p : Nat) (cp : List Int), (∀ c ∈ cs, c.valid = true) →
      D.drop p = encode_body cs → cs.length < fuel →
      ∃ f, scan_loop fuel { data := D, pos := p, eof := false } cp
          = .ok (chunk_positions_after cs p cp, f) ∧ f.data = D := by
  intro cs
  induction cs with
  | nil =>
    intro fuel p cp _ h hf
    obtain ⟨fuel, rfl⟩ : ∃ k, fuel = k + 1 := ⟨fuel - 1, by omega⟩
    exact ⟨_, scan_loop_end fuel D p cp (by simpa [encode_body] using h), rfl⟩
  | cons c cs ih =>
    intro fuel p cp hv h hf
    obtain ⟨fuel, rfl⟩ : ∃ k, fuel = k + 1 := ⟨fuel - 1, by omega⟩
    have hc := hv c (List.mem_cons_self _ _)
    have h2 : D.drop p = encode_chunk c ++ encode_body cs := by
      simpa [encode_body, List.flatMap_cons] using h
    obtain ⟨hstep, hd⟩ := scan_loop_chunk fuel D p cp c _ hc h2
    rw [hstep]
    exact ih fuel _ _ (fun d hd => hv d (List.mem_cons_of_mem _ hd)) hd
      (by simpa using hf)

theorem encode_body_length_ge (cs : List chunk) (hv : ∀ c ∈ cs, c.valid = true) :
    cs.length ≤ (encode_body cs).length := by
  induction cs with
  | nil => simp [encode_body]
  | cons c cs ih =>
    have hc := encode_chunk_length c (hv c (List.mem_cons_self _ _))
    have := ih (fun d hd => hv d (List.mem_cons_of_mem _ hd))
    simp only [encode_body, List.flatMap_cons, List.length_append, List.length_cons] at *
    omega

theorem check_magic_sequence_at (D : List Nat) (p : Nat) (e : Bool) (i : Nat) (hi : i < 8)
    (rest : List Nat) (h : D.drop p = chunk_id i ++ rest) :
    check_magic_sequence { data := D, pos := p, eof := e } (CHUNK_IDS.getD i [])
        = .ok (true, { data := D, pos := p + 4, eof := e })
      ∧ D.drop (p + 4) = rest := by
  have hid : strlen (CHUNK_IDS.getD i []) = 4 ∧ (chunk_id i).length = 4
      ∧ (∀ b ∈ chunk_id i, b < 256)
      ∧ strcmp_eq (CHUNK_IDS.getD i []) (chunk_id i ++ [0]) = true := by
    interval_cases i <;> decide
  obtain ⟨hs, hl, hb, hcmp⟩ := hid
  obtain ⟨hr, hd⟩ := fread_at D p e (chunk_id i) rest hb h
  rw [hl] at hr hd
  refine ⟨?_, hd⟩
  unfold check_magic_sequence
  simp only [hs, hr, hl, ne_eq, not_true_eq_false, if_false, hcmp, Bool.not_true,
    Bool.false_eq_true]

theorem read_uint32_at_any (D : List Nat) (p : Nat) (e : Bool) (n : Nat) (rest : List Nat)
    (h : D.drop p = encode_uint32 n ++ rest) :
    (read_uint32 { data := D, pos := p, eof := e }).2 = { data := D, pos := p + 4, eof := e }
      ∧ D.drop (p + 4) = rest := by
  have henc : encode_uint32 n = encode_uint32 (n % 4294967296) := by
    unfold encode_uint32
    congr 2 <;> omega
  rw [henc] at h
  obtain ⟨hr, hd⟩ := read_uint32_at D p e _ rest (Nat.mod_lt _ (by decide)) h
  exact ⟨by rw [hr], hd⟩

/-- The chunk positions found in a file made of the chunks `cs`. -/
theorem find_chunks_encode_file (cs : List chunk) (hv : ∀ c ∈ cs, c.valid = true) :
    ∃ f, find_chunks (fopen (encode_file cs))
        = .ok (chunk_positions_after cs 12 init_chunk_positions_array, f)
      ∧ f.data = encode_file cs := by
  have h0 : (encode_file cs).drop 0 = chunk_id 0
      ++ (encode_uint32 (4 + (encode_body cs).length) ++ (chunk_id 1 ++ encode_body cs)) := by
    simp [encode_file, chunk_id, CHUNK_IDS]
  obtain ⟨hm0, hd0⟩ := check_magic_sequence_at _ 0 false 0 (by decide) _ h0
  obtain ⟨hr, hd1⟩ := read_uint32_at_any _ (0 + 4) false _ _ hd0
  obtain ⟨hm1, hd2⟩ := check_magic_sequence_at _ (0 + 4 + 4) false 1 (by decide) _ hd1
  have hlen : cs.length < (encode_file cs).length + 1 := by
    have := encode_body_length_ge cs hv
    simp only [encode_file, List.length_append]
    omega
  obtain ⟨f, hscan, hf⟩ := scan_loop_encode_body (encode_file cs) cs
    ((encode_file cs).length + 1) (0 + 4 + 4 + 4) init_chunk_positions_array hv hd2 hlen
  refine ⟨f, ?_, hf⟩
  unfold find_chunks
  simp only [fseek_set, fopen, ID_FORM, ID_HEADER] at hm0 hm1 ⊢
  rw [hm0]
  simp only []
  rw [hr, hm1]
  simp only [scan_body_for_chunks]
  exact hscan

/-! ## Theorems: where the scan finds a chunk -/

theorem encode_body_append (pre post : List chunk) :
    encode_body (pre ++ post) = encode_body pre ++ encode_body post := by
  simp [encode_body, List.flatMap_append]

theorem chunk_positions_after_length (cs : List chunk) :
    ∀ (p : Nat) (cp : List Int), (chunk_positions_after cs p cp).length = cp.length := by
  induction cs with
  | nil => intro p cp; rfl
  | cons c cs ih =>
    intro p cp
    rw [chunk_positions_after, ih, record_chunk_position_length]

theorem chunk_positions_after_append (pre post : List chunk)
    (hv : ∀ c ∈ pre, c.valid = true) :
    ∀ (p : Nat) (cp : List Int),
      chunk_positions_after (pre ++ post) p cp
        = chunk_positions_after post (p + (encode_body pre).length)
            (chunk_positions_after pre p cp) := by
  induction pre with
  | nil => intro p cp; simp [chunk_positions_after, encode_body]
  | cons c pre ih =>
    intro p cp
    have hc := encode_chunk_length c (hv c (List.mem_cons_self _ _))
    have hlen : p + 8 + c.payload.length + (encode_body pre).length
        = p + (encode_body (c :: pre)).length := by
      simp only [encode_body, List.flatMap_cons, List.length_append] at hc ⊢
      omega
    rw [List.cons_append, chunk_positions_after, chunk_positions_after,
      ih (fun d hd => hv d (List.mem_cons_of_mem _ hd)), hlen]

/-- Chunks with other IDs leave the position recorded under ID `i` alone. -/
theorem chunk_positions_after_other (i : Nat) (hi : i < 8) (cs : List chunk)
    (hv : ∀ c ∈ cs, c.valid = true) (hne : ∀ c ∈ cs, c.id ≠ chunk_id i) :
    ∀ (p : Nat) (cp : List Int), cp.length = 8 →
      (chunk_positions_after cs p cp)[i]? = cp[i]? := by
  induction cs with
  | nil => intro p cp _; rfl
  | cons c cs ih =>
    intro p cp hcp
    have hc := (chunk_valid_iff c).1 (hv c (List.mem_cons_self _ _))
    have hcmp : ¬ strcmp_eq (c.id ++ [0]) (CHUNK_IDS.getD i []) = true := by
      rw [strcmp_eq_chunk_id _ hc.1 i hi]
      exact hne c (List.mem_cons_self _ _)
    rw [chunk_positions_after,
      ih (fun d hd => hv d (List.mem_cons_of_mem _ hd))
        (fun d hd => hne d (List.mem_cons_of_mem _ hd)) _ _
        (by rw [record_chunk_position_length]; exact hcp),
      record_chunk_position_getElem? _ _ _ hcp i hi]
    rw [if_neg hcmp]

/-- The position recorded under ID `i` is the payload position of the last
chunk with that ID. -/
theorem chunk_positions_after_last (i : Nat) (hi : i < 8) (pre post : List chunk) (c : chunk)
    (hid : c.id = chunk_id i) (hv : ∀ d ∈ pre ++ c :: post, d.valid = true)
    (hpost : ∀ d ∈ post, d.id ≠ c.id) (p : Nat) (cp : List Int) (hcp : cp.length = 8) :
    (chunk_positions_after (pre ++ c :: post) p cp)[i]?
      = some ((p + (encode_body pre).length + 8 : Nat) : Int) := by
  have hvpre : ∀ d ∈ pre, d.valid = true := fun d hd => hv d (List.mem_append_left _ hd)
  have hvc : c.valid = true := hv c (by simp)
  have hvpost : ∀ d ∈ post, d.valid = true := fun d hd => hv d (by simp [hd])
  have hc := (chunk_valid_iff c).1 hvc
  have hcmp : strcmp_eq (c.id ++ [0]) (CHUNK_IDS.getD i []) = true := by
    rw [strcmp_eq_chunk_id _ hc.1 i hi]; exact hid
  rw [chunk_positions_after_append pre _ hvpre, chunk_positions_after,
    chunk_positions_after_other i hi post hvpost (fun d hd => hid ▸ hpost d hd) _ _
      (by rw [record_chunk_position_length, chunk_positions_after_length]; exact hcp),
    record_chunk_position_getElem? _ _ _ (by rw [chunk_positions_after_length]; exact hcp) i hi]
  rw [if_pos hcmp]

/-- The bytes of the file from the payload of a chunk on. -/
theorem encode_file_drop_payload (pre post : List chunk) (c : chunk)
    (hv : ∀ d ∈ pre ++ c :: post, d.valid = true) :
    (encode_file (pre ++ c :: post)).drop (12 + (encode_body pre).length + 8)
      = c.payload ++ encode_body post := by
  have hc := (chunk_valid_iff c).1 (hv c (by simp))
  have h1 : encode_file (pre ++ c :: post)
      = (([70, 79, 82, 77] ++ encode_uint32 (4 + (encode_body (pre ++ c :: post)).length)
          ++ [67, 77, 70, 84]) ++ encode_body pre ++ (c.id ++ encode_uint32 c.payload.length))
        ++ (c.payload ++ encode_body post) := by
    simp [encode_file, encode_body, List.flatMap_append, List.flatMap_cons, encode_chunk]
  rw [h1]
  apply List.drop_left'
  simp only [List.length_append, encode_uint32_length, hc.1, List.length_cons, List.length_nil]

/-! ## Theorems: missing chunks -/

theorem chunks_missing_iff (cp : List Int) :
    chunks_missing cp = true ↔ ∃ i, i < 8 ∧ cp.getD i 0 = CHUNK_NOT_FOUND := by
  simp [chunks_missing, NUM_CHUNKS, List.any_eq_true]

theorem getD_eq_sentinel_iff (cp : List Int) (i : Nat) :
    cp.getD i 0 = CHUNK_NOT_FOUND ↔ cp[i]? = some CHUNK_NOT_FOUND := by
  rw [List.getD_eq_getElem?_getD]
  cases h : cp[i]? with
  | none => simp [CHUNK_NOT_FOUND]
  | some v => simp

theorem record_chunk_position_keeps_found (name : List Nat) (pos : Nat) (cp : List Int)
    (hcp : cp.length = 8) (i : Nat) (hi : i < 8) (h : cp[i]? ≠ some CHUNK_NOT_FOUND) :
    (record_chunk_position name pos cp)[i]? ≠ some CHUNK_NOT_FOUND := by
  rw [record_chunk_position_getElem? _ _ _ hcp i hi]
  split
  · simp only [CHUNK_NOT_FOUND, ne_eq, Option.some.injEq]
    omega
  · exact h

theorem scan_loop_keeps_found :
    ∀ (fuel : Nat) (file : FILE) (cp cp1 : List Int) (f1 : FILE),
      scan_loop fuel file cp = .ok (cp1, f1) → cp.length = 8 →
      cp1.length = 8 ∧ ∀ i, i < 8 → cp[i]? ≠ some CHUNK_NOT_FOUND →
        cp1[i]? ≠ some CHUNK_NOT_FOUND := by
  intro fuel
  induction fuel with
  | zero => intro file cp cp1 f1 h; simp [scan_loop] at h
  | succ fuel ih =>
    intro file cp cp1 f1 h hcp
    rw [scan_loop] at h
    split at h
    · cases h; exact ⟨hcp, fun _ _ h => h⟩
    · simp only [] at h
      split at h
      · cases h; exact ⟨hcp, fun _ _ h => h⟩
      · obtain ⟨hl, hk⟩ := ih _ _ _ _ h (by rw [record_chunk_position_length]; exact hcp)
        exact ⟨hl, fun i hi hne =>
          hk i hi (record_chunk_position_keeps_found _ _ _ hcp i hi hne)⟩

theorem find_chunks_keeps_found (file : FILE) (cp : List Int) (f : FILE)
    (h : find_chunks file = .ok (cp, f)) :
    cp.length = 8 ∧ cp[0]? ≠ some CHUNK_NOT_FOUND ∧ cp[1]? ≠ some CHUNK_NOT_FOUND := by
  unfold find_chunks at h
  simp only [] at h
  split at h
  · cases h
  · cases h
  · split at h
    · cases h
    · cases h
    · obtain ⟨hl, hk⟩ := scan_loop_keeps_found _ _ _ _ _ h (by decide)
      exact ⟨hl, hk 0 (by decide) (by decide), hk 1 (by decide) (by decide)⟩

/-- C3: if one of the chunks VERS, DIMS, TAGS, VALS, ZONE, PROP (the IDs
numbered `ID_VERSION` to `ID_PROPERTIES`) is the ID of no chunk of the file
body, `parse_map_file` stops with the fatal error for missing chunks and
returns no map, whatever the fuel; and for every file whose chunk positions
`find_chunks` returns, `chunks_missing` is true exactly when the position of one
of those six chunks still holds the sentinel `CHUNK_NOT_FOUND`, and in that case
`parse_map_file` stops with that fatal error. -/
theorem parse_map_file_missing_chunk (cs : List chunk) (hv : ∀ c ∈ cs, c.valid = true)
    (i : Nat) (hlo : ID_VERSION ≤ i) (hhi : i < NUM_CHUNKS)
    (hmiss : ∀ c ∈ cs, c.id ≠ chunk_id i) (fuel : Nat) :
    parse_map_file fuel (fopen (encode_file cs)) = .error .fatal_missing_chunks
      ∧ ∀ (file : FILE) (cp : List Int) (f : FILE), find_chunks file = .ok (cp, f) →
          (chunks_missing cp = true
              ↔ ∃ j, ID_VERSION ≤ j ∧ j < NUM_CHUNKS ∧ cp[j]? = some CHUNK_NOT_FOUND)
            ∧ ((∃ j, ID_VERSION ≤ j ∧ j < NUM_CHUNKS ∧ cp[j]? = some CHUNK_NOT_FOUND) →
                parse_map_file fuel file = .error .fatal_missing_chunks) := by
  have hi8 : i < 8 := hhi
  constructor
  · obtain ⟨f, hfind, _⟩ := find_chunks_encode_file cs hv
    have hpos : (chunk_positions_after cs 12 init_chunk_positions_array)[i]?
        = some CHUNK_NOT_FOUND := by
      rw [chunk_positions_after_other i hi8 cs hv hmiss 12 _ (by decide)]
      have h2 : 2 ≤ i := hlo
      interval_cases i <;> decide
    have hmissing : chunks_missing (chunk_positions_after cs 12 init_chunk_positions_array)
        = true := by
      rw [chunks_missing_iff]
      exact ⟨i, hi8, (getD_eq_sentinel_iff _ _).2 hpos⟩
    unfold parse_map_file
    rw [hfind]
    simp only [hmissing, if_true]
  · intro file cp f hfind
    obtain ⟨_, h0, h1⟩ := find_chunks_keeps_found file cp f hfind
    have hiff : chunks_missing cp = true
        ↔ ∃ j, ID_VERSION ≤ j ∧ j < NUM_CHUNKS ∧ cp[j]? = some CHUNK_NOT_FOUND := by
      rw [chunks_missing_iff]
      constructor
      · rintro ⟨j, hj, hjv⟩
        rw [getD_eq_sentinel_iff] at hjv
        refine ⟨j, ?_, hj, hjv⟩
        show 2 ≤ j
        by_contra hlt
        have : j = 0 ∨ j = 1 := by omega
        rcases this with rfl | rfl
        · exact h0 hjv
        · exact h1 hjv
      · rintro ⟨j, _, hj, hjv⟩
        exact ⟨j, hj, (getD_eq_sentinel_iff _ _).2 hjv⟩
    refine ⟨hiff, ?_⟩
    intro hex
    have hmissing := hiff.2 hex
    unfold parse_map_file
    rw [hfind]
    simp only [hmissing, if_true]

set_option maxRecDepth 100000 in
/-- Witness of C3: the sample map's file without its DIMS chunk. -/
theorem parse_map_file_missing_chunk_witness :
    parse_map_file 3 (fopen (encode_file chunks_without_dims)) = .error .fatal_missing_chunks
      ∧ ∀ (file : FILE) (cp : List Int) (f : FILE), find_chunks file = .ok (cp, f) →
          (chunks_missing cp = true
              ↔ ∃ j, ID_VERSION ≤ j ∧ j < NUM_CHUNKS ∧ cp[j]? = some CHUNK_NOT_FOUND)
            ∧ ((∃ j, ID_VERSION ≤ j ∧ j < NUM_CHUNKS ∧ cp[j]? = some CHUNK_NOT_FOUND) →
                parse_map_file 3 file = .error .fatal_missing_chunks) :=
  parse_map_file_missing_chunk chunks_without_dims (by decide) ID_DIMENSIONS (by decide)
    (by decide) (by decide) 3

/-! ## Theorems: the version check -/

set_option maxRecDepth 100000 in
theorem lor_all_ones (b : Nat) (hb : b < 256) : (0 ||| b * 256) ||| 65535 = 65535 := by
  revert b
  decide

/-- What `read_uint16` returns: the stored value if two bytes are left, and
65535 at the end of the file. -/
theorem read_uint16_value (f : FILE) :
    (read_uint16 f).1 = (stored_uint16 f.data f.pos).getD 65535 := by
  cases h0 : f.data[f.pos]? with
  | none =>
    have h1 : stored_uint16 f.data f.pos = none := by simp [stored_uint16, h0]
    rw [h1]
    unfold read_uint16
    rw [fgetc_of_none f h0]
    simp only []
    rw [fgetc_of_none _ (by simpa using h0)]
    simp only [EOF, Option.getD_none]
    decide
  | some b0 =>
    cases h1 : f.data[f.pos + 1]? with
    | none =>
      have hs : stored_uint16 f.data f.pos = none := by simp [stored_uint16, h0, h1]
      rw [hs]
      unfold read_uint16
      rw [fgetc_of_getElem? f b0 h0]
      simp only []
      rw [fgetc_of_none _ (by simpa using h1)]
      simp only [to_uint16_byte_shift _ (Nat.mod_lt b0 (by decide : 256 > 0)), EOF]
      exact lor_all_ones _ (Nat.mod_lt b0 (by decide))
    | some b1 =>
      have hs : stored_uint16 f.data f.pos = some (256 * (b0 % 256) + b1 % 256) := by
        simp [stored_uint16, h0, h1]
      rw [hs, read_uint16_of_bytes f b0 b1 h0 h1]
      rfl

theorem read_uint16_data (f : FILE) : (read_uint16 f).2.data = f.data := by
  unfold read_uint16 fgetc
  simp only []
  split <;> split <;> rfl

theorem read_uint32_data (f : FILE) : (read_uint32 f).2.data = f.data := by
  unfold read_uint32
  simp only [read_uint16_data]

theorem record_chunk_position_ge (name : List Nat) (pos : Nat) (cp : List Int)
    (hcp : cp.length = 8) (i : Nat) (hi : i < 8) (h : -1 ≤ cp.getD i 0) :
    -1 ≤ (record_chunk_position name pos cp).getD i 0 := by
  rw [List.getD_eq_getElem?_getD] at h ⊢
  rw [record_chunk_position_getElem? _ _ _ hcp i hi]
  split
  · simp only [Option.getD_some]; omega
  · exact h

theorem scan_loop_bounds :
    ∀ (fuel : Nat) (file : FILE) (cp cp1 : List Int) (f1 : FILE),
      scan_loop fuel file cp = .ok (cp1, f1) → cp.length = 8 →
      (∀ i, i < 8 → -1 ≤ cp.getD i 0) →
      f1.data = file.data ∧ ∀ i, i < 8 → -1 ≤ cp1.getD i 0 := by
  intro fuel
  induction fuel with
  | zero => intro file cp cp1 f1 h; simp [scan_loop] at h
  | succ fuel ih =>
    intro file cp cp1 f1 h hcp hge
    rw [scan_loop] at h
    split at h
    · cases h; exact ⟨rfl, hge⟩
    · simp only [] at h
      split at h
      · cases h; exact ⟨rfl, hge⟩
      · obtain ⟨hd, hk⟩ := ih _ _ _ _ h (by rw [record_chunk_position_length]; exact hcp)
          (fun i hi => record_chunk_position_ge _ _ _ hcp i hi (hge i hi))
        refine ⟨?_, hk⟩
        rw [hd]
        simp only [fseek_cur, read_uint32_data, fread]

theorem check_magic_sequence_data (file : FILE) (sequence : List Nat) (b : Bool) (f : FILE)
    (h : check_magic_sequence file sequence = .ok (b, f)) : f.data = file.data := by
  unfold check_magic_sequence at h
  simp only [] at h
  split at h
  · cases h
  · split at h <;> (cases h; rfl)

theorem find_chunks_bounds (file : FILE) (cp : List Int) (f : FILE)
    (h : find_chunks file = .ok (cp, f)) :
    f.data = file.data ∧ ∀ i, i < 8 → -1 ≤ cp.getD i 0 := by
  unfold find_chunks at h
  simp only [] at h
  split at h
  · cases h
  · cases h
  · next f0 hm0 =>
    split at h
    · cases h
    · cases h
    · next f1 hm1 =>
      obtain ⟨hd, hk⟩ := scan_loop_bounds _ _ _ _ _ h (by decide)
        (by intro i hi; interval_cases i <;> decide)
      refine ⟨?_, hk⟩
      rw [hd, check_magic_sequence_data _ _ _ _ hm1, read_uint32_data,
        check_magic_sequence_data _ _ _ _ hm0]
      rfl

theorem for_counter_error_not_fatal {σ : Type} (wrap : Nat) (cond : Nat → Bool)
    (body : Nat → σ → Except Halt σ)
    (hbody : ∀ i s e, body i s = .error e → e.is_fatal = false) :
    ∀ (fuel l : Nat) (s : σ) (e : Halt),
      for_counter wrap fuel cond body l s = .error e → e.is_fatal = false := by
  intro fuel
  induction fuel with
  | zero => intro l s e h; simp only [for_counter] at h; cases h; rfl
  | succ fuel ih =>
    intro l s e h
    rw [for_counter] at h
    split at h
    · split at h
      · exact ih _ _ _ h
      · next e1 hb => cases h; exact hbody _ _ _ hb
    · cases h

theorem skip_to_chunk_error_not_fatal (file : FILE) (p : Int) (e : Halt)
    (h : skip_to_chunk file p = .error e) : e.is_fatal = false := by
  unfold skip_to_chunk at h
  split at h
  · cases h; rfl
  · cases h

theorem read_map_value_plane_not_fatal (fuel layer : Nat) (s : FILE × map_t) (e : Halt)
    (h : read_map_value_plane fuel layer s = .error e) : e.is_fatal = false := by
  unfold read_map_value_plane at h
  refine for_counter_error_not_fatal 65536 _ _ ?_ _ _ _ _ h
  intro i s1 e1 h1
  refine for_counter_error_not_fatal 65536 _ _ ?_ _ _ _ _ h1
  intro j s2 e2 h2
  cases h2

theorem read_layer_zone_plane_not_fatal (fuel layer : Nat) (s : FILE × map_t) (e : Halt)
    (h : read_layer_zone_plane fuel layer s = .error e) : e.is_fatal = false := by
  unfold read_layer_zone_plane at h
  refine for_counter_error_not_fatal 65536 _ _ ?_ _ _ _ _ h
  intro i s1 e1 h1
  refine for_counter_error_not_fatal 65536 _ _ ?_ _ _ _ _ h1
  intro j s2 e2 h2
  cases h2

/-- After the version check `parse_map_file` makes no `fatal` call. -/
theorem parse_map_chunks_error_not_fatal (fuel : Nat) (file : FILE) (chunks : List Int)
    (e : Halt) (h : parse_map_chunks fuel file chunks = .error e) : e.is_fatal = false := by
  unfold parse_map_chunks at h
  split at h
  · next e1 h1 =>
    cases h
    unfold read_map_dimensions_chunk at h1
    split at h1
    · next h2 => cases h1; exact skip_to_chunk_error_not_fatal _ _ _ h2
    · cases h1
  · simp only [] at h
    split at h
    · next e1 h1 =>
      cases h
      unfold read_map_tags_chunk at h1
      split at h1
      · next h2 => cases h1; exact skip_to_chunk_error_not_fatal _ _ _ h2
      · refine for_counter_error_not_fatal 65536 _ _ ?_ _ _ _ _ h1
        intro i s e2 h3
        cases h3
    · split at h
      · next e1 h1 =>
        cases h
        unfold read_map_value_planes_chunk at h1
        split at h1
        · next h2 => cases h1; exact skip_to_chunk_error_not_fatal _ _ _ h2
        · refine for_counter_error_not_fatal 65536 _ _ ?_ _ _ _ _ h1
          intro i s e2 h3
          exact read_map_value_plane_not_fatal _ _ _ _ h3
      · split at h
        · next e1 h1 =>
          cases h
          unfold read_map_zone_planes_chunk at h1
          split at h1
          · next h2 => cases h1; exact skip_to_chunk_error_not_fatal _ _ _ h2
          · refine for_counter_error_not_fatal 65536 _ _ ?_ _ _ _ _ h1
            intro i s e2 h3
            exact read_layer_zone_plane_not_fatal _ _ _ _ h3
        · split at h
          · next e1 h1 =>
            cases h
            unfold read_map_zone_properties_chunk at h1
            split at h1
            · next h2 => cases h1; exact skip_to_chunk_error_not_fatal _ _ _ h2
            · refine for_counter_error_not_fatal 65536 _ _ ?_ _ _ _ _ h1
              intro i s e2 h3
              cases h3
          · cases h

/-- C4: for every file in which `find_chunks` finds all required chunks,
`parse_map_file` stops with a `fatal` error if and only if the 16-bit value
stored at the recorded position of the VERS chunk is not the supported
version 1 (a VERS chunk cut off by the end of the file stores no value). -/
theorem parse_map_file_fatal_iff_version (file : FILE) (cp : List Int) (f : FILE)
    (hfind : find_chunks file = .ok (cp, f)) (hall : chunks_missing cp = false) (fuel : Nat) :
    (∃ e, parse_map_file fuel file = .error e ∧ e.is_fatal = true)
      ↔ stored_uint16 file.data (cp.getD ID_VERSION 0).toNat ≠ some MAP_VERSION := by
  obtain ⟨hdata, hge⟩ := find_chunks_bounds file cp f hfind
  have hnot : ¬ (∃ i, i < 8 ∧ cp.getD i 0 = CHUNK_NOT_FOUND) := by
    rw [← chunks_missing_iff, hall]; simp
  have hpos : ¬ (cp.getD ID_VERSION 0 < 0) := by
    have h1 := hge 2 (by decide)
    have h2 : cp.getD 2 0 ≠ -1 := fun h => hnot ⟨2, by decide, h⟩
    show ¬ (cp.getD 2 0 < 0)
    omega
  have hversion : (read_uint16 (fseek_set (cp.getD ID_VERSION 0).toNat f)).1
      = (stored_uint16 file.data (cp.getD ID_VERSION 0).toNat).getD 65535 := by
    rw [read_uint16_value]
    simp only [fseek_set, hdata]
  have hiff : (read_uint16 (fseek_set (cp.getD ID_VERSION 0).toNat f)).1 ≠ MAP_VERSION
      ↔ stored_uint16 file.data (cp.getD ID_VERSION 0).toNat ≠ some MAP_VERSION := by
    rw [hversion]
    cases stored_uint16 file.data (cp.getD ID_VERSION 0).toNat with
    | none => simp [MAP_VERSION]
    | some v => simp
  rw [← hiff]
  unfold parse_map_file
  rw [hfind]
  simp only [hall, Bool.false_eq_true, if_false, read_map_version_chunk, skip_to_chunk, hpos,
    read_map_version]
  by_cases hv : (read_uint16 (fseek_set (cp.getD ID_VERSION 0).toNat f)).1 = MAP_VERSION
  · simp only [ne_eq, hv, not_true_eq_false, if_false, iff_false]
    rintro ⟨e, he, hfatal⟩
    rw [parse_map_chunks_error_not_fatal _ _ _ _ he] at hfatal
    cases hfatal
  · simp only [ne_eq, hv, not_false_eq_true, if_true, iff_true]
    exact ⟨_, rfl, rfl⟩

set_option maxRecDepth 100000 in
/-- Witness of C4: in the sample file with version 2 all chunks are found and
the load is fatal. -/
theorem parse_map_file_fatal_iff_version_witness :
    (∃ e, parse_map_file 3 (fopen sample_file_version_2) = .error e ∧ e.is_fatal = true)
      ↔ stored_uint16 (fopen sample_file_version_2).data
          (([0, 4, 20, 30, 46, 56, 72, 88] : List Int).getD ID_VERSION 0).toNat
        ≠ some MAP_VERSION :=
  parse_map_file_fatal_iff_version (fopen sample_file_version_2) [0, 4, 20, 30, 46, 56, 72, 88]
    { data := sample_file_version_2, pos := 90, eof := true } (by decide) (by decide) 3

set_option maxRecDepth 100000 in
/-- C5 (the code at the failing input): the sample file cut off before the
payload of its PROP chunk is loaded without an error, and the zone property
is filled with 65535, the value that `read_uint16` makes of `EOF`. -/
theorem parse_map_file_reads_past_end_of_file :
    parse_map_file 3 (fopen sample_file_truncated)
      = .ok { sample_map with zone_properties := [65535] } := by
  decide

/-! ## Theorems: reading loops -/

theorem flatMap_length_const {α : Type} (block : Nat → List α) (len : Nat)
    (hlen : ∀ i, (block i).length = len) :
    ∀ (n i0 : Nat), ((List.range' i0 n).flatMap block).length = len * n := by
  intro n
  induction n with
  | zero => intro i0; simp
  | succ n ih =>
    intro i0
    rw [List.range'_succ, List.flatMap_cons, List.length_append, hlen, ih, Nat.mul_succ]
    omega

/-- A loop whose turn `i` consumes the bytes `block i` from the file and
changes the rest of the state by `U i`. -/
theorem foldl_blocks {τ : Type} (D : List Nat) (e : Bool)
    (step : Nat → FILE × τ → FILE × τ) (block : Nat → List Nat) (len : Nat)
    (U : Nat → τ → τ) (I : τ → Prop) (hlen : ∀ i, (block i).length = len)
    (hstep : ∀ i q t rest, I t → D.drop q = block i ++ rest →
      step i ({ data := D, pos := q, eof := e }, t)
        = ({ data := D, pos := q + len, eof := e }, U i t) ∧ I (U i t)) :
    ∀ (n i0 p : Nat) (t : τ) (rest : List Nat), I t →
      D.drop p = (List.range' i0 n).flatMap block ++ rest →
      (List.range' i0 n).foldl (fun s i => step i s) ({ data := D, pos := p, eof := e }, t)
          = ({ data := D, pos := p + len * n, eof := e },
              (List.range' i0 n).foldl (fun t i => U i t) t)
        ∧ I ((List.range' i0 n).foldl (fun t i => U i t) t)
        ∧ D.drop (p + len * n) = rest := by
  intro n
  induction n with
  | zero =>
    intro i0 p t rest hI h
    exact ⟨rfl, hI, by simpa using h⟩
  | succ n ih =>
    intro i0 p t rest hI h
    rw [List.range'_succ, List.flatMap_cons, List.append_assoc] at h
    obtain ⟨hs, hI1⟩ := hstep i0 p t _ hI h
    have hd : D.drop (p + len) = (List.range' (i0 + 1) n).flatMap block ++ rest := by
      rw [← List.drop_drop, h, ← hlen i0, List.drop_left']
      rfl
    obtain ⟨hf, hI2, hd2⟩ := ih (i0 + 1) (p + len) (U i0 t) rest hI1 hd
    have hpos : p + len + len * n = p + len * (n + 1) := by rw [Nat.mul_succ]; omega
    rw [hpos] at hf hd2
    rw [List.range'_succ, List.foldl_cons, List.foldl_cons, hs]
    exact ⟨hf, hI2, hd2⟩

theorem read_tile_at (setter : map_t → Nat → Nat → Nat → Nat → map_t) (D : List Nat)
    (e : Bool) (layer x y q v : Nat) (m : map_t) (rest : List Nat) (hv : v < 65536)
    (h : D.drop q = encode_uint16 v ++ rest) :
    read_tile setter layer x y ({ data := D, pos := q, eof := e }, m)
      = ({ data := D, pos := q + 2, eof := e }, setter m layer x y v) := by
  unfold read_tile
  rw [(read_uint16_at D q e v rest hv h).1]

theorem read_entry_at (setter : map_t → Nat → Nat → map_t) (D : List Nat)
    (e : Bool) (i q v : Nat) (m : map_t) (rest : List Nat) (hv : v < 65536)
    (h : D.drop q = encode_uint16 v ++ rest) :
    read_entry setter i ({ data := D, pos := q, eof := e }, m)
      = ({ data := D, pos := q + 2, eof := e }, setter m i v) := by
  unfold read_entry
  rw [(read_uint16_at D q e v rest hv h).1]

theorem foldl_invariant {α σ : Type} (P : σ → Prop) (f : σ → α → σ)
    (hf : ∀ s a, P s → P (f s a)) : ∀ (l : List α) (s : σ), P s → P (l.foldl f s) := by
  intro l
  induction l with
  | nil => intro s h; exact h
  | cons a l ih => intro s h; exact ih _ (hf s a h)

theorem set_tile_value_keeps_dims : keeps_dims set_tile_value := fun _ _ _ _ _ => ⟨rfl, rfl⟩

theorem set_tile_zone_keeps_dims : keeps_dims set_tile_zone := fun _ _ _ _ _ => ⟨rfl, rfl⟩

theorem read_column_dims (setter : map_t → Nat → Nat → Nat → Nat → map_t)
    (hset : keeps_dims setter) (layer x : Nat) (w h : Nat) (s : FILE × map_t)
    (hs : s.2.width = w ∧ s.2.height = h) :
    (read_column setter layer x s).2.width = w ∧ (read_column setter layer x s).2.height = h := by
  unfold read_column
  refine foldl_invariant (fun s : FILE × map_t => s.2.width = w ∧ s.2.height = h) _ ?_ _ _ hs
  intro s1 y h1
  exact ⟨by rw [← h1.1]; exact (hset _ _ _ _ _).1, by rw [← h1.2]; exact (hset _ _ _ _ _).2⟩

theorem column_loop_eq_read_column (setter : map_t → Nat → Nat → Nat → Nat → map_t)
    (fuel layer x : Nat) (s : FILE × map_t) (hh : s.2.height < 65536)
    (hfh : s.2.height < fuel) :
    for_counter 65536 fuel (fun y => decide (y < get_map_height s.2))
      (fun y s =>
        let v := read_uint16 s.1
        .ok (v.2, setter s.2 layer x y v.1))
      0 s = .ok (read_column setter layer x s) := by
  have hbody : ∀ (y : Nat) (s1 : FILE × map_t), y < get_map_height s.2 → True →
      (fun (y : Nat) (s : FILE × map_t) =>
        let v := read_uint16 s.1
        (Except.ok (v.2, setter s.2 layer x y v.1) : Except Halt (FILE × map_t))) y s1
        = .ok (read_tile setter layer x y s1) ∧ True :=
    fun _ _ _ _ => ⟨rfl, trivial⟩
  have h := for_counter_eq_foldl 65536 (get_map_height s.2) hh
    (fun y => decide (y < get_map_height s.2)) (fun _ => rfl) _
    (fun y s => read_tile setter layer x y s) (fun _ => True) hbody fuel 0 s (Nat.zero_le _)
    (by show s.2.height - 0 < fuel; omega) trivial
  rw [h.1]
  rfl

/-- The plane reader of the loader is the fold `read_plane` when the 16-bit
counters can reach the dimensions and the fuel suffices. -/
theorem plane_loop_eq_read_plane (setter : map_t → Nat → Nat → Nat → Nat → map_t)
    (hset : keeps_dims setter) (fuel layer : Nat) (s : FILE × map_t)
    (hw : s.2.width < 65536) (hh : s.2.height < 65536) (hfw : s.2.width < fuel)
    (hfh : s.2.height < fuel) :
    for_uint16 fuel (fun x => decide (x < get_map_width s.2))
      (fun x s =>
        for_uint16 fuel (fun y => decide (y < get_map_height s.2))
          (fun y s =>
            let v := read_uint16 s.1
            .ok (v.2, setter s.2 layer x y v.1))
          0 s)
      0 s = .ok (read_plane setter layer s) := by
  unfold for_uint16
  have hbody : ∀ (x : Nat) (s1 : FILE × map_t), x < get_map_width s.2 →
      (s1.2.width = s.2.width ∧ s1.2.height = s.2.height) →
      (fun (x : Nat) (s : FILE × map_t) =>
        for_counter 65536 fuel (fun y => decide (y < get_map_height s.2))
          (fun y s =>
            let v := read_uint16 s.1
            (Except.ok (v.2, setter s.2 layer x y v.1) : Except Halt (FILE × map_t)))
          0 s) x s1
        = .ok (read_column setter layer x s1)
        ∧ ((read_column setter layer x s1).2.width = s.2.width
          ∧ (read_column setter layer x s1).2.height = s.2.height) := by
    intro x s1 _ hI
    exact ⟨column_loop_eq_read_column setter fuel layer x s1 (by rw [hI.2]; exact hh)
      (by rw [hI.2]; exact hfh), read_column_dims setter hset layer x _ _ s1 hI⟩
  have houter := for_counter_eq_foldl 65536 (get_map_width s.2) hw
    (fun x => decide (x < get_map_width s.2)) (fun _ => rfl) _
    (fun x s => read_column setter layer x s)
    (fun s1 => s1.2.width = s.2.width ∧ s1.2.height = s.2.height) hbody
    fuel 0 s (Nat.zero_le _) (by show s.2.width - 0 < fuel; omega) ⟨rfl, rfl⟩
  rw [houter.1]
  rfl

theorem read_plane_at (setter : map_t → Nat → Nat → Nat → Nat → map_t)
    (hset : keeps_dims setter) (D : List Nat) (e : Bool) (w h : Nat)
    (value : Nat → Nat → Nat) (hvalue : ∀ x y, value x y < 65536) (layer p : Nat) (m : map_t)
    (rest : List Nat) (hm : m.width = w ∧ m.height = h)
    (hD : D.drop p = plane_bytes w h value ++ rest) :
    read_plane setter layer ({ data := D, pos := p, eof := e }, m)
        = ({ data := D, pos := p + 2 * h * w, eof := e }, write_plane setter w h value layer m)
      ∧ ((write_plane setter w h value layer m).width = w
          ∧ (write_plane setter w h value layer m).height = h)
      ∧ D.drop (p + 2 * h * w) = rest := by
  unfold read_plane write_plane
  simp only [get_map_width, hm.1]
  refine foldl_blocks D e (fun x s => read_column setter layer x s)
    (fun x => (List.range' 0 h).flatMap (fun y => encode_uint16 (value x y))) (2 * h)
    (fun x m => (List.range' 0 h).foldl (fun m y => setter m layer x y (value x y)) m)
    (fun m => m.width = w ∧ m.height = h)
    (fun x => flatMap_length_const (fun y => encode_uint16 (value x y)) 2 (fun _ => rfl) h 0)
    ?_ w 0 p m rest hm hD
  intro x q t rest1 hI hq
  unfold read_column
  simp only [get_map_height, hI.2]
  have hin := foldl_blocks D e (fun y s => read_tile setter layer x y s)
    (fun y => encode_uint16 (value x y)) 2 (fun y m => setter m layer x y (value x y))
    (fun m => m.width = w ∧ m.height = h) (fun _ => rfl)
    (by
      intro y q1 t1 rest2 hI1 hq1
      refine ⟨read_tile_at setter D e layer x y q1 _ t1 rest2 (hvalue x y) hq1, ?_⟩
      exact ⟨by rw [← hI1.1]; exact (hset _ _ _ _ _).1, by rw [← hI1.2]; exact (hset _ _ _ _ _).2⟩)
    h 0 q t rest1 hI hq
  exact ⟨hin.1, hin.2.1⟩

/-! ## Theorems: reading whole chunks -/

theorem read_plane_dims (setter : map_t → Nat → Nat → Nat → Nat → map_t)
    (hset : keeps_dims setter) (layer : Nat) (w h : Nat) (s : FILE × map_t)
    (hs : s.2.width = w ∧ s.2.height = h) :
    (read_plane setter layer s).2.width = w ∧ (read_plane setter layer s).2.height = h := by
  unfold read_plane
  exact foldl_invariant (fun s : FILE × map_t => s.2.width = w ∧ s.2.height = h) _
    (fun s1 x h1 => read_column_dims setter hset layer x w h s1 h1) _ _ hs

/-- The loop over the layers of a planes reader as a fold. -/
theorem layers_loop_eq_foldl (setter : map_t → Nat → Nat → Nat → Nat → map_t)
    (hset : keeps_dims setter) (body : Nat → FILE × map_t → Except Halt (FILE × map_t))
    (w h L fuel : Nat)
    (hbody : ∀ l s, s.2.width = w ∧ s.2.height = h → body l s = .ok (read_plane setter l s))
    (s : FILE × map_t) (hs : s.2.width = w ∧ s.2.height = h) (hL : L < 65535)
    (hfuel : L + 1 < fuel) :
    for_uint16 fuel (fun l => decide (l ≤ L)) body 0 s
      = .ok ((List.range' 0 (L + 1)).foldl (fun s l => read_plane setter l s) s) := by
  unfold for_uint16
  have h := for_counter_eq_foldl 65536 (L + 1) (by omega) (fun l => decide (l ≤ L))
    (by intro i; simp [Nat.lt_succ_iff]) body (fun l s => read_plane setter l s)
    (fun s => s.2.width = w ∧ s.2.height = h)
    (fun l s _ hI => ⟨hbody l s hI, read_plane_dims setter hset l w h s hI⟩)
    fuel 0 s (Nat.zero_le _) (by omega) hs
  rw [h.1]
  rfl

/-- The planes reader on the bytes of the planes. -/
theorem read_planes_at (setter : map_t → Nat → Nat → Nat → Nat → map_t)
    (hset : keeps_dims setter) (D : List Nat) (e : Bool) (w h : Nat)
    (value : Nat → Nat → Nat → Nat) (hvalue : ∀ l x y, value l x y < 65536) (n p : Nat)
    (m : map_t) (rest : List Nat) (hm : m.width = w ∧ m.height = h)
    (hD : D.drop p = (List.range' 0 n).flatMap (fun l => plane_bytes w h (value l)) ++ rest) :
    (List.range' 0 n).foldl (fun s l => read_plane setter l s)
        ({ data := D, pos := p, eof := e }, m)
      = ({ data := D, pos := p + 2 * h * w * n, eof := e },
          (List.range' 0 n).foldl (fun m l => write_plane setter w h (value l) l m) m) := by
  have hb := foldl_blocks D e (fun l s => read_plane setter l s)
    (fun l => plane_bytes w h (value l)) (2 * h * w)
    (fun l m => write_plane setter w h (value l) l m) (fun m => m.width = w ∧ m.height = h)
    (fun l => flatMap_length_const
      (fun x => (List.range' 0 h).flatMap (fun y => encode_uint16 (value l x y))) (2 * h)
      (fun x => flatMap_length_const (fun y => encode_uint16 (value l x y)) 2 (fun _ => rfl) h 0)
      w 0)
    (by
      intro l q t rest1 hI hq
      have := read_plane_at setter hset D e w h (value l) (hvalue l) l q t rest1 hI hq
      exact ⟨this.1, this.2.1⟩)
    n 0 p m rest hm hD
  exact hb.1

/-- A loop `for (i = 0; i <= max; i++)` that reads one entry per turn, as a
fold. -/
theorem entries_loop_eq_foldl (setter : map_t → Nat → Nat → map_t) (max fuel : Nat)
    (s : FILE × map_t) (hmax : max < 65535) (hfuel : max + 1 < fuel) :
    for_uint16 fuel (fun i => decide (i ≤ max))
      (fun i s =>
        let v := read_uint16 s.1
        .ok (v.2, setter s.2 i v.1))
      0 s
      = .ok ((List.range' 0 (max + 1)).foldl (fun s i => read_entry setter i s) s) := by
  unfold for_uint16
  have hbody : ∀ (i : Nat) (s1 : FILE × map_t), i < max + 1 → True →
      (fun (i : Nat) (s : FILE × map_t) =>
        let v := read_uint16 s.1
        (Except.ok (v.2, setter s.2 i v.1) : Except Halt (FILE × map_t))) i s1
        = .ok (read_entry setter i s1) ∧ True :=
    fun _ _ _ _ => ⟨rfl, trivial⟩
  have h := for_counter_eq_foldl 65536 (max + 1) (by omega) (fun i => decide (i ≤ max))
    (by intro i; simp [Nat.lt_succ_iff]) _ (fun i s => read_entry setter i s) (fun _ => True)
    hbody fuel 0 s (Nat.zero_le _) (by omega) trivial
  rw [h.1]
  rfl

/-- The entries reader on the bytes of the entries. -/
theorem read_entries_at (setter : map_t → Nat → Nat → map_t) (D : List Nat) (e : Bool)
    (value : Nat → Nat) (hvalue : ∀ i, value i < 65536) (n p : Nat) (m : map_t)
    (rest : List Nat)
    (hD : D.drop p = (List.range' 0 n).flatMap (fun i => encode_uint16 (value i)) ++ rest) :
    (List.range' 0 n).foldl (fun s i => read_entry setter i s)
        ({ data := D, pos := p, eof := e }, m)
      = ({ data := D, pos := p + 2 * n, eof := e },
          (List.range' 0 n).foldl (fun m i => setter m i (value i)) m) := by
  have hb := foldl_blocks D e (fun i s => read_entry setter i s)
    (fun i => encode_uint16 (value i)) 2 (fun i m => setter m i (value i)) (fun _ => True)
    (fun _ => rfl)
    (fun i q t rest1 _ hq => ⟨read_entry_at setter D e i q _ t rest1 (hvalue i) hq, trivial⟩)
    n 0 p m rest trivial hD
  exact hb.1

/-! ## Theorems: what the stores leave in the map -/

theorem foldl_set_target_getElem? {α : Type} (T : List α) (d : α) :
    ∀ (idxs : List Nat) (xs : List α) (j : Nat),
      (idxs.foldl (fun xs i => xs.set i (T.getD i d)) xs)[j]?
        = if j ∈ idxs ∧ j < xs.length then some (T.getD j d) else xs[j]? := by
  intro idxs
  induction idxs with
  | nil => intro xs j; simp
  | cons i idxs ih =>
    intro xs j
    rw [List.foldl_cons, ih]
    simp only [List.length_set, List.mem_cons]
    by_cases hlen : j < xs.length
    · by_cases hij : j = i
      · subst hij
        simp [hlen, List.getElem?_set]
      · have hji : ¬ i = j := fun h => hij h.symm
        simp [hij, hji, List.getElem?_set]
    · have hle : xs.length ≤ j := by omega
      have hnone : xs[j]? = none := List.getElem?_eq_none hle
      have hnone2 : (xs.set i (T.getD i d))[j]? = none :=
        List.getElem?_eq_none (by rw [List.length_set]; exact hle)
      simp [hlen, hnone, hnone2, hle]

/-- Storing the entry of the target list at every index gives the target
list. -/
theorem foldl_set_target_eq {α : Type} (T : List α) (d : α) (idxs : List Nat) (xs : List α)
    (hlen : xs.length = T.length) (hcov : ∀ j, j < T.length → j ∈ idxs) :
    idxs.foldl (fun xs i => xs.set i (T.getD i d)) xs = T := by
  apply List.ext_getElem?
  intro j
  rw [foldl_set_target_getElem?]
  by_cases hj : j < T.length
  · have h1 : j ∈ idxs ∧ j < xs.length := ⟨hcov j hj, by omega⟩
    rw [if_pos h1, List.getD_eq_getElem?_getD, List.getElem?_eq_getElem hj]
    rfl
  · have h1 : ¬ (j ∈ idxs ∧ j < xs.length) := fun h => hj (by omega)
    rw [if_neg h1, List.getElem?_eq_none (by omega), List.getElem?_eq_none (by omega)]

theorem foldl_nested_eq_pairs {σ : Type} (f : σ → Nat → Nat → σ) (ys : List Nat) :
    ∀ (xs : List Nat) (s : σ),
      xs.foldl (fun s x => ys.foldl (fun s y => f s x y) s) s
        = (xs.flatMap (fun x => ys.map (fun y => (x, y)))).foldl (fun s p => f s p.1 p.2) s := by
  intro xs
  induction xs with
  | nil => intro s; rfl
  | cons x xs ih =>
    intro s
    rw [List.foldl_cons, ih, List.flatMap_cons, List.foldl_append, List.foldl_map]

theorem mem_tile_offsets (w h j : Nat) (hj : j < w * h) :
    j ∈ ((List.range' 0 w).flatMap (fun x => (List.range' 0 h).map (fun y => (x, y)))).map
      (fun p => p.1 + p.2 * w) := by
  have hw : 0 < w := by
    rcases Nat.eq_zero_or_pos w with h0 | h0
    · rw [h0] at hj; simp at hj
    · exact h0
  simp only [List.mem_map, List.mem_flatMap, List.mem_range'_1, Prod.exists]
  refine ⟨j % w, j / w, ⟨j % w, ⟨Nat.zero_le _, by simpa using Nat.mod_lt j hw⟩, j / w,
    ⟨Nat.zero_le _, ?_⟩, rfl⟩, ?_⟩
  · rw [Nat.zero_add]
    exact (Nat.div_lt_iff_lt_mul hw).2 (by rw [Nat.mul_comm]; exact hj)
  · rw [Nat.mul_comm]
    exact Nat.mod_add_div j w

theorem foldl_setter_eq_put (F : plane_field) (l : Nat) (val : Nat → Nat → Nat) :
    ∀ (ps : List (Nat × Nat)) (m : map_t), l < (F.get m).length →
      ps.foldl (fun m p => F.setter m l p.1 p.2 (val p.1 p.2)) m
        = F.put ((F.get m).set l
            (ps.foldl (fun pl p => pl.set (p.1 + p.2 * m.width) (val p.1 p.2))
              ((F.get m).getD l []))) m := by
  intro ps
  induction ps with
  | nil =>
    intro m hl
    simp only [List.foldl_nil]
    have : (F.get m).set l ((F.get m).getD l []) = F.get m := by
      rw [List.getD_eq_getElem?_getD, List.getElem?_eq_getElem hl]
      simp only [Option.getD_some]
      apply List.ext_getElem?
      intro k
      rw [List.getElem?_set]
      by_cases hk : l = k
      · subst hk; simp [hl]
      · simp [hk]
    rw [this, F.put_get]
  | cons p ps ih =>
    intro m hl
    rw [List.foldl_cons, List.foldl_cons, ih _ (by rw [F.setter_eq, F.get_put]; simpa using hl)]
    simp only [F.setter_eq, F.get_put, F.put_put, F.width_put, List.set_set]
    congr 3
    rw [List.getD_eq_getElem?_getD, List.getElem?_set]
    simp [hl]

/-- One plane reader's stores put the target plane in place of the plane of
the layer. -/
theorem write_plane_eq_put (F : plane_field) (w h l : Nat) (T : List Nat) (m : map_t)
    (hw : m.width = w) (hl : l < (F.get m).length) (hT : T.length = w * h)
    (hpl : ((F.get m).getD l []).length = w * h) :
    write_plane F.setter w h (fun x y => T.getD (x + y * w) 0) l m
      = F.put ((F.get m).set l T) m := by
  unfold write_plane
  rw [foldl_nested_eq_pairs (fun m x y => F.setter m l x y (T.getD (x + y * w) 0)),
    foldl_setter_eq_put F l (fun x y => T.getD (x + y * w) 0) _ m hl, hw]
  congr 2
  have := foldl_set_target_eq T 0
    (((List.range' 0 w).flatMap (fun x => (List.range' 0 h).map (fun y => (x, y)))).map
      (fun p => p.1 + p.2 * w)) ((F.get m).getD l []) (by rw [hpl, hT])
    (fun j hj => mem_tile_offsets w h j (by rw [← hT]; exact hj))
  rw [List.foldl_map] at this
  exact this

theorem getD_set_length (vp : List (List Nat)) (l k : Nat) (T : List Nat) (n : Nat)
    (hT : T.length = n) (hk : (vp.getD k []).length = n) (hl : l < vp.length) :
    ((vp.set l T).getD k []).length = n := by
  rw [List.getD_eq_getElem?_getD, List.getElem?_set]
  by_cases hlk : l = k
  · rw [if_pos hlk, if_pos hl]
    exact hT
  · rw [if_neg hlk, ← List.getD_eq_getElem?_getD]
    exact hk

theorem foldl_write_plane_eq_put (F : plane_field) (w h N : Nat) (T : List (List Nat))
    (hTl : ∀ l, l < N → (T.getD l []).length = w * h) :
    ∀ (idxs : List Nat) (m : map_t), (∀ l ∈ idxs, l < N) → m.width = w →
      (F.get m).length = N → (∀ l, l < N → ((F.get m).getD l []).length = w * h) →
      idxs.foldl
          (fun m l => write_plane F.setter w h (fun x y => (T.getD l []).getD (x + y * w) 0) l m)
          m
        = F.put (idxs.foldl (fun vp l => vp.set l (T.getD l [])) (F.get m)) m := by
  intro idxs
  induction idxs with
  | nil => intro m _ _ _ _; simp only [List.foldl_nil]; rw [F.put_get]
  | cons l idxs ih =>
    intro m hidx hw hN hpl
    have hl : l < N := hidx l (List.mem_cons_self _ _)
    have hstep := write_plane_eq_put F w h l (T.getD l []) m hw (by rw [hN]; exact hl)
      (hTl l hl) (hpl l hl)
    rw [List.foldl_cons, List.foldl_cons, hstep,
      ih _ (fun k hk => hidx k (List.mem_cons_of_mem _ hk)) (by rw [F.width_put]; exact hw)
        (by rw [F.get_put, List.length_set]; exact hN)
        (by
          intro k hk
          rw [F.get_put]
          exact getD_set_length _ _ _ _ _ (hTl l hl) (hpl k hk) (by rw [hN]; exact hl)),
      F.get_put, F.put_put]

/-- The planes reader's stores put the target planes in place of the planes
of the map. -/
theorem write_planes_eq_put (F : plane_field) (w h N : Nat) (T : List (List Nat))
    (hT : T.length = N) (hTl : ∀ l, l < N → (T.getD l []).length = w * h) (m : map_t)
    (hw : m.width = w) (hN : (F.get m).length = N)
    (hpl : ∀ l, l < N → ((F.get m).getD l []).length = w * h) :
    (List.range' 0 N).foldl
        (fun m l => write_plane F.setter w h (fun x y => (T.getD l []).getD (x + y * w) 0) l m) m
      = F.put T m := by
  rw [foldl_write_plane_eq_put F w h N T hTl _ m
    (fun l hl => by simpa using (List.mem_range'_1.1 hl).2) hw hN hpl,
    foldl_set_target_eq T [] _ _ (by rw [hN, hT])
      (fun j hj => List.mem_range'_1.2 ⟨Nat.zero_le _, by omega⟩)]

theorem foldl_entry_setter_eq_put (E : entry_field) (T : List Nat) :
    ∀ (idxs : List Nat) (m : map_t),
      idxs.foldl (fun m i => E.setter m i (T.getD i 0)) m
        = E.put (idxs.foldl (fun xs i => xs.set i (T.getD i 0)) (E.get m)) m := by
  intro idxs
  induction idxs with
  | nil => intro m; simp only [List.foldl_nil]; rw [E.put_get]
  | cons i idxs ih =>
    intro m
    rw [List.foldl_cons, List.foldl_cons, ih, E.setter_eq, E.get_put, E.put_put]

/-- The entries reader's stores put the target entries in place of the
entries of the map. -/
theorem write_entries_eq_put (E : entry_field) (T : List Nat) (m : map_t)
    (hlen : (E.get m).length = T.length) :
    (List.range' 0 T.length).foldl (fun m i => E.setter m i (T.getD i 0)) m = E.put T m := by
  rw [foldl_entry_setter_eq_put,
    foldl_set_target_eq T 0 _ _ hlen (fun j hj => List.mem_range'_1.2 ⟨Nat.zero_le _, by omega⟩)]

/-! ## Theorems: the bytes of the chunks -/

theorem list_eq_map_getD {α : Type} (T : List α) (d : α) :
    T = (List.range' 0 T.length).map (fun i => T.getD i d) := by
  apply List.ext_getElem?
  intro j
  rw [List.getElem?_map]
  by_cases hj : j < T.length
  · rw [List.getElem?_eq_getElem hj, List.getElem?_eq_getElem (by simpa using hj)]
    simp [List.getD_eq_getElem?_getD, List.getElem?_eq_getElem hj]
  · rw [List.getElem?_eq_none (by omega), List.getElem?_eq_none (by simpa using hj)]
    rfl

theorem flatMap_eq_range_flatMap {α β : Type} (T : List α) (d : α) (f : α → List β) :
    T.flatMap f = (List.range' 0 T.length).flatMap (fun i => f (T.getD i d)) := by
  conv_lhs => rw [list_eq_map_getD T d]
  rw [List.flatMap_map]

theorem encode_values_eq (T : List Nat) :
    encode_values T = (List.range' 0 T.length).flatMap (fun i => encode_uint16 (T.getD i 0)) :=
  flatMap_eq_range_flatMap T 0 encode_uint16

theorem encode_values_plane_column_major (m : map_t) (pl : List Nat) :
    encode_values (plane_column_major m pl)
      = plane_bytes m.width m.height (fun x y => pl.getD (x + y * m.width) 0) := by
  simp only [encode_values, plane_column_major, plane_bytes, List.flatMap_assoc,
    List.flatMap_map, List.range_eq_range', tile_offset]

theorem encode_values_planes (m : map_t) (planes : List (List Nat)) :
    encode_values (planes.flatMap (plane_column_major m))
      = (List.range' 0 planes.length).flatMap (fun l =>
          plane_bytes m.width m.height
            (fun x y => (planes.getD l []).getD (x + y * m.width) 0)) := by
  have h1 : encode_values (planes.flatMap (plane_column_major m))
      = planes.flatMap (fun pl => encode_values (plane_column_major m pl)) := by
    simp only [encode_values, List.flatMap_assoc]
  rw [h1, flatMap_eq_range_flatMap planes []]
  simp only [encode_values_plane_column_major]

theorem getD_lt_of_all_lt (T : List Nat) (b : Nat) (hb : 0 < b) (h : ∀ v ∈ T, v < b) (i : Nat) :
    T.getD i 0 < b := by
  rw [List.getD_eq_getElem?_getD]
  by_cases hi : i < T.length
  · rw [List.getElem?_eq_getElem hi]
    exact h _ (List.getElem_mem _)
  · rw [List.getElem?_eq_none (by omega)]
    exact hb

/-! ## Theorems: the chunk readers on their chunks -/

theorem skip_to_chunk_at (f : FILE) (pos : Nat) :
    skip_to_chunk f (pos : Int) = .ok { data := f.data, pos := pos, eof := false } := by
  unfold skip_to_chunk
  have h : ¬ ((pos : Int) < 0) := by omega
  simp only [h, if_false, fseek_set, Int.toNat_ofNat]

theorem read_map_tags_chunk_at (fuel : Nat) (f : FILE) (map : map_t) (pos : Nat)
    (T rest : List Nat) (hT : T.length = map.max_layer_index + 1) (hb : ∀ v ∈ T, v < 65536)
    (hlen : map.layer_tags.length = T.length) (hmax : map.max_layer_index < 65535)
    (hfuel : map.max_layer_index + 1 < fuel) (hD : f.data.drop pos = encode_values T ++ rest) :
    read_map_tags_chunk fuel f map pos
      = .ok ({ data := f.data, pos := pos + 2 * T.length, eof := false },
          { map with layer_tags := T }) := by
  unfold read_map_tags_chunk
  rw [skip_to_chunk_at]
  simp only []
  have h1 : read_map_tags fuel ({ data := f.data, pos := pos, eof := false }, map)
      = .ok ((List.range' 0 (map.max_layer_index + 1)).foldl
          (fun s i => read_entry set_layer_tag i s)
          ({ data := f.data, pos := pos, eof := false }, map)) :=
    entries_loop_eq_foldl set_layer_tag map.max_layer_index fuel _ hmax hfuel
  rw [encode_values_eq] at hD
  rw [h1, ← hT, read_entries_at set_layer_tag f.data false (fun i => T.getD i 0)
    (getD_lt_of_all_lt T 65536 (by decide) hb) T.length pos map rest hD]
  have h2 : (List.range' 0 T.length).foldl (fun m i => set_layer_tag m i (T.getD i 0)) map
      = { map with layer_tags := T } := write_entries_eq_put tag_field T map hlen
  rw [h2]

theorem read_map_zone_properties_chunk_at (fuel : Nat) (f : FILE) (map : map_t) (pos : Nat)
    (T rest : List Nat) (hT : T.length = map.max_zone_index + 1) (hb : ∀ v ∈ T, v < 65536)
    (hlen : map.zone_properties.length = T.length) (hmax : map.max_zone_index < 65535)
    (hfuel : map.max_zone_index + 1 < fuel) (hD : f.data.drop pos = encode_values T ++ rest) :
    read_map_zone_properties_chunk fuel f map pos
      = .ok ({ data := f.data, pos := pos + 2 * T.length, eof := false },
          { map with zone_properties := T }) := by
  unfold read_map_zone_properties_chunk
  rw [skip_to_chunk_at]
  simp only []
  have h1 : read_map_zone_properties fuel ({ data := f.data, pos := pos, eof := false }, map)
      = .ok ((List.range' 0 (map.max_zone_index + 1)).foldl
          (fun s i => read_entry set_zone_properties i s)
          ({ data := f.data, pos := pos, eof := false }, map)) :=
    entries_loop_eq_foldl set_zone_properties map.max_zone_index fuel _ hmax hfuel
  rw [encode_values_eq] at hD
  rw [h1, ← hT, read_entries_at set_zone_properties f.data false (fun i => T.getD i 0)
    (getD_lt_of_all_lt T 65536 (by decide) hb) T.length pos map rest hD]
  have h2 : (List.range' 0 T.length).foldl (fun m i => set_zone_properties m i (T.getD i 0)) map
      = { map with zone_properties := T } := write_entries_eq_put property_field T map hlen
  rw [h2]

theorem planes_ok_getD_length (w h n : Nat) (planes : List (List Nat))
    (hp : planes_ok w h n planes) (l : Nat) (hl : l < n) :
    (planes.getD l []).length = w * h := by
  rw [List.getD_eq_getElem?_getD, List.getElem?_eq_getElem (by rw [hp.1]; exact hl)]
  exact (hp.2 _ (List.getElem_mem _)).1

theorem planes_ok_value_lt (w h n : Nat) (planes : List (List Nat))
    (hp : planes_ok w h n planes) (l k : Nat) : (planes.getD l []).getD k 0 < 65536 := by
  by_cases hl : l < planes.length
  · refine getD_lt_of_all_lt _ 65536 (by decide) ?_ k
    rw [List.getD_eq_getElem?_getD, List.getElem?_eq_getElem hl]
    exact (hp.2 _ (List.getElem_mem _)).2
  · have hinner : planes.getD l [] = [] := by
      rw [List.getD_eq_getElem?_getD, List.getElem?_eq_none (by omega)]
      rfl
    rw [hinner]
    simp

/-- A planes reader of the loader on the bytes of the planes of a map. -/
theorem read_planes_chunk_at (F : plane_field) (hset : keeps_dims F.setter)
    (body : Nat → FILE × map_t → Except Halt (FILE × map_t)) (fuel : Nat)
    (hbody : ∀ l s, s.2.width < 65536 → s.2.height < 65536 → s.2.width < fuel →
      s.2.height < fuel → body l s = .ok (read_plane F.setter l s))
    (f : FILE) (map target : map_t) (pos : Nat) (T : List (List Nat)) (rest : List Nat)
    (hw : map.width = target.width) (hh : map.height = target.height)
    (hwb : target.width < 65536) (hhb : target.height < 65536) (hfw : target.width < fuel)
    (hfh : target.height < fuel) (hmax : map.max_layer_index < 65535)
    (hfuel : map.max_layer_index + 1 < fuel)
    (hT : planes_ok target.width target.height (map.max_layer_index + 1) T)
    (hmap : planes_ok target.width target.height (map.max_layer_index + 1) (F.get map))
    (hD : f.data.drop pos = encode_values (T.flatMap (plane_column_major target)) ++ rest) :
    for_uint16 fuel (fun l => decide (l ≤ map.max_layer_index)) body 0
        ({ data := f.data, pos := pos, eof := false }, map)
      = .ok ({ data := f.data,
               pos := pos + 2 * target.height * target.width * (map.max_layer_index + 1),
               eof := false }, F.put T map) := by
  rw [layers_loop_eq_foldl F.setter hset body target.width target.height map.max_layer_index fuel
    (fun l s hs => hbody l s (by rw [hs.1]; exact hwb) (by rw [hs.2]; exact hhb)
      (by rw [hs.1]; exact hfw) (by rw [hs.2]; exact hfh))
    _ ⟨hw, hh⟩ hmax hfuel]
  rw [encode_values_planes, hT.1] at hD
  rw [read_planes_at F.setter hset f.data false target.width target.height
    (fun l x y => (T.getD l []).getD (x + y * target.width) 0)
    (fun l x y => planes_ok_value_lt _ _ _ T hT l _) (map.max_layer_index + 1) pos map rest
    ⟨hw, hh⟩ hD]
  rw [write_planes_eq_put F target.width target.height (map.max_layer_index + 1) T hT.1
    (fun l hl => planes_ok_getD_length _ _ _ T hT l hl) map hw hmap.1
    (fun l hl => planes_ok_getD_length _ _ _ _ hmap l hl)]

/-! ## Theorems: loading a map from its chunks -/

theorem well_formed_iff (m : map_t) :
    m.well_formed = true ↔
      (0 < m.width ∧ m.width < 65536 ∧ 0 < m.height ∧ m.height < 65536
        ∧ m.max_layer_index < 65535 ∧ m.max_zone_index < 65535
        ∧ 2 * (m.width * m.height * (m.max_layer_index + 1)) < 4294967296
        ∧ m.layer_tags.length = m.max_layer_index + 1
        ∧ m.value_planes.length = m.max_layer_index + 1
        ∧ m.zone_planes.length = m.max_layer_index + 1
        ∧ m.zone_properties.length = m.max_zone_index + 1
        ∧ (∀ v ∈ m.layer_tags, v < 65536)
        ∧ (∀ v ∈ m.zone_properties, v < 65536)
        ∧ (∀ pl ∈ m.value_planes, pl.length = m.width * m.height ∧ ∀ v ∈ pl, v < 65536)
        ∧ (∀ pl ∈ m.zone_planes, pl.length = m.width * m.height ∧ ∀ v ∈ pl, v < 65536)) := by
  simp [map_t.well_formed, and_assoc, List.all_eq_true]

/-- Where the scan of a file finds the last chunk with one of the eight IDs,
and the bytes of the file from there on. -/
theorem chunk_found (cs : List chunk) (hv : ∀ c ∈ cs, c.valid = true) (d : chunk) (i : Nat)
    (hi : i < 8) (hid : d.id = chunk_id i) (hlast : is_last_with_id cs d) :
    ∃ pos rest, (chunk_positions_after cs 12 init_chunk_positions_array).getD i 0
        = ((pos : Nat) : Int)
      ∧ (encode_file cs).drop pos = d.payload ++ rest := by
  obtain ⟨pre, post, hcs, hpost⟩ := hlast
  subst hcs
  refine ⟨12 + (encode_body pre).length + 8, encode_body post, ?_,
    encode_file_drop_payload pre post d hv⟩
  rw [List.getD_eq_getElem?_getD,
    chunk_positions_after_last i hi pre post d hid hv hpost 12 _ (by decide)]
  rfl

theorem read_map_dimensions_at (D : List Nat) (pos : Nat) (w h l z : Nat) (rest : List Nat)
    (hw : w < 65536) (hh : h < 65536) (hl : l < 65536) (hz : z < 65536)
    (hD : D.drop pos = encode_values [w, h, l, z] ++ rest) :
    read_map_dimensions { data := D, pos := pos, eof := false }
      = ({ width := w, height := h, max_layer_index := l, max_zone_index := z },
          { data := D, pos := pos + 8, eof := false }) := by
  have hD1 : D.drop pos = encode_uint16 w ++ (encode_uint16 h ++ (encode_uint16 l
      ++ (encode_uint16 z ++ rest))) := by
    simpa [encode_values, List.flatMap_cons] using hD
  obtain ⟨r1, hD2⟩ := read_uint16_at D pos false w _ hw hD1
  obtain ⟨r2, hD3⟩ := read_uint16_at D (pos + 2) false h _ hh hD2
  obtain ⟨r3, hD4⟩ := read_uint16_at D (pos + 2 + 2) false l _ hl hD3
  obtain ⟨r4, _⟩ := read_uint16_at D (pos + 2 + 2 + 2) false z _ hz hD4
  unfold read_map_dimensions
  simp only [r1, r2, r3, r4]

theorem mem_replicate_planes (w h n : Nat) :
    planes_ok w h n (List.replicate n (List.replicate (w * h) 0)) := by
  refine ⟨by simp, ?_⟩
  intro pl hpl
  rw [List.eq_of_mem_replicate hpl]
  refine ⟨by simp, ?_⟩
  intro v hv
  rw [List.eq_of_mem_replicate hv]
  decide

/-- The loader on a file whose body holds the six chunks of a well-formed
map, planes column by column, each as the last chunk with its ID: it returns
that map. -/
theorem parse_map_file_of_chunks (cs : List chunk) (m : map_t) (fuel : Nat)
    (hv : ∀ c ∈ cs, c.valid = true) (hwf : m.well_formed = true) (hfuel : 65536 < fuel)
    (hlast : ∀ d ∈ map_chunks plane_column_major m, is_last_with_id cs d) :
    parse_map_file fuel (fopen (encode_file cs)) = .ok m := by
  obtain ⟨hw0, hw, hh0, hh, hL, hZ, hsize, htags, hvp, hzp, hprops, htagsb, hpropsb, hvpb,
    hzpb⟩ := (well_formed_iff m).1 hwf
  obtain ⟨f, hfind, hfd⟩ := find_chunks_encode_file cs hv
  obtain ⟨_, hk0, hk1⟩ := find_chunks_keeps_found _ _ _ hfind
  generalize hcp : chunk_positions_after cs 12 init_chunk_positions_array = cp at hfind hk0 hk1
  obtain ⟨p2, r2, hp2, hd2⟩ := chunk_found cs hv vers_chunk 2 (by decide) rfl
    (hlast _ (by simp [map_chunks]))
  obtain ⟨p3, r3, hp3, hd3⟩ := chunk_found cs hv (dims_chunk m) 3 (by decide) rfl
    (hlast _ (by simp [map_chunks]))
  obtain ⟨p4, r4, hp4, hd4⟩ := chunk_found cs hv (tags_chunk m) 4 (by decide) rfl
    (hlast _ (by simp [map_chunks]))
  obtain ⟨p5, r5, hp5, hd5⟩ := chunk_found cs hv (vals_chunk plane_column_major m) 5
    (by decide) rfl (hlast _ (by simp [map_chunks]))
  obtain ⟨p6, r6, hp6, hd6⟩ := chunk_found cs hv (zone_chunk plane_column_major m) 6
    (by decide) rfl (hlast _ (by simp [map_chunks]))
  obtain ⟨p7, r7, hp7, hd7⟩ := chunk_found cs hv (prop_chunk m) 7 (by decide) rfl
    (hlast _ (by simp [map_chunks]))
  rw [hcp] at hp2 hp3 hp4 hp5 hp6 hp7
  rw [← hfd] at hd2 hd3 hd4 hd5 hd6 hd7
  have hmissing : chunks_missing cp = false := by
    rw [Bool.eq_false_iff, Ne, chunks_missing_iff]
    rintro ⟨i, hi, hiv⟩
    have hcases : i = 0 ∨ i = 1 ∨ i = 2 ∨ i = 3 ∨ i = 4 ∨ i = 5 ∨ i = 6 ∨ i = 7 := by omega
    rcases hcases with rfl | rfl | rfl | rfl | rfl | rfl | rfl | rfl
    · exact hk0 ((getD_eq_sentinel_iff _ _).1 hiv)
    · exact hk1 ((getD_eq_sentinel_iff _ _).1 hiv)
    · rw [hp2] at hiv; simp only [CHUNK_NOT_FOUND] at hiv; omega
    · rw [hp3] at hiv; simp only [CHUNK_NOT_FOUND] at hiv; omega
    · rw [hp4] at hiv; simp only [CHUNK_NOT_FOUND] at hiv; omega
    · rw [hp5] at hiv; simp only [CHUNK_NOT_FOUND] at hiv; omega
    · rw [hp6] at hiv; simp only [CHUNK_NOT_FOUND] at hiv; omega
    · rw [hp7] at hiv; simp only [CHUNK_NOT_FOUND] at hiv; omega
  have hversion : read_map_version_chunk f (cp.getD ID_VERSION 0)
      = .ok (MAP_VERSION, { data := f.data, pos := p2 + 2, eof := false }) := by
    unfold read_map_version_chunk read_map_version
    rw [show cp.getD ID_VERSION 0 = (p2 : Int) from hp2, skip_to_chunk_at]
    simp only []
    rw [(read_uint16_at f.data p2 false MAP_VERSION r2 (by decide) hd2).1]
  have hdims : read_map_dimensions_chunk { data := f.data, pos := p2 + 2, eof := false }
      (cp.getD ID_DIMENSIONS 0)
      = .ok ({ width := m.width, height := m.height, max_layer_index := m.max_layer_index,
               max_zone_index := m.max_zone_index },
          { data := f.data, pos := p3 + 8, eof := false }) := by
    unfold read_map_dimensions_chunk
    rw [show cp.getD ID_DIMENSIONS 0 = (p3 : Int) from hp3, skip_to_chunk_at]
    simp only []
    rw [read_map_dimensions_at f.data p3 _ _ _ _ r3 hw hh (by omega) (by omega) hd3]
  have htagsr := read_map_tags_chunk_at fuel { data := f.data, pos := p3 + 8, eof := false }
    (init_map m.width m.height m.max_layer_index m.max_zone_index) p4 m.layer_tags r4 htags
    htagsb (by simp [init_map, htags]) hL (by show m.max_layer_index + 1 < fuel; omega) hd4
  have hvalsr : read_map_value_planes_chunk fuel
      { data := f.data, pos := p4 + 2 * m.layer_tags.length, eof := false }
      { init_map m.width m.height m.max_layer_index m.max_zone_index with
        layer_tags := m.layer_tags } p5
      = .ok ({ data := f.data,
               pos := p5 + 2 * m.height * m.width * (m.max_layer_index + 1), eof := false },
          { init_map m.width m.height m.max_layer_index m.max_zone_index with
            layer_tags := m.layer_tags, value_planes := m.value_planes }) := by
    unfold read_map_value_planes_chunk
    rw [skip_to_chunk_at]
    exact read_planes_chunk_at value_field set_tile_value_keeps_dims
      (fun l s => read_map_value_plane fuel l s) fuel
      (fun l s h1 h2 h3 h4 => plane_loop_eq_read_plane set_tile_value set_tile_value_keeps_dims
        fuel l s h1 h2 h3 h4)
      _ { init_map m.width m.height m.max_layer_index m.max_zone_index with
          layer_tags := m.layer_tags } m p5 m.value_planes r5 rfl rfl hw hh (by omega) (by omega)
      hL (by show m.max_layer_index + 1 < fuel; omega) ⟨hvp, hvpb⟩
      (mem_replicate_planes _ _ _) hd5
  have hzoner : read_map_zone_planes_chunk fuel
      { data := f.data, pos := p5 + 2 * m.height * m.width * (m.max_layer_index + 1),
        eof := false }
      { init_map m.width m.height m.max_layer_index m.max_zone_index with
        layer_tags := m.layer_tags, value_planes := m.value_planes } p6
      = .ok ({ data := f.data,
               pos := p6 + 2 * m.height * m.width * (m.max_layer_index + 1), eof := false },
          { init_map m.width m.height m.max_layer_index m.max_zone_index with
            layer_tags := m.layer_tags, value_planes := m.value_planes,
            zone_planes := m.zone_planes }) := by
    unfold read_map_zone_planes_chunk
    rw [skip_to_chunk_at]
    exact read_planes_chunk_at zone_field set_tile_zone_keeps_dims
      (fun l s => read_layer_zone_plane fuel l s) fuel
      (fun l s h1 h2 h3 h4 => plane_loop_eq_read_plane set_tile_zone set_tile_zone_keeps_dims
        fuel l s h1 h2 h3 h4)
      _ { init_map m.width m.height m.max_layer_index m.max_zone_index with
          layer_tags := m.layer_tags, value_planes := m.value_planes } m p6 m.zone_planes r6
      rfl rfl hw hh (by omega) (by omega)
      hL (by show m.max_layer_index + 1 < fuel; omega) ⟨hzp, hzpb⟩
      (mem_replicate_planes _ _ _) hd6
  have hpropsr := read_map_zone_properties_chunk_at fuel
    { data := f.data, pos := p6 + 2 * m.height * m.width * (m.max_layer_index + 1),
      eof := false }
    { init_map m.width m.height m.max_layer_index m.max_zone_index with
      layer_tags := m.layer_tags, value_planes := m.value_planes,
      zone_planes := m.zone_planes } p7 m.zone_properties r7 hprops
    hpropsb (by simp [init_map, hprops]) hZ (by show m.max_zone_index + 1 < fuel; omega) hd7
  unfold parse_map_file
  rw [hfind]
  simp only [hmissing, Bool.false_eq_true, if_false, hversion, ne_eq, not_true_eq_false]
  unfold parse_map_chunks
  rw [hdims]
  simp only []
  rw [show cp.getD ID_TAGS 0 = (p4 : Int) from hp4, htagsr]
  simp only []
  rw [show cp.getD ID_VALUES 0 = (p5 : Int) from hp5, hvalsr]
  simp only []
  rw [show cp.getD ID_ZONES 0 = (p6 : Int) from hp6, hzoner]
  simp only []
  rw [show cp.getD ID_PROPERTIES 0 = (p7 : Int) from hp7, hpropsr]
  simp only [init_map]

/-! ## Theorems: round trip -/

theorem encode_values_length (T : List Nat) : (encode_values T).length = 2 * T.length := by
  rw [encode_values_eq, flatMap_length_const (fun i => encode_uint16 (T.getD i 0)) 2
    (fun _ => rfl)]

theorem plane_bytes_length (w h : Nat) (value : Nat → Nat → Nat) :
    (plane_bytes w h value).length = 2 * h * w :=
  flatMap_length_const
    (fun x => (List.range' 0 h).flatMap (fun y => encode_uint16 (value x y))) (2 * h)
    (fun x => flatMap_length_const (fun y => encode_uint16 (value x y)) 2 (fun _ => rfl) h 0)
    w 0

theorem encode_values_planes_length (m : map_t) (planes : List (List Nat)) :
    (encode_values (planes.flatMap (plane_column_major m))).length
      = 2 * m.height * m.width * planes.length := by
  rw [encode_values_planes,
    flatMap_length_const
      (fun l => plane_bytes m.width m.height
        (fun x y => (planes.getD l []).getD (x + y * m.width) 0))
      (2 * m.height * m.width) (fun l => plane_bytes_length _ _ _)]

/-- The six chunks of a well-formed map fit the layout. -/
theorem map_chunks_valid (m : map_t) (hwf : m.well_formed = true) :
    ∀ c ∈ map_chunks plane_column_major m, c.valid = true := by
  obtain ⟨hw0, hw, hh0, hh, hL, hZ, hsize, htags, hvp, hzp, hprops, _⟩ :=
    (well_formed_iff m).1 hwf
  have hplanes : 2 * m.height * m.width * (m.max_layer_index + 1) < 4294967296 := by
    have : 2 * m.height * m.width * (m.max_layer_index + 1)
        = 2 * (m.width * m.height * (m.max_layer_index + 1)) := by ring
    rw [this]; exact hsize
  intro c hc
  simp only [map_chunks, List.mem_cons, List.mem_singleton, List.not_mem_nil, or_false] at hc
  rw [chunk_valid_iff]
  rcases hc with rfl | rfl | rfl | rfl | rfl | rfl
  · decide
  · refine ⟨rfl, (by decide : ∀ b ∈ chunk_id 3, b < 256), ?_⟩
    simp only [dims_chunk, encode_values_length, List.length_cons, List.length_nil]
    decide
  · refine ⟨rfl, (by decide : ∀ b ∈ chunk_id 4, b < 256), ?_⟩
    simp only [tags_chunk, encode_values_length, htags]
    omega
  · refine ⟨rfl, (by decide : ∀ b ∈ chunk_id 5, b < 256), ?_⟩
    simp only [vals_chunk, encode_values_planes_length, hvp]
    exact hplanes
  · refine ⟨rfl, (by decide : ∀ b ∈ chunk_id 6, b < 256), ?_⟩
    simp only [zone_chunk, encode_values_planes_length, hzp]
    exact hplanes
  · refine ⟨rfl, (by decide : ∀ b ∈ chunk_id 7, b < 256), ?_⟩
    simp only [prop_chunk, encode_values_length, hprops]
    omega

/-- In a sequence of chunks with pairwise different IDs every chunk is the
last with its ID. -/
theorem is_last_of_nodup (cs : List chunk) (hnd : (cs.map (fun c => c.id)).Nodup) (d : chunk)
    (hd : d ∈ cs) : is_last_with_id cs d := by
  obtain ⟨pre, post, hcs⟩ := List.append_of_mem hd
  refine ⟨pre, post, hcs, ?_⟩
  intro e he heq
  rw [hcs, List.map_append, List.map_cons] at hnd
  have h2 := (List.nodup_append.1 hnd).2.1
  have h3 := (List.nodup_cons.1 h2).1
  exact h3 (by rw [← heq]; exact List.mem_map_of_mem _ he)

theorem map_chunks_ids (m : map_t) :
    (map_chunks plane_column_major m).map (fun c => c.id)
      = [chunk_id 2, chunk_id 3, chunk_id 4, chunk_id 5, chunk_id 6, chunk_id 7] := rfl

/-- The loader on the file of a well-formed map whose planes are written
column by column returns that map. -/
theorem parse_map_file_encode_map (m : map_t) (fuel : Nat) (hwf : m.well_formed = true)
    (hfuel : 65536 < fuel) :
    parse_map_file fuel (fopen (encode_map plane_column_major m)) = .ok m :=
  parse_map_file_of_chunks _ m fuel (map_chunks_valid m hwf) hwf hfuel
    (fun d hd => is_last_of_nodup _ (by rw [map_chunks_ids]; decide) d hd)

/-- C1 (amended): for every well-formed map, writing it in the FORM/CMFT
chunk layout (VERS, DIMS, TAGS, VALS, ZONE, PROP, big-endian) with every plane
in column-major order, the order in which the loader reads, and loading those
bytes with `parse_map_file` gives the same map: same width, height, layer tags,
value planes, zone planes and zone properties.  Fuel of 65537 turns is enough
for each loop. -/
theorem round_trip_column_major (m : map_t) (fuel : Nat) (hwf : m.well_formed = true)
    (hfuel : 65536 < fuel) :
    parse_map_file fuel (fopen (encode_map plane_column_major m)) = .ok m := by
  refine parse_map_file_of_chunks _ m fuel (map_chunks_valid m hwf) hwf hfuel ?_
  intro d hd
  exact is_last_of_nodup _ (by rw [map_chunks_ids]; decide) d hd

set_option maxRecDepth 100000 in
/-- Witness of C1 (amended) on the second sample map. -/
theorem round_trip_column_major_witness :
    parse_map_file 65537 (fopen (encode_map plane_column_major sample_map_2))
      = .ok sample_map_2 :=
  round_trip_column_major sample_map_2 65537 (by decide) (by decide)

set_option maxRecDepth 100000 in
/-- C1 as stated fails: the second sample map is well-formed, but written in
the layout with its planes in the row-major order of the spec it is loaded as
a map with other value planes (and zone planes): the transposed ones. -/
theorem round_trip_row_major_counterexample :
    sample_map_2.well_formed = true
      ∧ parse_map_file 65537 (fopen (encode_map plane_row_major sample_map_2))
          = .ok sample_map_2_transposed
      ∧ sample_map_2_transposed.value_planes ≠ sample_map_2.value_planes
      ∧ sample_map_2_transposed.zone_planes ≠ sample_map_2.zone_planes := by
  decide

/-! ## Theorems: unrecognised chunks and chunk order -/

theorem is_last_insert (pre post : List chunk) (c d : chunk) (hne : c.id ≠ d.id)
    (h : is_last_with_id (pre ++ post) d) : is_last_with_id (pre ++ c :: post) d := by
  obtain ⟨a, b, hab, hb⟩ := h
  rcases List.append_eq_append_iff.1 hab with ⟨a1, ha, hp⟩ | ⟨b1, hp, hb1⟩
  · -- the chunk `d` lies in `post`
    refine ⟨pre ++ c :: a1, b, ?_, hb⟩
    rw [hp]
    simp
  · -- the chunk `d` lies in `pre`
    cases b1 with
    | nil =>
      simp only [List.append_nil, List.nil_append] at hp hb1
      refine ⟨pre ++ [c], b, ?_, hb⟩
      rw [← hb1]
      simp
    | cons d1 b2 =>
      simp only [List.cons_append, List.cons.injEq] at hb1
      obtain ⟨rfl, rfl⟩ := hb1
      refine ⟨a, b2 ++ c :: post, ?_, ?_⟩
      · rw [hp]; simp
      · intro e he
        rcases List.mem_append.1 he with h1 | h1
        · exact hb e (List.mem_append_left _ h1)
        · rcases List.mem_cons.1 h1 with rfl | h2
          · exact hne
          · exact hb e (List.mem_append_right _ h2)

theorem map_chunk_id (m : map_t) (d : chunk) (hd : d ∈ map_chunks plane_column_major m) :
    ∃ i, i < 8 ∧ d.id = chunk_id i := by
  simp only [map_chunks, List.mem_cons, List.mem_singleton, List.not_mem_nil, or_false] at hd
  rcases hd with rfl | rfl | rfl | rfl | rfl | rfl
  · exact ⟨2, by decide, rfl⟩
  · exact ⟨3, by decide, rfl⟩
  · exact ⟨4, by decide, rfl⟩
  · exact ⟨5, by decide, rfl⟩
  · exact ⟨6, by decide, rfl⟩
  · exact ⟨7, by decide, rfl⟩

/-- C6: unrecognised chunks are skipped.  For every file whose body is a
sequence of chunks `pre ++ post` holding the six chunks of a well-formed map
(each the last chunk with its ID), putting a chunk `c` with a correct length
field and a 4-byte ID that is none of the eight IDs of the loader between `pre`
and `post` (the FORM length is computed anew by `encode_file`) does not change
the result of `parse_map_file`: it is the same map. -/
theorem parse_map_file_skips_unrecognised_chunk (pre post : List chunk) (c : chunk)
    (m : map_t) (fuel : Nat) (hwf : m.well_formed = true) (hfuel : 65536 < fuel)
    (hv : ∀ d ∈ pre ++ post, d.valid = true)
    (hlast : ∀ d ∈ map_chunks plane_column_major m, is_last_with_id (pre ++ post) d)
    (hc : c.valid = true) (hid : ∀ i, i < 8 → c.id ≠ chunk_id i) :
    parse_map_file fuel (fopen (encode_file (pre ++ c :: post)))
        = parse_map_file fuel (fopen (encode_file (pre ++ post)))
      ∧ parse_map_file fuel (fopen (encode_file (pre ++ c :: post))) = .ok m := by
  have h1 := parse_map_file_of_chunks (pre ++ post) m fuel hv hwf hfuel hlast
  have h2 := parse_map_file_of_chunks (pre ++ c :: post) m fuel
    (by
      intro d hd
      rcases List.mem_append.1 hd with h | h
      · exact hv d (List.mem_append_left _ h)
      · rcases List.mem_cons.1 h with rfl | h
        · exact hc
        · exact hv d (List.mem_append_right _ h))
    hwf hfuel
    (by
      intro d hd
      obtain ⟨i, hi, hdi⟩ := map_chunk_id m d hd
      exact is_last_insert pre post c d (by rw [hdi]; exact hid i hi) (hlast d hd))
  exact ⟨by rw [h1, h2], h2⟩

/-- C7: the loaded map does not depend on the order of the chunks.  For
every well-formed map and every permutation `rest` of its DIMS, TAGS, VALS,
ZONE and PROP chunks, the file with VERS followed by `rest` is loaded as the
same map as the file with the chunks in the order of the layout. -/
theorem parse_map_file_chunk_order (m : map_t) (fuel : Nat) (rest : List chunk)
    (hwf : m.well_formed = true) (hfuel : 65536 < fuel)
    (hperm : rest.Perm [dims_chunk m, tags_chunk m, vals_chunk plane_column_major m,
      zone_chunk plane_column_major m, prop_chunk m]) :
    parse_map_file fuel (fopen (encode_file (vers_chunk :: rest)))
        = parse_map_file fuel (fopen (encode_map plane_column_major m))
      ∧ parse_map_file fuel (fopen (encode_file (vers_chunk :: rest))) = .ok m := by
  have hp : (vers_chunk :: rest).Perm (map_chunks plane_column_major m) :=
    List.Perm.cons _ hperm
  have h1 := parse_map_file_encode_map m fuel hwf hfuel
  have h2 := parse_map_file_of_chunks (vers_chunk :: rest) m fuel
    (fun d hd => map_chunks_valid m hwf d (hp.mem_iff.1 hd)) hwf hfuel
    (by
      intro d hd
      refine is_last_of_nodup _ ?_ d (hp.mem_iff.2 hd)
      rw [(hp.map (fun c => c.id)).nodup_iff, map_chunks_ids]
      decide)
  exact ⟨by rw [h1, h2], h2⟩

set_option maxRecDepth 100000 in
/-- Witness of C6: a JUNK chunk between the DIMS and the TAGS chunk of the
file of the second sample map. -/
theorem parse_map_file_skips_unrecognised_chunk_witness :
    parse_map_file 65537 (fopen (encode_file ([vers_chunk, dims_chunk sample_map_2]
          ++ junk_chunk :: [tags_chunk sample_map_2, vals_chunk plane_column_major sample_map_2,
            zone_chunk plane_column_major sample_map_2, prop_chunk sample_map_2])))
        = parse_map_file 65537 (fopen (encode_file ([vers_chunk, dims_chunk sample_map_2]
          ++ [tags_chunk sample_map_2, vals_chunk plane_column_major sample_map_2,
            zone_chunk plane_column_major sample_map_2, prop_chunk sample_map_2])))
      ∧ parse_map_file 65537 (fopen (encode_file ([vers_chunk, dims_chunk sample_map_2]
          ++ junk_chunk :: [tags_chunk sample_map_2, vals_chunk plane_column_major sample_map_2,
            zone_chunk plane_column_major sample_map_2, prop_chunk sample_map_2])))
        = .ok sample_map_2 :=
  parse_map_file_skips_unrecognised_chunk [vers_chunk, dims_chunk sample_map_2]
    [tags_chunk sample_map_2, vals_chunk plane_column_major sample_map_2,
      zone_chunk plane_column_major sample_map_2, prop_chunk sample_map_2]
    junk_chunk sample_map_2 65537 (by decide) (by decide) (by decide)
    (fun d hd => is_last_of_nodup _ (by decide) d hd) (by decide) (by decide)

set_option maxRecDepth 100000 in
/-- Witness of C7: the chunks of the second sample map in the order VERS,
PROP, ZONE, VALS, TAGS, DIMS. -/
theorem parse_map_file_chunk_order_witness :
    parse_map_file 65537 (fopen (encode_file (vers_chunk ::
          [prop_chunk sample_map_2, zone_chunk plane_column_major sample_map_2,
            vals_chunk plane_column_major sample_map_2, tags_chunk sample_map_2,
            dims_chunk sample_map_2])))
        = parse_map_file 65537 (fopen (encode_map plane_column_major sample_map_2))
      ∧ parse_map_file 65537 (fopen (encode_file (vers_chunk ::
          [prop_chunk sample_map_2, zone_chunk plane_column_major sample_map_2,
            vals_chunk plane_column_major sample_map_2, tags_chunk sample_map_2,
            dims_chunk sample_map_2])))
        = .ok sample_map_2 :=
  parse_map_file_chunk_order sample_map_2 65537
    [prop_chunk sample_map_2, zone_chunk plane_column_major sample_map_2,
      vals_chunk plane_column_major sample_map_2, tags_chunk sample_map_2,
      dims_chunk sample_map_2]
    (by decide) (by decide) (by decide)

/-! ## Theorems: the order of the tiles in a plane chunk -/

theorem stored_uint16_of_drop (D : List Nat) (q v : Nat) (rest : List Nat) (hv : v < 65536)
    (h : D.drop q = encode_uint16 v ++ rest) : stored_uint16 D q = some v := by
  obtain ⟨h0, hd1⟩ := getElem?_of_drop_eq_cons D q _ _ (by simpa [encode_uint16] using h)
  obtain ⟨h1, _⟩ := getElem?_of_drop_eq_cons D (q + 1) _ _ hd1
  unfold stored_uint16
  rw [h0, h1]
  simp only [Option.some.injEq]
  exact encode_uint16_value v hv

theorem drop_flatMap_range {α : Type} (block : Nat → List α) (len : Nat)
    (hlen : ∀ i, (block i).length = len) (R : List α) :
    ∀ (i n a : Nat), i < n →
      ((List.range' a n).flatMap block ++ R).drop (i * len)
        = block (a + i) ++ ((List.range' (a + i + 1) (n - i - 1)).flatMap block ++ R) := by
  intro i
  induction i with
  | zero =>
    intro n a hn
    obtain ⟨n, rfl⟩ : ∃ k, n = k + 1 := ⟨n - 1, by omega⟩
    simp [List.range'_succ, List.flatMap_cons]
  | succ i ih =>
    intro n a hn
    obtain ⟨n, rfl⟩ : ∃ k, n = k + 1 := ⟨n - 1, by omega⟩
    have h1 : (i + 1) * len = (block a).length + i * len := by rw [hlen, Nat.succ_mul]; omega
    rw [List.range'_succ, List.flatMap_cons, List.append_assoc, h1, List.drop_append,
      ih n (a + 1) (by omega)]
    have h2 : a + 1 + i = a + (i + 1) := by omega
    have h3 : n - i - 1 = n + 1 - (i + 1) - 1 := by omega
    rw [h2, h3]

theorem drop_block (D : List Nat) (block : Nat → List Nat) (len : Nat)
    (hlen : ∀ i, (block i).length = len) (p n i : Nat) (R : List Nat) (hi : i < n)
    (h : D.drop p = (List.range' 0 n).flatMap block ++ R) :
    ∃ R1, D.drop (p + i * len) = block i ++ R1 := by
  refine ⟨(List.range' (0 + i + 1) (n - i - 1)).flatMap block ++ R, ?_⟩
  rw [← List.drop_drop, h, drop_flatMap_range block len hlen R i n 0 hi, Nat.zero_add]

/-- The bytes of the file at the place of tile `(x, y)` of layer `l` in a
plane chunk whose planes are written column by column. -/
theorem stored_tile (D : List Nat) (w h n p l x y : Nat) (value : Nat → Nat → Nat → Nat)
    (hvalue : ∀ l x y, value l x y < 65536) (R : List Nat) (hl : l < n) (hx : x < w)
    (hy : y < h)
    (hD : D.drop p = (List.range' 0 n).flatMap (fun l => plane_bytes w h (value l)) ++ R) :
    stored_uint16 D (p + 2 * (l * (w * h) + (x * h + y))) = some (value l x y) := by
  obtain ⟨R1, h1⟩ := drop_block D (fun l => plane_bytes w h (value l)) (2 * h * w)
    (fun l => plane_bytes_length _ _ _) p n l R hl hD
  obtain ⟨R2, h2⟩ := drop_block D
    (fun x => (List.range' 0 h).flatMap (fun y => encode_uint16 (value l x y))) (2 * h)
    (fun x => flatMap_length_const (fun y => encode_uint16 (value l x y)) 2 (fun _ => rfl) h 0)
    (p + l * (2 * h * w)) w x R1 hx h1
  obtain ⟨R3, h3⟩ := drop_block D (fun y => encode_uint16 (value l x y)) 2 (fun _ => rfl)
    (p + l * (2 * h * w) + x * (2 * h)) h y R2 hy h2
  have hpos : p + 2 * (l * (w * h) + (x * h + y)) = p + l * (2 * h * w) + x * (2 * h) + y * 2 := by
    ring
  rw [hpos]
  exact stored_uint16_of_drop D _ _ R3 (hvalue l x y) h3

/-- C2 (amended): plane decoding is column-major for both value and zone
planes.  In the file of a well-formed map (planes written in the order the
loader reads) and for every layer `l` and every `k < width * height`, the
`k`-th 16-bit value of the plane of layer `l` in the VALS chunk, found `2 * (l *
(width * height) + k)` bytes after the recorded position of the chunk, is the
value that the loaded map has at tile `x = k div height`, `y = k mod height`;
likewise for the ZONE chunk. -/
theorem plane_decoding_column_major (m : map_t) (fuel : Nat) (hwf : m.well_formed = true)
    (hfuel : 65536 < fuel) (l k : Nat) (hl : l ≤ m.max_layer_index)
    (hk : k < m.width * m.height) :
    ∃ cp f, find_chunks (fopen (encode_map plane_column_major m)) = .ok (cp, f)
      ∧ parse_map_file fuel (fopen (encode_map plane_column_major m)) = .ok m
      ∧ stored_uint16 (encode_map plane_column_major m)
          ((cp.getD ID_VALUES 0).toNat + 2 * (l * (m.width * m.height) + k))
        = some (get_tile_value m l (k / m.height) (k % m.height))
      ∧ stored_uint16 (encode_map plane_column_major m)
          ((cp.getD ID_ZONES 0).toNat + 2 * (l * (m.width * m.height) + k))
        = some (get_tile_zone m l (k / m.height) (k % m.height)) := by
  obtain ⟨hw0, hw, hh0, hh, hL, hZ, hsize, htags, hvp, hzp, hprops, htagsb, hpropsb, hvpb,
    hzpb⟩ := (well_formed_iff m).1 hwf
  have hv := map_chunks_valid m hwf
  have hlast : ∀ d ∈ map_chunks plane_column_major m,
      is_last_with_id (map_chunks plane_column_major m) d :=
    fun d hd => is_last_of_nodup _ (by rw [map_chunks_ids]; decide) d hd
  obtain ⟨f, hfind, _⟩ := find_chunks_encode_file (map_chunks plane_column_major m) hv
  obtain ⟨p5, r5, hp5, hd5⟩ := chunk_found _ hv (vals_chunk plane_column_major m) 5
    (by decide) rfl (hlast _ (by simp [map_chunks]))
  obtain ⟨p6, r6, hp6, hd6⟩ := chunk_found _ hv (zone_chunk plane_column_major m) 6
    (by decide) rfl (hlast _ (by simp [map_chunks]))
  have hx : k / m.height < m.width := (Nat.div_lt_iff_lt_mul hh0).2 hk
  have hy : k % m.height < m.height := Nat.mod_lt _ hh0
  have hkk : k / m.height * m.height + k % m.height = k := Nat.div_add_mod' k m.height
  refine ⟨_, f, hfind, parse_map_file_encode_map m fuel hwf hfuel, ?_, ?_⟩
  · rw [show (chunk_positions_after (map_chunks plane_column_major m) 12
        init_chunk_positions_array).getD ID_VALUES 0 = (p5 : Int) from hp5, Int.toNat_ofNat]
    have hD : (encode_map plane_column_major m).drop p5
        = (List.range' 0 (m.max_layer_index + 1)).flatMap (fun l => plane_bytes m.width m.height
            (fun x y => (m.value_planes.getD l []).getD (x + y * m.width) 0)) ++ r5 := by
      rw [← hvp, ← encode_values_planes]
      exact hd5
    have := stored_tile _ m.width m.height _ p5 l (k / m.height) (k % m.height)
      (fun l x y => (m.value_planes.getD l []).getD (x + y * m.width) 0)
      (fun l x y => planes_ok_value_lt m.width m.height _ m.value_planes ⟨hvp, hvpb⟩ l _)
      r5 (by omega) hx hy hD
    rw [hkk] at this
    exact this
  · rw [show (chunk_positions_after (map_chunks plane_column_major m) 12
        init_chunk_positions_array).getD ID_ZONES 0 = (p6 : Int) from hp6, Int.toNat_ofNat]
    have hD : (encode_map plane_column_major m).drop p6
        = (List.range' 0 (m.max_layer_index + 1)).flatMap (fun l => plane_bytes m.width m.height
            (fun x y => (m.zone_planes.getD l []).getD (x + y * m.width) 0)) ++ r6 := by
      rw [← hzp, ← encode_values_planes]
      exact hd6
    have := stored_tile _ m.width m.height _ p6 l (k / m.height) (k % m.height)
      (fun l x y => (m.zone_planes.getD l []).getD (x + y * m.width) 0)
      (fun l x y => planes_ok_value_lt m.width m.height _ m.zone_planes ⟨hzp, hzpb⟩ l _)
      r6 (by omega) hx hy hD
    rw [hkk] at this
    exact this

set_option maxRecDepth 100000 in
/-- Witness of C2 (amended): in the file of the 3x2 sample map the value
number 3 of the plane of layer 0 is the one of tile `(1, 1)`. -/
theorem plane_decoding_column_major_witness :
    ∃ cp f, find_chunks (fopen (encode_map plane_column_major sample_map_3x2)) = .ok (cp, f)
      ∧ parse_map_file 65537 (fopen (encode_map plane_column_major sample_map_3x2))
          = .ok sample_map_3x2
      ∧ stored_uint16 (encode_map plane_column_major sample_map_3x2)
          ((cp.getD ID_VALUES 0).toNat
            + 2 * (0 * (sample_map_3x2.width * sample_map_3x2.height) + 3))
        = some (get_tile_value sample_map_3x2 0 (3 / sample_map_3x2.height)
            (3 % sample_map_3x2.height))
      ∧ stored_uint16 (encode_map plane_column_major sample_map_3x2)
          ((cp.getD ID_ZONES 0).toNat
            + 2 * (0 * (sample_map_3x2.width * sample_map_3x2.height) + 3))
        = some (get_tile_zone sample_map_3x2 0 (3 / sample_map_3x2.height)
            (3 % sample_map_3x2.height)) :=
  plane_decoding_column_major sample_map_3x2 65537 (by decide) (by decide) 0 3 (by decide)
    (by decide)

set_option maxRecDepth 100000 in
/-- C2 as stated fails: in the file of the second sample map written in
row-major order, whose VALS payload starts at position 56, value number 1 of
the plane of layer 0 is 2, but the loaded map has 3, not 2, at the tile
`x = 1 mod width`, `y = 1 div width`. -/
theorem plane_decoding_row_major_counterexample :
    find_chunks (fopen (encode_map plane_row_major sample_map_2))
        = .ok ([0, 4, 20, 30, 46, 56, 72, 88],
            { data := encode_map plane_row_major sample_map_2, pos := 90, eof := true })
      ∧ parse_map_file 65537 (fopen (encode_map plane_row_major sample_map_2))
          = .ok sample_map_2_transposed
      ∧ stored_uint16 (encode_map plane_row_major sample_map_2)
          (56 + 2 * (0 * (sample_map_2.width * sample_map_2.height) + 1)) = some 2
      ∧ get_tile_value sample_map_2_transposed 0 (1 % sample_map_2.width)
          (1 / sample_map_2.width) = 3 := by
  decide

/-! ## Theorems: the sprite queues -/

theorem getD_set_self {α : Type} (l : List α) (i : Nat) (a d : α) (h : i < l.length) :
    (l.set i a).getD i d = a := by
  simp [List.getD, h]

theorem getD_set_other {α : Type} (l : List α) (i j : Nat) (a d : α) (h : i ≠ j) :
    (l.set i a).getD j d = l.getD j d := by
  simp [List.getD, List.getElem?_set_ne h]

theorem mem_insert_after (n : render_node_t) :
    ∀ (r : List render_node_t) (p x : render_node_t),
      x ∈ insert_after n p r ↔ x = n ∨ x = p ∨ x ∈ r := by
  intro r
  induction r with
  | nil => intro p x; simp [insert_after]; tauto
  | cons next r1 ih =>
    intro p x
    unfold insert_after
    split
    · simp [ih]; tauto
    · simp; tauto

theorem insert_after_perm (n : render_node_t) :
    ∀ (r : List render_node_t) (p : render_node_t),
      (insert_after n p r).Perm (p :: r ++ [n]) := by
  intro r
  induction r with
  | nil => intro p; simp [insert_after]
  | cons next r1 ih =>
    intro p
    unfold insert_after
    split
    · exact List.Perm.cons p (ih next)
    · refine List.Perm.cons p ?_
      simpa using (List.perm_append_comm : ([n] ++ (next :: r1)).Perm ((next :: r1) ++ [n]))

theorem insert_after_sorted (n : render_node_t) :
    ∀ (r : List render_node_t) (p : render_node_t),
      List.Pairwise (fun a b => render_key a ≤ render_key b) (p :: r) →
      render_key p ≤ render_key n →
      List.Pairwise (fun a b => render_key a ≤ render_key b) (insert_after n p r) := by
  intro r
  induction r with
  | nil => intro p _ hp; simp [insert_after, hp]
  | cons next r1 ih =>
    intro p hs hp
    rw [List.pairwise_cons] at hs
    unfold insert_after
    split
    · next hle =>
      rw [List.pairwise_cons]
      refine ⟨?_, ih next hs.2 hle⟩
      intro x hx
      rw [mem_insert_after] at hx
      rcases hx with rfl | rfl | hx
      · exact hp
      · exact hs.1 _ (List.mem_cons_self _ _)
      · exact hs.1 _ (List.mem_cons_of_mem _ hx)
    · next hgt =>
      have hs2 := hs.2
      rw [List.pairwise_cons] at hs2
      refine List.pairwise_cons.2 ⟨?_, List.pairwise_cons.2 ⟨?_, hs.2⟩⟩
      · intro x hx
        rcases List.mem_cons.1 hx with rfl | hx
        · exact hp
        · exact hs.1 _ hx
      · intro x hx
        rcases List.mem_cons.1 hx with rfl | hx
        · omega
        · have := hs2.1 _ hx
          omega

theorem queue_insert_perm (n : render_node_t) (q : List render_node_t) :
    (queue_insert n q).Perm (q ++ [n]) := by
  cases q with
  | nil => simp [queue_insert]
  | cons head rest =>
    simp only [queue_insert]
    split
    · simpa using (List.perm_append_comm : ([n] ++ (head :: rest)).Perm ((head :: rest) ++ [n]))
    · exact insert_after_perm n rest head

theorem queue_insert_sorted (n : render_node_t) (q : List render_node_t)
    (hs : List.Pairwise (fun a b => render_key a ≤ render_key b) q) :
    List.Pairwise (fun a b => render_key a ≤ render_key b) (queue_insert n q) := by
  cases q with
  | nil => simp [queue_insert]
  | cons head rest =>
    simp only [queue_insert]
    split
    · next hgt =>
      refine List.pairwise_cons.2 ⟨?_, hs⟩
      intro x hx
      rcases List.mem_cons.1 hx with rfl | hx
      · omega
      · have := (List.pairwise_cons.1 hs).1 _ hx
        omega
    · next hle => exact insert_after_sorted n rest head hs (by omega)

theorem filter_key_eq_nil (k : Int) (l : List render_node_t)
    (h : ∀ x ∈ l, render_key x ≠ k) : l.filter (fun x => decide (render_key x = k)) = [] := by
  rw [List.filter_eq_nil_iff]
  intro x hx
  simpa using h x hx

theorem filter_cons_congr {α : Type} (f : α → Bool) (p : α) (X Y : List α)
    (h : X.filter f = Y.filter f) : (p :: X).filter f = (p :: Y).filter f := by
  simp only [List.filter_cons, h]

theorem filter_key_cons_comm (n : render_node_t) (k : Int) (l : List render_node_t)
    (h : ∀ x ∈ l, render_key n < render_key x) :
    (n :: l).filter (fun x => decide (render_key x = k))
      = (l ++ [n]).filter (fun x => decide (render_key x = k)) := by
  by_cases hk : render_key n = k
  · have hnil : l.filter (fun x => decide (render_key x = k)) = [] := by
      apply filter_key_eq_nil
      intro x hx
      have := h x hx
      omega
    rw [List.filter_append, List.filter_cons, hnil]
    simp [hk]
  · rw [List.filter_append, List.filter_cons]
    simp [hk]

theorem insert_after_filter (n : render_node_t) (k : Int) :
    ∀ (r : List render_node_t) (p : render_node_t),
      List.Pairwise (fun a b => render_key a ≤ render_key b) (p :: r) →
      render_key p ≤ render_key n →
      (insert_after n p r).filter (fun x => decide (render_key x = k))
        = (p :: r ++ [n]).filter (fun x => decide (render_key x = k)) := by
  intro r
  induction r with
  | nil => intro p _ _; simp [insert_after]
  | cons next r1 ih =>
    intro p hs hp
    rw [List.pairwise_cons] at hs
    unfold insert_after
    split
    · next hle => exact filter_cons_congr _ p _ _ (ih next hs.2 hle)
    · next hgt =>
      refine filter_cons_congr _ p _ _ (filter_key_cons_comm n k _ ?_)
      intro x hx
      have hs2 := hs.2
      rw [List.pairwise_cons] at hs2
      rcases List.mem_cons.1 hx with rfl | hx
      · omega
      · have := hs2.1 _ hx
        omega

theorem queue_insert_filter (n : render_node_t) (k : Int) (q : List render_node_t)
    (hs : List.Pairwise (fun a b => render_key a ≤ render_key b) q) :
    (queue_insert n q).filter (fun x => decide (render_key x = k))
      = (q ++ [n]).filter (fun x => decide (render_key x = k)) := by
  cases q with
  | nil => simp [queue_insert]
  | cons head rest =>
    simp only [queue_insert]
    split
    · next hgt =>
      refine filter_key_cons_comm n k _ ?_
      intro x hx
      rcases List.mem_cons.1 hx with rfl | hx
      · omega
      · have := (List.pairwise_cons.1 hs).1 _ hx
        omega
    · next hle => exact insert_after_filter n k rest head hs (by omega)

theorem add_object_image_ok (mapview : mapview_t) (tag : Nat) (object : object_t)
    (htag : tag ≠ NULL_TAG) (hq : tag ≤ mapview.num_object_queues)
    (himg : object.image.filename ≠ none ∧ object.image.width ≠ 0 ∧ object.image.height ≠ 0) :
    add_object_image mapview tag object
      = .ok { mapview with
              object_queue := mapview.object_queue.set (tag - 1)
                (queue_insert (node_of object) (mapview.object_queue.getD (tag - 1) [])) } := by
  unfold add_object_image
  simp only [htag, hq, himg.1, himg.2.1, himg.2.2, if_false, not_true_eq_false, ne_eq,
    not_false_eq_true, and_self]
  rfl

theorem add_object_images_queue (tag : Nat) (htag : tag ≠ NULL_TAG) :
    ∀ (objects : List object_t) (mapview : mapview_t),
      tag ≤ mapview.num_object_queues → tag ≤ mapview.object_queue.length →
      List.Pairwise (fun a b => render_key a ≤ render_key b)
        (mapview.object_queue.getD (tag - 1) []) →
      (∀ o ∈ objects, o.image.filename ≠ none ∧ o.image.width ≠ 0 ∧ o.image.height ≠ 0) →
      ∃ mapview1, add_object_images mapview tag objects = .ok mapview1
        ∧ List.Pairwise (fun a b => render_key a ≤ render_key b)
            (mapview1.object_queue.getD (tag - 1) [])
        ∧ (mapview1.object_queue.getD (tag - 1) []).Perm
            (mapview.object_queue.getD (tag - 1) [] ++ objects.map node_of)
        ∧ (∀ k, (mapview1.object_queue.getD (tag - 1) []).filter
              (fun x => decide (render_key x = k))
            = (mapview.object_queue.getD (tag - 1) [] ++ objects.map node_of).filter
              (fun x => decide (render_key x = k)))
        ∧ (∀ j, j ≠ tag - 1 → mapview1.object_queue.getD j [] = mapview.object_queue.getD j [])
        ∧ mapview1.num_object_queues = mapview.num_object_queues
        ∧ mapview1.map = mapview.map
        ∧ mapview1.dirty_rectangles = mapview.dirty_rectangles := by
  intro objects
  induction objects with
  | nil =>
    intro mapview _ _ hs _
    exact ⟨mapview, rfl, hs, by simp, by simp, fun _ _ => rfl, rfl, rfl, rfl⟩
  | cons o rest ih =>
    intro mapview hq hlen hs himg
    have hpos : 0 < tag := Nat.pos_of_ne_zero htag
    have h1 := add_object_image_ok mapview tag o htag hq (himg o (List.mem_cons_self _ _))
    have hget : (mapview.object_queue.set (tag - 1)
        (queue_insert (node_of o) (mapview.object_queue.getD (tag - 1) []))).getD (tag - 1) []
        = queue_insert (node_of o) (mapview.object_queue.getD (tag - 1) []) :=
      getD_set_self _ _ _ _ (by omega)
    obtain ⟨mv1, hmv1, hsort, hperm, hfilt, hoth, hnum, hmap, hdirty⟩ := ih
      { mapview with
        object_queue := mapview.object_queue.set (tag - 1)
          (queue_insert (node_of o) (mapview.object_queue.getD (tag - 1) [])) }
      hq (by simpa using hlen)
      (by rw [hget]; exact queue_insert_sorted _ _ hs)
      (fun x hx => himg x (List.mem_cons_of_mem _ hx))
    refine ⟨mv1, ?_, hsort, ?_, ?_, ?_, hnum, hmap, hdirty⟩
    · simp only [add_object_images, h1, hmv1]
    · rw [hget] at hperm
      refine hperm.trans ?_
      rw [List.map_cons, List.append_cons]
      exact List.Perm.append_right _ (queue_insert_perm _ _)
    · intro k
      rw [hfilt k, hget, List.map_cons, List.append_cons, List.filter_append,
        queue_insert_filter _ _ _ hs, ← List.filter_append]
    · intro j hj
      rw [hoth j hj]
      exact getD_set_other _ _ _ _ _ (fun h => hj h.symm)

/-- C11: a sprite queue is kept sorted.  For a view whose queue for the tag is
empty, any sequence of `add_object_image` calls for that tag (objects with a
file name and a non-zero size, as the function asserts) returns, and the queue
then holds exactly the nodes of the objects, in ascending order of
`map_y + height`, whatever the order of the calls. -/
theorem add_object_image_keeps_queue_sorted (mapview : mapview_t) (tag : Nat)
    (objects : List object_t) (htag : tag ≠ NULL_TAG) (hq : tag ≤ mapview.num_object_queues)
    (hlen : mapview.object_queue.length = mapview.num_object_queues)
    (hempty : mapview.object_queue.getD (tag - 1) [] = [])
    (himg : ∀ o ∈ objects, o.image.filename ≠ none ∧ o.image.width ≠ 0 ∧ o.image.height ≠ 0) :
    ∃ mapview1, add_object_images mapview tag objects = .ok mapview1
      ∧ List.Pairwise (fun a b => render_key a ≤ render_key b)
          (mapview1.object_queue.getD (tag - 1) [])
      ∧ (mapview1.object_queue.getD (tag - 1) []).Perm (objects.map node_of) := by
  obtain ⟨mv1, h1, hs, hp, _⟩ := add_object_images_queue tag htag objects mapview hq
    (by omega) (by rw [hempty]; exact List.Pairwise.nil) himg
  rw [hempty, List.nil_append] at hp
  exact ⟨mv1, h1, hs, hp⟩

/-- Witness of C11: a sprite of key 20 enqueued before a sprite of key 10. -/
theorem add_object_image_keeps_queue_sorted_witness :
    ∃ mapview1,
      add_object_images sample_clean_view 1 [sample_sprite 1 0 20, sample_sprite 2 0 10]
        = .ok mapview1
      ∧ List.Pairwise (fun a b => render_key a ≤ render_key b)
          (mapview1.object_queue.getD (1 - 1) [])
      ∧ (mapview1.object_queue.getD (1 - 1) []).Perm
          ([sample_sprite 1 0 20, sample_sprite 2 0 10].map node_of) :=
  add_object_image_keeps_queue_sorted sample_clean_view 1
    [sample_sprite 1 0 20, sample_sprite 2 0 10] (by decide) (by decide) rfl rfl (by decide)

/-- C12: insertion in a sprite queue is stable.  After any sequence of
`add_object_image` calls for one tag on a view whose queue for the tag is
empty, the nodes of any one key `map_y + height` stand in the queue in the
order in which their objects were enqueued, the head of the queue included. -/
theorem add_object_image_is_stable (mapview : mapview_t) (tag : Nat)
    (objects : List object_t) (htag : tag ≠ NULL_TAG) (hq : tag ≤ mapview.num_object_queues)
    (hlen : mapview.object_queue.length = mapview.num_object_queues)
    (hempty : mapview.object_queue.getD (tag - 1) [] = [])
    (himg : ∀ o ∈ objects, o.image.filename ≠ none ∧ o.image.width ≠ 0 ∧ o.image.height ≠ 0) :
    ∃ mapview1, add_object_images mapview tag objects = .ok mapview1
      ∧ ∀ k : Int,
        (mapview1.object_queue.getD (tag - 1) []).filter (fun x => decide (render_key x = k))
          = (objects.map node_of).filter (fun x => decide (render_key x = k)) := by
  obtain ⟨mv1, h1, _, _, hf, _⟩ := add_object_images_queue tag htag objects mapview hq
    (by omega) (by rw [hempty]; exact List.Pairwise.nil) himg
  refine ⟨mv1, h1, fun k => ?_⟩
  rw [hf k, hempty, List.nil_append]

/-- Witness of C12: three sprites of key 10, the second between two of the
same key, and one of key 5 enqueued last. -/
theorem add_object_image_is_stable_witness :
    ∃ mapview1,
      add_object_images sample_clean_view 1
        [sample_sprite 1 0 10, sample_sprite 2 2 8, sample_sprite 3 0 10, sample_sprite 4 0 5]
        = .ok mapview1
      ∧ ∀ k : Int,
        (mapview1.object_queue.getD (1 - 1) []).filter (fun x => decide (render_key x = k))
          = ([sample_sprite 1 0 10, sample_sprite 2 2 8, sample_sprite 3 0 10,
              sample_sprite 4 0 5].map node_of).filter (fun x => decide (render_key x = k)) :=
  add_object_image_is_stable sample_clean_view 1
    [sample_sprite 1 0 10, sample_sprite 2 2 8, sample_sprite 3 0 10, sample_sprite 4 0 5]
    (by decide) (by decide) rfl rfl (by decide)

/-! ## Theorems: the draw calls of a layer -/

theorem foldl_append_hom {α β : Type} (f : List β → α → List β)
    (h : ∀ c a, f c a = c ++ f [] a) :
    ∀ (l : List α) (c : List β), l.foldl f c = c ++ l.foldl f [] := by
  intro l
  induction l with
  | nil => intro c; simp
  | cons a l ih =>
    intro c
    rw [List.foldl_cons, List.foldl_cons, ih (f c a), ih (f [] a), h c a, List.append_assoc]

theorem render_tile_append (mv : mapview_t) (layer : Nat) (x y : Int) (calls : List gfx_call) :
    render_tile mv layer x y calls = calls ++ render_tile mv layer x y [] := by
  unfold render_tile
  split
  · simp
  · simp only []
    split
    · simp
    · simp

theorem render_rect_layer_append (mv : mapview_t) (layer : Nat) (r : dirty_rectangle_t)
    (calls : List gfx_call) :
    render_rect_layer mv layer r calls = calls ++ render_rect_layer mv layer r [] := by
  unfold render_rect_layer
  simp only []
  refine foldl_append_hom _ ?_ _ calls
  intro c x
  split
  · simp
  · exact foldl_append_hom _ (fun c y => render_tile_append mv layer x y c) _ c

theorem foldl_render_rect_layer (mv : mapview_t) (layer : Nat) (rects : List dirty_rectangle_t)
    (calls : List gfx_call) :
    rects.foldl (fun calls r => render_rect_layer mv layer r calls) calls
      = calls ++ rects.foldl (fun calls r => render_rect_layer mv layer r calls) [] :=
  foldl_append_hom _ (fun c r => render_rect_layer_append mv layer r c) rects calls

theorem render_tile_tile_draws (mv : mapview_t) (layer : Nat) (x y : Int)
    (calls : List gfx_call) (h : ∀ c ∈ calls, is_tile_draw c = true) :
    ∀ c ∈ render_tile mv layer x y calls, is_tile_draw c = true := by
  unfold render_tile
  split
  · exact h
  · simp only []
    split
    · intro c hc
      rcases List.mem_append.1 hc with hc | hc
      · exact h c hc
      · rw [List.mem_singleton] at hc
        rw [hc]; rfl
    · exact h

theorem render_rect_layer_tile_draws (mv : mapview_t) (layer : Nat) (r : dirty_rectangle_t)
    (calls : List gfx_call) (h : ∀ c ∈ calls, is_tile_draw c = true) :
    ∀ c ∈ render_rect_layer mv layer r calls, is_tile_draw c = true := by
  unfold render_rect_layer
  simp only []
  refine foldl_invariant (fun calls => ∀ c ∈ calls, is_tile_draw c = true) _ ?_ _ calls h
  intro s x hs
  split
  · exact hs
  · exact foldl_invariant (fun calls => ∀ c ∈ calls, is_tile_draw c = true) _
      (fun s y hs => render_tile_tile_draws mv layer x y s hs) _ s hs

theorem tile_draws_are_tile_draws (mv : mapview_t) (layer : Nat) :
    ∀ c ∈ tile_draws mv layer, is_tile_draw c = true := by
  unfold tile_draws
  refine foldl_invariant (fun calls => ∀ c ∈ calls, is_tile_draw c = true) _ ?_ _ [] ?_
  · intro s r hs
    exact render_rect_layer_tile_draws mv layer r s hs
  · intro c hc; cases hc

theorem foldl_render_node_calls (mv : mapview_t) (q : List render_node_t) (e : engine_t) :
    (q.foldl (fun engine node => render_node mv node engine) e).calls
      = e.calls ++ q.map (sprite_draw mv) := by
  induction q generalizing e with
  | nil => simp
  | cons n q ih =>
    rw [List.foldl_cons, ih, List.map_cons]
    simp [render_node, sprite_draw]

theorem getD_set_nil {α : Type} (l : List (List α)) (i j : Nat) :
    (l.set i []).getD j [] = if i = j then [] else l.getD j [] := by
  by_cases h : i = j
  · subst h
    rw [if_pos rfl]
    by_cases hi : i < l.length
    · exact getD_set_self _ _ _ _ hi
    · rw [List.getD_eq_getElem?_getD, List.getElem?_eq_none (by simpa using hi)]
      rfl
  · rw [if_neg h]
    exact getD_set_other _ _ _ _ _ h

/-- The view after one turn of the layer loop: only the queue of the tag of
the layer has changed, and it is empty. -/
theorem render_layer_view (l : Nat) (s : mapview_t × engine_t) :
    (render_layer l s).1.x_offset = s.1.x_offset
      ∧ (render_layer l s).1.y_offset = s.1.y_offset
      ∧ (render_layer l s).1.map = s.1.map
      ∧ (render_layer l s).1.num_object_queues = s.1.num_object_queues
      ∧ (render_layer l s).1.dirty_rectangles = s.1.dirty_rectangles
      ∧ (render_layer l s).2.tileset_loads = s.2.tileset_loads
      ∧ (∀ j, (render_layer l s).1.object_queue.getD j []
          = if get_layer_tag s.1.map l > NULL_TAG ∧ get_layer_tag s.1.map l - 1 = j then []
            else s.1.object_queue.getD j []) := by
  by_cases h : get_layer_tag s.1.map l > NULL_TAG
  · simp only [render_layer, render_map_objects, h, if_true, true_and]
    refine ⟨foldl_render_node_tileset _ _ _, fun j => ?_⟩
    exact getD_set_nil _ _ _
  · simp only [render_layer, render_map_objects, h, if_false, false_and]
    simp

theorem render_layer_calls (l : Nat) (s : mapview_t × engine_t) :
    (render_layer l s).2.calls
      = s.2.calls ++ s.1.dirty_rectangles.foldl
            (fun calls r => render_rect_layer s.1 l r calls) []
          ++ (if get_layer_tag s.1.map l > NULL_TAG then
                (s.1.object_queue.getD (get_layer_tag s.1.map l - 1) []).map (sprite_draw s.1)
              else []) := by
  by_cases h : get_layer_tag s.1.map l > NULL_TAG
  · simp only [render_layer, render_map_objects, h, if_true]
    rw [foldl_render_node_calls]
    show s.1.dirty_rectangles.foldl (fun calls r => render_rect_layer s.1 l r calls) s.2.calls
      ++ _ = _
    rw [foldl_render_rect_layer]
  · simp only [render_layer, render_map_objects, h, if_false]
    show s.1.dirty_rectangles.foldl (fun calls r => render_rect_layer s.1 l r calls) s.2.calls
      = _
    rw [foldl_render_rect_layer]
    simp

/-! ## Theorems: the layer loop -/

theorem tile_draws_congr (mv1 mv2 : mapview_t) (l : Nat) (hx : mv1.x_offset = mv2.x_offset)
    (hy : mv1.y_offset = mv2.y_offset) (hm : mv1.map = mv2.map)
    (hd : mv1.dirty_rectangles = mv2.dirty_rectangles) :
    mv1.dirty_rectangles.foldl (fun calls r => render_rect_layer mv1 l r calls) []
      = tile_draws mv2 l := by
  cases mv1
  cases mv2
  simp only at hx hy hm hd
  subst hx hy hm hd
  rfl

theorem sprite_draw_congr (mv1 mv2 : mapview_t) (hx : mv1.x_offset = mv2.x_offset)
    (hy : mv1.y_offset = mv2.y_offset) : sprite_draw mv1 = sprite_draw mv2 := by
  funext node
  simp only [sprite_draw, hx, hy]

theorem layer_queue_eq (mv : mapview_t) (n : Nat) (q : List render_node_t)
    (hq : q = if (∃ k, k < n ∧ get_layer_tag mv.map k > NULL_TAG
              ∧ get_layer_tag mv.map k - 1 = get_layer_tag mv.map n - 1) then []
            else mv.object_queue.getD (get_layer_tag mv.map n - 1) []) :
    (if get_layer_tag mv.map n > NULL_TAG then q else []) = layer_queue mv n := by
  unfold layer_queue
  by_cases ht : get_layer_tag mv.map n > NULL_TAG
  · rw [if_pos ht]
    have hpos : 0 < get_layer_tag mv.map n := ht
    by_cases he : ∃ k, k < n ∧ get_layer_tag mv.map k > NULL_TAG
        ∧ get_layer_tag mv.map k - 1 = get_layer_tag mv.map n - 1
    · rw [hq, if_pos he, if_neg]
      rintro ⟨_, hall⟩
      obtain ⟨k, hk, hk0, hk1⟩ := he
      have hk0p : 0 < get_layer_tag mv.map k := hk0
      exact hall k hk (by omega)
    · rw [hq, if_neg he, if_pos]
      refine ⟨ht, fun k hk hkt => he ⟨k, hk, ?_, ?_⟩⟩
      · rw [hkt]; exact ht
      · rw [hkt]
  · rw [if_neg ht, if_neg]
    exact fun h => ht h.1

theorem layer_draws_succ (mv : mapview_t) (n : Nat) :
    layer_draws mv (n + 1)
      = layer_draws mv n ++ tile_draws mv n ++ (layer_queue mv n).map (sprite_draw mv) := by
  unfold layer_draws
  rw [List.range_succ, List.foldl_append]
  rfl

/-- The state after the first `n` turns of the layer loop. -/
theorem render_layers_spec (s0 : mapview_t × engine_t) (n : Nat) :
    ((List.range n).foldl (fun s i => render_layer i s) s0).1.x_offset = s0.1.x_offset
      ∧ ((List.range n).foldl (fun s i => render_layer i s) s0).1.y_offset = s0.1.y_offset
      ∧ ((List.range n).foldl (fun s i => render_layer i s) s0).1.map = s0.1.map
      ∧ ((List.range n).foldl (fun s i => render_layer i s) s0).1.num_object_queues
          = s0.1.num_object_queues
      ∧ ((List.range n).foldl (fun s i => render_layer i s) s0).1.dirty_rectangles
          = s0.1.dirty_rectangles
      ∧ ((List.range n).foldl (fun s i => render_layer i s) s0).2.tileset_loads
          = s0.2.tileset_loads
      ∧ (∀ j, ((List.range n).foldl (fun s i => render_layer i s) s0).1.object_queue.getD j []
          = if (∃ k, k < n ∧ get_layer_tag s0.1.map k > NULL_TAG
                ∧ get_layer_tag s0.1.map k - 1 = j) then []
            else s0.1.object_queue.getD j [])
      ∧ ((List.range n).foldl (fun s i => render_layer i s) s0).2.calls
          = s0.2.calls ++ layer_draws s0.1 n := by
  induction n with
  | zero =>
    refine ⟨rfl, rfl, rfl, rfl, rfl, rfl, fun j => ?_, ?_⟩
    · rw [if_neg]
      · rfl
      · rintro ⟨k, hk, _⟩; omega
    · simp [layer_draws]
  | succ n ih =>
    rw [List.range_succ, List.foldl_append]
    generalize (List.range n).foldl (fun s i => render_layer i s) s0 = sn at ih
    obtain ⟨hx, hy, hm, hnum, hd, ht, hq, hc⟩ := ih
    obtain ⟨vx, vy, vm, vnum, vd, vt, vq⟩ := render_layer_view n sn
    simp only [List.foldl_cons, List.foldl_nil]
    refine ⟨vx.trans hx, vy.trans hy, vm.trans hm, vnum.trans hnum, vd.trans hd, vt.trans ht,
      fun j => ?_, ?_⟩
    · rw [vq j, hq j, hm]
      by_cases h1 : get_layer_tag s0.1.map n > NULL_TAG ∧ get_layer_tag s0.1.map n - 1 = j
      · rw [if_pos h1, if_pos ⟨n, Nat.lt_succ_self n, h1.1, h1.2⟩]
      · rw [if_neg h1]
        by_cases h2 : ∃ k, k < n ∧ get_layer_tag s0.1.map k > NULL_TAG
            ∧ get_layer_tag s0.1.map k - 1 = j
        · obtain ⟨k, hk, hk1⟩ := h2
          rw [if_pos ⟨k, hk, hk1⟩, if_pos ⟨k, Nat.lt_succ_of_lt hk, hk1⟩]
        · rw [if_neg h2, if_neg]
          rintro ⟨k, hk, hk1⟩
          rcases Nat.lt_succ_iff_lt_or_eq.1 hk with hlt | heq
          · exact h2 ⟨k, hlt, hk1⟩
          · subst heq; exact h1 hk1
    · rw [render_layer_calls, hc, tile_draws_congr sn.1 s0.1 n hx hy hm hd,
        sprite_draw_congr sn.1 s0.1 hx hy, layer_draws_succ, hm,
        ← layer_queue_eq s0.1 n _ (hq _)]
      by_cases h : get_layer_tag s0.1.map n > NULL_TAG
      · simp only [h, if_true, List.append_assoc]
      · simp only [h, if_false, List.append_assoc, List.map_nil]

theorem render_layer_step_eq (l : Nat) (s : mapview_t × engine_t)
    (ht : s.2.tileset_loads = true) :
    (match render_map_layer l s with
      | .error e => .error e
      | .ok s2 => .ok (render_map_objects l s2))
        = (.ok (render_layer l s) : Except Halt (mapview_t × engine_t)) := by
  unfold render_map_layer
  rw [if_neg (by rw [ht]; decide)]
  rfl

/-- The result of `render_map` when there are dirty rectangles, the
rectangles are handled without a halt, the tileset loads, the highest layer
index is below 255 and the layer loop has fuel for 256 turns: the layers
`0 .. get_max_layer` are rendered in turn and the list of dirty rectangles is
emptied. -/
theorem render_map_eq (fuel : Nat) (pass : object_pass) (s s0 : mapview_t × engine_t)
    (hnil : s.1.dirty_rectangles ≠ [])
    (h0 : g_slist_foreach s.1.dirty_rectangles (handle_dirty_rectangle pass) s = .ok s0)
    (ht : s0.2.tileset_loads = true) (hmax : get_max_layer s0.1.map < 255)
    (hfuel : 256 ≤ fuel) :
    ∃ s1, render_map fuel pass s = .ok s1
      ∧ s1.1.object_queue
          = ((List.range (get_max_layer s0.1.map + 1)).foldl
              (fun s i => render_layer i s) s0).1.object_queue
      ∧ s1.1.dirty_rectangles = []
      ∧ s1.2 = ((List.range (get_max_layer s0.1.map + 1)).foldl
              (fun s i => render_layer i s) s0).2 := by
  unfold render_map
  simp only [hnil, if_false, h0, for_uint8]
  generalize hX : for_counter 256 fuel _ _ 0 s0 = X
  have hok : X = .ok ((List.range (get_max_layer s0.1.map + 1)).foldl
      (fun s i => render_layer i s) s0) := by
    rw [← hX, List.range_eq_range']
    refine (for_counter_eq_foldl 256 (get_max_layer s0.1.map + 1) ?_ _ ?_ _
      (fun i s => render_layer i s) (fun s => s.2.tileset_loads = true)
      (fun i s _ hI => ⟨render_layer_step_eq i s hI, ?_⟩) fuel 0 s0 ?_ ?_ ?_).1
    · omega
    · intro i; simp [Nat.lt_succ_iff]
    · exact (render_layer_view i s).2.2.2.2.2.1.trans hI
    · omega
    · omega
    · exact ht
  rw [hok]
  exact ⟨_, rfl, rfl, rfl, rfl⟩

/-! ## Theorems: the sprite queues after a render pass -/

set_option maxRecDepth 100000 in
/-- C13, counterexamples: two calls of `render_map` that leave a sprite queue
with a node.  First: on the sample view a sprite is enqueued for tag 1 and no
rectangle is marked; `render_map` returns at once.  Second: on a map whose
layers have the tags 0 and 2 (two queues, tag 1 bound to no layer) a sprite is
enqueued for tag 1 and the whole map is marked dirty; `render_map` draws the
tiles and empties the list of dirty rectangles, and the queue of tag 1 still
holds the node. -/
theorem render_map_leaves_sprite_queue_counterexample :
    (add_object_image sample_clean_view 1 sample_object = .ok sample_view_with_sprite
        ∧ render_map 256 no_objects_pass (sample_view_with_sprite, sample_engine [sample_object])
            = .ok (sample_view_with_sprite, sample_engine [sample_object])
        ∧ sample_view_with_sprite.object_queue.getD (1 - 1) [] ≠ [])
      ∧ (add_object_image sample_view_unbound_tag 1 sample_object
            = .ok sample_view_unbound_tag_with_sprite
        ∧ mark_dirty_rect sample_view_unbound_tag_with_sprite 0 0 64 64
            = .ok sample_view_unbound_tag_marked
        ∧ render_map 256 no_objects_pass
              (sample_view_unbound_tag_marked, sample_engine [sample_object])
            = .ok (sample_view_unbound_tag_with_sprite,
                { objects := [sample_object], tileset_loads := true
                  calls := [gfx_call.add_update_rectangle 0 0 64 64,
                    gfx_call.draw_image_direct 32 0 0 0 32 32,
                    gfx_call.draw_image_direct 32 0 32 32 32 32] })
        ∧ sample_view_unbound_tag_with_sprite.object_queue.getD (1 - 1) [] ≠ []) := by
  decide

/-- C13, amended: `render_map` returns when the object pass returns, the
tileset loads, the highest layer index is below 255 and the layer loop has
fuel for 256 turns.  If it found no dirty rectangle it has changed nothing;
otherwise the sprite queue of every tag that is bound to a layer
`0 .. get_max_layer` is empty afterwards. -/
theorem render_map_empties_bound_queues (fuel : Nat) (pass : object_pass)
    (s : mapview_t × engine_t)
    (hpass : ∀ mv r objs, ∃ q, pass mv r objs = .ok q) (ht : s.2.tileset_loads = true)
    (hmax : get_max_layer s.1.map < 255) (hfuel : 256 ≤ fuel) :
    ∃ s1, render_map fuel pass s = .ok s1
      ∧ (s.1.dirty_rectangles = [] → s1 = s)
      ∧ (s.1.dirty_rectangles ≠ [] → ∀ l, l ≤ get_max_layer s.1.map →
          get_layer_tag s.1.map l > NULL_TAG →
          s1.1.object_queue.getD (get_layer_tag s.1.map l - 1) [] = []) := by
  by_cases hnil : s.1.dirty_rectangles = []
  · exact ⟨s, by simp [render_map, hnil], fun _ => rfl, fun h => absurd hnil h⟩
  · obtain ⟨s0, h0, hm, ht0, _⟩ := g_slist_foreach_handle pass hpass s.1.dirty_rectangles s
    obtain ⟨s1, h1, hq, _, _⟩ := render_map_eq fuel pass s s0 hnil h0 (by rw [ht0]; exact ht)
      (by rw [hm]; exact hmax) hfuel
    refine ⟨s1, h1, fun h => absurd h hnil, fun _ l hl htag => ?_⟩
    rw [hq, (render_layers_spec s0 _).2.2.2.2.2.2.1, if_pos]
    exact ⟨l, by rw [hm]; omega, by rw [hm]; exact htag, by rw [hm]⟩

/-- Witness of C13 (amended): the sample view with a rectangle and a sprite
queued. -/
theorem render_map_empties_bound_queues_witness :
    ∃ s1, render_map 256 no_objects_pass (sample_queued_view, sample_engine [sample_object])
        = .ok s1
      ∧ (sample_queued_view.dirty_rectangles = [] →
          s1 = (sample_queued_view, sample_engine [sample_object]))
      ∧ (sample_queued_view.dirty_rectangles ≠ [] → ∀ l,
          l ≤ get_max_layer sample_queued_view.map →
          get_layer_tag sample_queued_view.map l > NULL_TAG →
          s1.1.object_queue.getD (get_layer_tag sample_queued_view.map l - 1) [] = []) :=
  render_map_empties_bound_queues 256 no_objects_pass
    (sample_queued_view, sample_engine [sample_object])
    (fun mv _ objs => ⟨(mv.object_queue, objs), rfl⟩) rfl (by decide) (by decide)

/-! ## Theorems: the order of the draw calls -/

theorem handle_dirty_rectangle_calls (pass : object_pass) (r : dirty_rectangle_t)
    (s s1 : mapview_t × engine_t) (h : handle_dirty_rectangle pass r s = .ok s1) :
    ∃ updates, s1.2.calls = s.2.calls ++ updates
      ∧ ∀ c ∈ updates, is_update_rectangle c = true := by
  unfold handle_dirty_rectangle at h
  simp only [] at h
  split at h
  · cases h
    exact ⟨[], by simp, by simp⟩
  · split at h
    · cases h
    · cases h
      refine ⟨[_], rfl, ?_⟩
      intro c hc
      rw [List.mem_singleton] at hc
      rw [hc]; rfl

theorem g_slist_foreach_handle_calls (pass : object_pass) :
    ∀ (rects : List dirty_rectangle_t) (s s1 : mapview_t × engine_t),
      g_slist_foreach rects (handle_dirty_rectangle pass) s = .ok s1 →
      ∃ updates, s1.2.calls = s.2.calls ++ updates
        ∧ ∀ c ∈ updates, is_update_rectangle c = true := by
  intro rects
  induction rects with
  | nil =>
    intro s s1 h
    simp only [g_slist_foreach] at h
    cases h
    exact ⟨[], by simp, by simp⟩
  | cons r rest ih =>
    intro s s1 h
    simp only [g_slist_foreach] at h
    split at h
    · next s0 h0 =>
      obtain ⟨u0, hu0, hall0⟩ := handle_dirty_rectangle_calls pass r s s0 h0
      obtain ⟨u1, hu1, hall1⟩ := ih s0 s1 h
      refine ⟨u0 ++ u1, by rw [hu1, hu0, List.append_assoc], ?_⟩
      intro c hc
      rcases List.mem_append.1 hc with hc | hc
      · exact hall0 c hc
      · exact hall1 c hc
    · cases h

/-- C19: the order of the draw calls of one `render_map`.  When there are
dirty rectangles (and the object pass returns, the tileset loads, the highest
layer index is below 255 and the layer loop has fuel for 256 turns)
`render_map` returns, and the calls it has added are: update rectangles from
the handling of the dirty rectangles, then `layer_draws`: for the layers
`0, 1, ..., get_max_layer` in this order, the tile draws of the layer (only
`draw_image_direct` calls) followed by the sprite draws of the queue of the
layer, first node first (only `draw_image` calls). -/
theorem render_map_draw_order (fuel : Nat) (pass : object_pass) (s : mapview_t × engine_t)
    (hnil : s.1.dirty_rectangles ≠ [])
    (hpass : ∀ mv r objs, ∃ q, pass mv r objs = .ok q) (ht : s.2.tileset_loads = true)
    (hmax : get_max_layer s.1.map < 255) (hfuel : 256 ≤ fuel) :
    ∃ s0 s1 updates,
      g_slist_foreach s.1.dirty_rectangles (handle_dirty_rectangle pass) s = .ok s0
        ∧ render_map fuel pass s = .ok s1
        ∧ s1.2.calls
            = s.2.calls ++ updates ++ layer_draws s0.1 (get_max_layer s.1.map + 1)
        ∧ (∀ c ∈ updates, is_update_rectangle c = true)
        ∧ (∀ l, layer_draws s0.1 (l + 1)
            = layer_draws s0.1 l ++ tile_draws s0.1 l
                ++ (layer_queue s0.1 l).map (sprite_draw s0.1))
        ∧ (∀ l, ∀ c ∈ tile_draws s0.1 l, is_tile_draw c = true)
        ∧ (∀ l, ∀ c ∈ (layer_queue s0.1 l).map (sprite_draw s0.1), is_sprite_draw c = true) := by
  obtain ⟨s0, h0, hm, ht0, _⟩ := g_slist_foreach_handle pass hpass s.1.dirty_rectangles s
  obtain ⟨updates, hu, hall⟩ := g_slist_foreach_handle_calls pass _ s s0 h0
  obtain ⟨s1, h1, _, _, h2⟩ := render_map_eq fuel pass s s0 hnil h0 (by rw [ht0]; exact ht)
    (by rw [hm]; exact hmax) hfuel
  refine ⟨s0, s1, updates, h0, h1, ?_, hall, layer_draws_succ s0.1,
    tile_draws_are_tile_draws s0.1, ?_⟩
  · rw [h2, (render_layers_spec s0 _).2.2.2.2.2.2.2, hu, hm]
  · intro l c hc
    obtain ⟨node, _, hnode⟩ := List.mem_map.1 hc
    rw [← hnode]; rfl

/-- Witness of C19: the sample view with a rectangle and a sprite queued. -/
theorem render_map_draw_order_witness :
    ∃ s0 s1 updates,
      g_slist_foreach sample_queued_view.dirty_rectangles
          (handle_dirty_rectangle no_objects_pass)
          (sample_queued_view, sample_engine [sample_object]) = .ok s0
        ∧ render_map 256 no_objects_pass (sample_queued_view, sample_engine [sample_object])
            = .ok s1
        ∧ s1.2.calls
            = (sample_engine [sample_object]).calls ++ updates
                ++ layer_draws s0.1 (get_max_layer sample_queued_view.map + 1)
        ∧ (∀ c ∈ updates, is_update_rectangle c = true)
        ∧ (∀ l, layer_draws s0.1 (l + 1)
            = layer_draws s0.1 l ++ tile_draws s0.1 l
                ++ (layer_queue s0.1 l).map (sprite_draw s0.1))
        ∧ (∀ l, ∀ c ∈ tile_draws s0.1 l, is_tile_draw c = true)
        ∧ (∀ l, ∀ c ∈ (layer_queue s0.1 l).map (sprite_draw s0.1), is_sprite_draw c = true) :=
  render_map_draw_order 256 no_objects_pass (sample_queued_view, sample_engine [sample_object])
    (by decide) (fun mv _ objs => ⟨(mv.object_queue, objs), rfl⟩) rfl (by decide) (by decide)

/-! ## Theorems: the tile range of a rectangle -/

theorem overlaps_viewport_iff (mv : mapview_t) (r : dirty_rectangle_t) :
    overlaps_viewport mv r ↔
      ¬ (r.start_x ≥ (SCREEN_W : Int) + mv.x_offset ∨ r.start_y ≥ (SCREEN_H : Int) + mv.y_offset
        ∨ r.start_x + r.width ≤ mv.x_offset ∨ r.start_y + r.height ≤ mv.y_offset)
      ∧ 0 < r.width ∧ 0 < r.height := by
  unfold overlaps_viewport
  have hW : ((SCREEN_W : Nat) : Int) = 640 := rfl
  have hH : ((SCREEN_H : Nat) : Int) = 480 := rfl
  rw [hW, hH]
  omega

/-- Whether the integer is a value of `int32_t`. -/
@[reducible] def fits_int32 (i : Int) : Prop := -2147483648 ≤ i ∧ i ≤ 2147483647

/-- Whether the integer is a value of `int16_t`. -/
@[reducible] def fits_int16 (i : Int) : Prop := -32768 ≤ i ∧ i ≤ 32767

/-- Whether the integer is a value of `uint16_t`. -/
@[reducible] def fits_uint16 (i : Int) : Prop := 0 ≤ i ∧ i ≤ 65535

/-- A sum in the 32-bit range is not changed by the wrap. -/
theorem to_int32_of_fits (i : Int) (h : fits_int32 i) : to_int32 i = i := by
  unfold to_int32
  obtain ⟨h1, h2⟩ := h
  omega

/-- A value in the 16-bit signed range is not changed by the conversion. -/
theorem to_int16_of_fits (i : Int) (h : fits_int16 i) : to_int16 i = i := by
  unfold to_int16
  obtain ⟨h1, h2⟩ := h
  omega

/-- A value in the 16-bit unsigned range is not changed by the conversion. -/
theorem to_uint16_of_fits (i : Int) (h : fits_uint16 i) : ((to_uint16 i : Nat) : Int) = i := by
  unfold to_uint16
  obtain ⟨h1, h2⟩ := h
  omega

/-- The conversion to `int16_t` of a wrapped 32-bit value is the conversion
of the value. -/
theorem to_int16_to_int32 (i : Int) : to_int16 (to_int32 i) = to_int16 i := by
  unfold to_int16 to_int32
  omega

/-- C16 (counterexample): on the view at offset `(0, 0)` of a map 2048 tiles
wide, the rectangle over the whole map, `(0, 0, 65536, 32)`, overlaps the
viewport, and `handle_dirty_rectangle` forwards it; the module receives the
width as `uint16_t`, that is the rectangle `(0, 0, 0, 32)` and not
`(0, 0, 65536, 32)`. -/
theorem handle_dirty_rectangle_narrows_width_counterexample :
    overlaps_viewport sample_view_2048_wide
        { start_x := 0, start_y := 0, width := 65536, height := 32 }
      ∧ (handle_dirty_rectangle no_objects_pass
            { start_x := 0, start_y := 0, width := 65536, height := 32 }
            (sample_view_2048_wide, sample_engine_start)).map (fun s => s.2.calls)
          = .ok [gfx_call.add_update_rectangle 0 0 0 32] := by
  decide

/-- C16 (amended): for a rectangle of positive width and height, with the
sums of the culling test in the `int` range, `handle_dirty_rectangle`
forwards a rectangle exactly when it overlaps the viewport.  The rectangle
overlaps the viewport exactly when some pixel lies in both; if it does not,
the call returns with nothing changed and no call made; if it does, and the
object pass returns, the call returns having added the one call of
`add_update_rectangle` whose arguments are `start_x - x_offset` and
`start_y - y_offset` converted to `int16_t` and the width and the height
converted to `uint16_t`: they are `(start_x - x_offset, start_y - y_offset,
width, height)` themselves when the two differences are `int16_t` values and
the width and the height are `uint16_t` values. -/
theorem handle_dirty_rectangle_forwards_iff_overlap (pass : object_pass)
    (rectangle : dirty_rectangle_t) (s : mapview_t × engine_t)
    (hw : rectangle.width > 0) (hh : rectangle.height > 0)
    (hsx : fits_int32 ((SCREEN_W : Int) + s.1.x_offset))
    (hsy : fits_int32 ((SCREEN_H : Int) + s.1.y_offset))
    (hex : fits_int32 (rectangle.start_x + rectangle.width))
    (hey : fits_int32 (rectangle.start_y + rectangle.height)) :
    (overlaps_viewport s.1 rectangle ↔
        ∃ px py : Int,
          rectangle.start_x ≤ px ∧ px < rectangle.start_x + rectangle.width
            ∧ rectangle.start_y ≤ py ∧ py < rectangle.start_y + rectangle.height
            ∧ s.1.x_offset ≤ px ∧ px < s.1.x_offset + (SCREEN_W : Int)
            ∧ s.1.y_offset ≤ py ∧ py < s.1.y_offset + (SCREEN_H : Int))
      ∧ (¬ overlaps_viewport s.1 rectangle → handle_dirty_rectangle pass rectangle s = .ok s)
      ∧ (overlaps_viewport s.1 rectangle → ∀ queues objects,
          pass s.1 rectangle s.2.objects = .ok (queues, objects) →
          ∃ s1, handle_dirty_rectangle pass rectangle s = .ok s1
            ∧ s1.2.calls = s.2.calls ++ [gfx_call.add_update_rectangle
                (to_int16 (rectangle.start_x - s.1.x_offset))
                (to_int16 (rectangle.start_y - s.1.y_offset))
                ((to_uint16 rectangle.width : Nat) : Int)
                ((to_uint16 rectangle.height : Nat) : Int)]
            ∧ (fits_int16 (rectangle.start_x - s.1.x_offset) →
                fits_int16 (rectangle.start_y - s.1.y_offset) →
                fits_uint16 rectangle.width → fits_uint16 rectangle.height →
                s1.2.calls = s.2.calls ++ [gfx_call.add_update_rectangle
                  (rectangle.start_x - s.1.x_offset) (rectangle.start_y - s.1.y_offset)
                  rectangle.width rectangle.height])
            ∧ s1.1.object_queue = queues ∧ s1.2.objects = objects) := by
  refine ⟨?_, ?_, ?_⟩
  · unfold overlaps_viewport
    have hW : ((SCREEN_W : Nat) : Int) = 640 := rfl
    have hH : ((SCREEN_H : Nat) : Int) = 480 := rfl
    rw [hW, hH]
    constructor
    · intro h
      exact ⟨max rectangle.start_x s.1.x_offset, max rectangle.start_y s.1.y_offset,
        by omega, by omega, by omega, by omega, by omega, by omega, by omega, by omega⟩
    · rintro ⟨px, py, h⟩
      omega
  · intro h
    rw [overlaps_viewport_iff] at h
    have hc : rectangle.start_x ≥ (SCREEN_W : Int) + s.1.x_offset
        ∨ rectangle.start_y ≥ (SCREEN_H : Int) + s.1.y_offset
        ∨ rectangle.start_x + rectangle.width ≤ s.1.x_offset
        ∨ rectangle.start_y + rectangle.height ≤ s.1.y_offset := by
      by_contra hn
      exact h ⟨hn, hw, hh⟩
    unfold handle_dirty_rectangle
    simp only []
    rw [to_int32_of_fits _ hsx, to_int32_of_fits _ hsy, to_int32_of_fits _ hex,
      to_int32_of_fits _ hey, if_pos hc]
  · intro h queues objects hp
    rw [overlaps_viewport_iff] at h
    unfold handle_dirty_rectangle
    simp only []
    rw [to_int32_of_fits _ hsx, to_int32_of_fits _ hsy, to_int32_of_fits _ hex,
      to_int32_of_fits _ hey, if_neg h.1, hp, to_int16_to_int32, to_int16_to_int32]
    refine ⟨_, rfl, rfl, ?_, rfl, rfl⟩
    intro h1 h2 h3 h4
    simp only []
    rw [to_int16_of_fits _ h1, to_int16_of_fits _ h2, to_uint16_of_fits _ h3,
      to_uint16_of_fits _ h4]

/-- Witness of C16 (amended): the whole sample map as rectangle, in the
sample view. -/
theorem handle_dirty_rectangle_forwards_iff_overlap_witness :
    overlaps_viewport sample_mapview { start_x := 0, start_y := 0, width := 64, height := 64 }
      ∧ ∃ s1, handle_dirty_rectangle no_objects_pass
            { start_x := 0, start_y := 0, width := 64, height := 64 }
            (sample_mapview, sample_engine []) = .ok s1
          ∧ s1.2.calls = (sample_engine []).calls ++ [gfx_call.add_update_rectangle
                ((0 : Int) - sample_mapview.x_offset) ((0 : Int) - sample_mapview.y_offset) 64 64] := by
  have h := (handle_dirty_rectangle_forwards_iff_overlap no_objects_pass
    { start_x := 0, start_y := 0, width := 64, height := 64 } (sample_mapview, sample_engine [])
    (by decide) (by decide) (by decide) (by decide) (by decide) (by decide)).2.2
    (by decide) sample_mapview.object_queue (sample_engine []).objects rfl
  obtain ⟨s1, h1, _, h3, _, _⟩ := h
  exact ⟨by decide, s1, h1, h3 (by decide) (by decide) (by decide) (by decide)⟩

set_option maxRecDepth 100000 in
/-- C15: the scenario.  On the 2x2 single-layer map with tag 1 and tile
values `[1, 0, 0, 1]`, with one object of tag 1 at map pixel `(0, 0)` and a
sprite of one tile, marking the whole map dirty gives the view with the one
rectangle, and `render_map` then returns having made one update-rectangle
call, two tile draws and one sprite draw; the queue of tag 1 and the list of
dirty rectangles are empty and the object is not dirty. -/
theorem render_map_scenario :
    mark_dirty_rect sample_clean_view 0 0 64 64 = .ok sample_mapview
      ∧ ∃ s1, render_map 256 apply_to_objects (sample_mapview, sample_engine [sample_object])
          = .ok s1
        ∧ s1.2.calls = [gfx_call.add_update_rectangle 0 0 64 64,
            gfx_call.draw_image_direct 32 0 0 0 32 32,
            gfx_call.draw_image_direct 32 0 32 32 32 32,
            gfx_call.draw_image (some [105]) 0 0 0 0 32 32]
        ∧ (s1.2.calls.filter is_tile_draw).length = 2
        ∧ (s1.2.calls.filter is_sprite_draw).length = 1
        ∧ s1.1.object_queue.getD (1 - 1) [] = []
        ∧ s1.1.dirty_rectangles = []
        ∧ s1.2.objects.map (fun o => o.is_dirty) = [false]
        ∧ apply_to_objects sample_mapview
              { start_x := 0, start_y := 0, width := 64, height := 64 } [sample_object]
            = .ok ([[node_of sample_object]], [{ sample_object with is_dirty := true }]) :=
  ⟨by decide, (sample_clean_view,
      { objects := [sample_object], tileset_loads := true
        calls := [gfx_call.add_update_rectangle 0 0 64 64,
          gfx_call.draw_image_direct 32 0 0 0 32 32,
          gfx_call.draw_image_direct 32 0 32 32 32 32,
          gfx_call.draw_image (some [105]) 0 0 0 0 32 32] }),
    by decide, rfl, rfl, rfl, rfl, rfl, rfl, by decide⟩

set_option maxRecDepth 100000 in
/-- C17, failing input: the view at offset `(0, 0)` of a map of 21x1 tiles
whose tile `(20, 0)` has value 1, with the one dirty rectangle
`(640, 0, 32, 32)`.  The rectangle does not overlap the viewport and
`handle_dirty_rectangle` leaves it alone, forwarding nothing; `render_map`
nevertheless draws the tile, at screen position `(640, 0)`. -/
theorem render_map_draws_tile_of_culled_rectangle :
    mark_dirty_rect sample_wide_view 640 0 32 32 = .ok sample_wide_view_marked
      ∧ ¬ overlaps_viewport sample_wide_view_marked
          { start_x := 640, start_y := 0, width := 32, height := 32 }
      ∧ handle_dirty_rectangle no_objects_pass
            { start_x := 640, start_y := 0, width := 32, height := 32 }
            (sample_wide_view_marked, sample_engine [])
          = .ok (sample_wide_view_marked, sample_engine [])
      ∧ render_map 256 no_objects_pass (sample_wide_view_marked, sample_engine [])
          = .ok (sample_wide_view,
              { objects := [], tileset_loads := true
                calls := [gfx_call.draw_image_direct 32 0 640 0 32 32] }) := by
  decide

/-! ## Theorems: the order of the dirty rectangles -/

theorem mark_dirty_rect_ok (mapview : mapview_t) (r : dirty_rectangle_t)
    (h : r.width > 0 ∧ r.height > 0) :
    ∃ v, mark_dirty_rect mapview r.start_x r.start_y r.width r.height = .ok v
      ∧ v.dirty_rectangles = r :: mapview.dirty_rectangles := by
  have hn : ¬ ¬ (r.width > 0 ∧ r.height > 0) := fun hh => hh h
  unfold mark_dirty_rect
  rw [if_neg hn]
  exact ⟨_, rfl, rfl⟩

set_option maxRecDepth 100000 in
/-- C20, counterexample: on the sample view the rectangle `(0, 0, 32, 32)` is
marked and then the rectangle `(32, 32, 32, 32)`.  The second stands first in
the list of dirty rectangles, and `render_map` forwards it (and draws its
tile) before the first. -/
theorem mark_dirty_rect_appends_counterexample :
    mark_dirty_rect sample_clean_view 0 0 32 32 = .ok sample_view_one_rectangle
      ∧ mark_dirty_rect sample_view_one_rectangle 32 32 32 32 = .ok sample_view_two_rectangles
      ∧ sample_view_two_rectangles.dirty_rectangles
          = [{ start_x := 32, start_y := 32, width := 32, height := 32 },
             { start_x := 0, start_y := 0, width := 32, height := 32 }]
      ∧ render_map 256 no_objects_pass (sample_view_two_rectangles, sample_engine [])
          = .ok (sample_clean_view,
              { objects := [], tileset_loads := true
                calls := [gfx_call.add_update_rectangle 32 32 32 32,
                  gfx_call.add_update_rectangle 0 0 32 32,
                  gfx_call.draw_image_direct 32 0 32 32 32 32,
                  gfx_call.draw_image_direct 32 0 0 0 32 32] }) := by
  decide

/-- C20, amended: `mark_dirty_rect` of `src/src/map/mapview.c` prepends.
After marking `r1` and then `r2` (both of positive width and height) the list
of dirty rectangles is `r2`, `r1`, then the rectangles that were there before,
and `render_map` handles `r2`, then `r1`, then the others; `add_dirty_rect` of
`src/src/field/mapview.c` appends, so that there the queue is the old one,
then `r1`, then `r2`. -/
theorem mark_dirty_rect_prepends (mapview : mapview_t) (field_view : Field.map_view)
    (r1 r2 : dirty_rectangle_t)
    (h1 : r1.width > 0 ∧ r1.height > 0) (h2 : r2.width > 0 ∧ r2.height > 0) :
    ∃ v1 v2, mark_dirty_rect mapview r1.start_x r1.start_y r1.width r1.height = .ok v1
      ∧ mark_dirty_rect v1 r2.start_x r2.start_y r2.width r2.height = .ok v2
      ∧ v2.dirty_rectangles = r2 :: r1 :: mapview.dirty_rectangles
      ∧ (∀ (pass : object_pass) (engine : engine_t),
          g_slist_foreach v2.dirty_rectangles (handle_dirty_rectangle pass) (v2, engine)
            = match handle_dirty_rectangle pass r2 (v2, engine) with
              | .error e => .error e
              | .ok s1 =>
                match handle_dirty_rectangle pass r1 s1 with
                | .error e => .error e
                | .ok s2 =>
                  g_slist_foreach mapview.dirty_rectangles (handle_dirty_rectangle pass) s2)
      ∧ (Field.add_dirty_rect
            (Field.add_dirty_rect field_view r1.start_x r1.start_y r1.width r1.height).2
            r2.start_x r2.start_y r2.width r2.height).2.dirty_rectangles
          = field_view.dirty_rectangles
            ++ [{ start_x := r1.start_x, start_y := r1.start_y, width := r1.width,
                  height := r1.height },
                { start_x := r2.start_x, start_y := r2.start_y, width := r2.width,
                  height := r2.height }] := by
  obtain ⟨v1, hv1, hd1⟩ := mark_dirty_rect_ok mapview r1 h1
  obtain ⟨v2, hv2, hd2⟩ := mark_dirty_rect_ok v1 r2 h2
  have hd : v2.dirty_rectangles = r2 :: r1 :: mapview.dirty_rectangles := by rw [hd2, hd1]
  refine ⟨v1, v2, hv1, hv2, hd, ?_, ?_⟩
  · intro pass engine
    rw [hd, g_slist_foreach]
    cases handle_dirty_rectangle pass r2 (v2, engine) with
    | error e => rfl
    | ok s1 =>
      simp only []
      rw [g_slist_foreach]
      cases handle_dirty_rectangle pass r1 s1 <;> rfl
  · simp [Field.add_dirty_rect]

/-- Witness of C20 (amended): the two rectangles of the counterexample. -/
theorem mark_dirty_rect_prepends_witness :
    ∃ v1 v2, mark_dirty_rect sample_clean_view 0 0 32 32 = .ok v1
      ∧ mark_dirty_rect v1 32 32 32 32 = .ok v2
      ∧ v2.dirty_rectangles
          = { start_x := 32, start_y := 32, width := 32, height := 32 }
            :: { start_x := 0, start_y := 0, width := 32, height := 32 }
            :: sample_clean_view.dirty_rectangles
      ∧ (∀ (pass : object_pass) (engine : engine_t),
          g_slist_foreach v2.dirty_rectangles (handle_dirty_rectangle pass) (v2, engine)
            = match handle_dirty_rectangle pass
                { start_x := 32, start_y := 32, width := 32, height := 32 } (v2, engine) with
              | .error e => .error e
              | .ok s1 =>
                match handle_dirty_rectangle pass
                  { start_x := 0, start_y := 0, width := 32, height := 32 } s1 with
                | .error e => .error e
                | .ok s2 =>
                  g_slist_foreach sample_clean_view.dirty_rectangles
                    (handle_dirty_rectangle pass) s2)
      ∧ (Field.add_dirty_rect (Field.add_dirty_rect sample_field_view 0 0 32 32).2
            32 32 32 32).2.dirty_rectangles
          = sample_field_view.dirty_rectangles
            ++ [{ start_x := 0, start_y := 0, width := 32, height := 32 },
                { start_x := 32, start_y := 32, width := 32, height := 32 }] :=
  mark_dirty_rect_prepends sample_clean_view sample_field_view
    { start_x := 0, start_y := 0, width := 32, height := 32 }
    { start_x := 32, start_y := 32, width := 32, height := 32 }
    (by decide) (by decide)

/-! ## Theorems: making a view -/

theorem max_tag_fold (f : Nat → Nat) (n : Nat) :
    (∀ l, l < n → f l ≤ (List.range n).foldl
        (fun result l => if f l > result then f l else result) NULL_TAG)
      ∧ ((List.range n).foldl (fun result l => if f l > result then f l else result) NULL_TAG
            = NULL_TAG
          ∨ ∃ l, l < n ∧ (List.range n).foldl
              (fun result l => if f l > result then f l else result) NULL_TAG = f l) := by
  induction n with
  | zero => exact ⟨fun l h => absurd h (Nat.not_lt_zero l), Or.inl rfl⟩
  | succ n ih =>
    rw [List.range_succ, List.foldl_append]
    generalize (List.range n).foldl (fun result l => if f l > result then f l else result)
      NULL_TAG = R at ih
    obtain ⟨hle, hex⟩ := ih
    simp only [List.foldl_cons, List.foldl_nil]
    by_cases h : f n > R
    · rw [if_pos h]
      refine ⟨fun l hl => ?_, Or.inr ⟨n, Nat.lt_succ_self n, rfl⟩⟩
      rcases Nat.lt_succ_iff_lt_or_eq.1 hl with hlt | heq
      · have := hle l hlt
        omega
      · rw [heq]
    · rw [if_neg h]
      refine ⟨fun l hl => ?_, ?_⟩
      · rcases Nat.lt_succ_iff_lt_or_eq.1 hl with hlt | heq
        · exact hle l hlt
        · rw [heq]; omega
      · rcases hex with h0 | ⟨l, hl, hR⟩
        · exact Or.inl h0
        · exact Or.inr ⟨l, Nat.lt_succ_of_lt hl, hR⟩

theorem get_tag_of_lt (mp : Field.map) (l : Nat) (h : l < mp.num_layers) :
    Field.get_tag (some mp) l = mp.layer_tags.getD l 0 := by
  have hn : ¬ l ≥ mp.num_layers := by omega
  simp only [Field.get_tag, hn, if_false]

/-- The value of `get_max_tag` on a map with one tag per layer: an upper
bound of the tags, and `NULL_TAG` or one of the tags. -/
theorem get_max_tag_spec (mp : Field.map) (hlen : mp.layer_tags.length = mp.num_layers) :
    (∀ t ∈ mp.layer_tags, t ≤ Field.get_max_tag (some mp))
      ∧ (Field.get_max_tag (some mp) = NULL_TAG
          ∨ Field.get_max_tag (some mp) ∈ mp.layer_tags) := by
  obtain ⟨hle, hex⟩ := max_tag_fold (fun l => Field.get_tag (some mp) l) mp.num_layers
  refine ⟨fun t ht => ?_, ?_⟩
  · obtain ⟨l, hl, rfl⟩ := List.getElem_of_mem ht
    have h := hle l (by omega)
    rw [get_tag_of_lt mp l (by omega), List.getD_eq_getElem _ _ hl] at h
    exact h
  · rcases hex with h0 | ⟨l, hl, hR⟩
    · exact Or.inl h0
    · refine Or.inr ?_
      have hl2 : l < mp.layer_tags.length := by omega
      have : Field.get_max_tag (some mp) = mp.layer_tags[l] := by
        rw [← List.getD_eq_getElem _ 0 hl2, ← get_tag_of_lt mp l hl]
        exact hR
      rw [this]
      exact List.getElem_mem _

theorem get_max_tag_zero (mp : Field.map) (h : ∀ t ∈ mp.layer_tags, t = 0) :
    Field.get_max_tag (some mp) = 0 := by
  have hz : ∀ l, Field.get_tag (some mp) l = 0 := by
    intro l
    unfold Field.get_tag
    simp only []
    split
    · rfl
    · by_cases hl : l < mp.layer_tags.length
      · rw [List.getD_eq_getElem _ _ hl]
        exact h _ (List.getElem_mem _)
      · rw [List.getD_eq_default _ _ (by omega)]
  rcases (max_tag_fold (fun l => Field.get_tag (some mp) l) mp.num_layers).2 with h0 | ⟨l, _, hR⟩
  · exact h0
  · exact hR.trans (hz l)

theorem process_dirty_rectangles_one {ω : Type} (fuel : Nat)
    (pass : Field.dirty_rectangle → Field.map_view × ω → Field.map_view × ω)
    (hpass : ∀ r s, (pass r s).1.dirty_rectangles = s.1.dirty_rectangles
      ∧ (pass r s).1.num_object_queues = s.1.num_object_queues)
    (s : Field.map_view × ω) (rect : Field.dirty_rectangle)
    (hs : s.1.dirty_rectangles = [rect]) (hfuel : 2 ≤ fuel) :
    ∃ s1, Field.process_dirty_rectangles fuel pass s = .ok s1
      ∧ s1.1.num_object_queues = s.1.num_object_queues ∧ s1.1.dirty_rectangles = [] := by
  obtain ⟨f, rfl⟩ : ∃ f, fuel = f + 2 := ⟨fuel - 2, by omega⟩
  obtain ⟨mv, o⟩ := s
  cases mv with
  | mk x_offset y_offset map dirty_tiles num_object_queues object_queue dirty_rectangles =>
    simp only at hs
    subst hs
    generalize hs1 : pass rect
      ({ x_offset := x_offset, y_offset := y_offset, map := map
         dirty_tiles := Field.mark_dirty_tiles
           { x_offset := x_offset, y_offset := y_offset, map := map, dirty_tiles := dirty_tiles
             num_object_queues := num_object_queues, object_queue := object_queue
             dirty_rectangles := [rect] } rect
         num_object_queues := num_object_queues, object_queue := object_queue
         dirty_rectangles := [rect] }, o) = s1
    have hp := hpass rect
      ({ x_offset := x_offset, y_offset := y_offset, map := map
         dirty_tiles := Field.mark_dirty_tiles
           { x_offset := x_offset, y_offset := y_offset, map := map, dirty_tiles := dirty_tiles
             num_object_queues := num_object_queues, object_queue := object_queue
             dirty_rectangles := [rect] } rect
         num_object_queues := num_object_queues, object_queue := object_queue
         dirty_rectangles := [rect] }, o)
    rw [hs1] at hp
    have hstep : Field.process_dirty_rectangles (f + 2) pass
        ({ x_offset := x_offset, y_offset := y_offset, map := map, dirty_tiles := dirty_tiles
           num_object_queues := num_object_queues, object_queue := object_queue
           dirty_rectangles := [rect] }, o)
        = Field.process_dirty_rectangles (f + 1) pass
            ({ s1.1 with dirty_rectangles := s1.1.dirty_rectangles.tail }, s1.2) := by
      rw [Field.process_dirty_rectangles]
      simp only []
      rw [hs1]
    rw [hstep, Field.process_dirty_rectangles]
    simp only [hp.1, List.tail_cons]
    exact ⟨_, rfl, hp.2, rfl⟩

theorem field_mark_dirty_rect_empty {ω : Type} (fuel : Nat)
    (pass : Field.dirty_rectangle → Field.map_view × ω → Field.map_view × ω)
    (hpass : ∀ r s, (pass r s).1.dirty_rectangles = s.1.dirty_rectangles
      ∧ (pass r s).1.num_object_queues = s.1.num_object_queues)
    (mv : Field.map_view) (objects : ω) (x y w h : Int) (hw : 0 < w) (hh : 0 < h)
    (hempty : mv.dirty_rectangles = []) (hfuel : 2 ≤ fuel) :
    ∃ v o, Field.mark_dirty_rect fuel pass (some mv) objects x y w h = .ok (SUCCESS, some v, o)
      ∧ v.num_object_queues = mv.num_object_queues ∧ v.dirty_rectangles = [] := by
  have hdim : ¬ (w ≤ 0 ∨ h ≤ 0) := by omega
  have hne : ¬ (mv.dirty_rectangles ≠ []) := fun hn => hn hempty
  have hsucc : ¬ ((Field.add_dirty_rect mv x y w h).1 = FAILURE) := by
    simp [Field.add_dirty_rect, SUCCESS, FAILURE]
  obtain ⟨s1, hs1, hnum, hd⟩ := process_dirty_rectangles_one fuel pass hpass
    ((Field.add_dirty_rect mv x y w h).2, objects)
    { start_x := x, start_y := y, width := w, height := h }
    (by simp [Field.add_dirty_rect, hempty]) hfuel
  refine ⟨s1.1, s1.2, ?_, hnum, hd⟩
  unfold Field.mark_dirty_rect
  simp only []
  rw [if_neg hdim, if_neg hne, if_neg hsucc, hs1]

/-- C14: `init_mapview` needs a tag.  For a map with one tag per layer: if
every layer tag is 0 then `get_max_tag` is 0 and `init_mapview` returns no
view; if some layer tag is not 0 (and the map has positive width and height,
the object pass leaves the queue of dirty rectangles and the number of queues
alone, and the loop over the dirty rectangles has fuel for 2 turns) then
`init_mapview` returns a view, and its `num_object_queues` is the value of
`get_max_tag`, which is one of the layer tags and at least each of them. -/
theorem init_mapview_needs_a_tag {ω : Type} (fuel : Nat)
    (pass : Field.dirty_rectangle → Field.map_view × ω → Field.map_view × ω)
    (mp : Field.map) (objects : ω) (hlen : mp.layer_tags.length = mp.num_layers) :
    ((∀ t ∈ mp.layer_tags, t = 0) →
        Field.get_max_tag (some mp) = 0
          ∧ Field.init_mapview fuel pass (some mp) objects = .ok (none, objects))
      ∧ ((∃ t ∈ mp.layer_tags, t ≠ 0) → 0 < mp.width → 0 < mp.height →
          (∀ r s, (pass r s).1.dirty_rectangles = s.1.dirty_rectangles
            ∧ (pass r s).1.num_object_queues = s.1.num_object_queues) →
          2 ≤ fuel →
          ∃ view objects1,
            Field.init_mapview fuel pass (some mp) objects = .ok (some view, objects1)
              ∧ view.num_object_queues = Field.get_max_tag (some mp)
              ∧ view.num_object_queues ∈ mp.layer_tags
              ∧ ∀ t ∈ mp.layer_tags, t ≤ view.num_object_queues) := by
  constructor
  · intro hzero
    have h0 := get_max_tag_zero mp hzero
    refine ⟨h0, ?_⟩
    unfold Field.init_mapview
    simp only []
    by_cases hdim : mp.width ≤ 0 ∨ mp.height ≤ 0
    · rw [if_pos hdim]
    · rw [if_neg hdim, if_pos h0]
  · rintro ⟨t, ht, htne⟩ hw hh hpass hfuel
    obtain ⟨hle, hmem⟩ := get_max_tag_spec mp hlen
    have hpos : Field.get_max_tag (some mp) ≠ 0 := by
      have := hle t ht
      omega
    have hmem2 : Field.get_max_tag (some mp) ∈ mp.layer_tags := by
      rcases hmem with h0 | h1
      · exact absurd h0 hpos
      · exact h1
    have hdim : ¬ (mp.width ≤ 0 ∨ mp.height ≤ 0) := by omega
    obtain ⟨v, o, hv, hnum, _⟩ := field_mark_dirty_rect_empty fuel pass hpass
      { x_offset := 0, y_offset := 0, map := mp
        dirty_tiles := List.replicate (mp.width * mp.height).toNat 0
        num_object_queues := Field.get_max_tag (some mp)
        object_queue := List.replicate (Field.get_max_tag (some mp)) []
        dirty_rectangles := [] }
      objects 0 0 mp.width mp.height hw hh rfl hfuel
    refine ⟨v, o, ?_, hnum, by rw [hnum]; exact hmem2, fun t ht => by rw [hnum]; exact hle t ht⟩
    unfold Field.init_mapview
    simp only []
    rw [if_neg hdim, if_neg hpos, hv]

/-- Witness of C14: a map with the layer tags 0 and 3 gets a view with 3
queues. -/
theorem init_mapview_needs_a_tag_witness :
    ∃ view objects1,
      Field.init_mapview 5 (fun _ (s : Field.map_view × Unit) => s) (some sample_field_map) ()
          = .ok (some view, objects1)
        ∧ view.num_object_queues = Field.get_max_tag (some sample_field_map)
        ∧ view.num_object_queues ∈ sample_field_map.layer_tags
        ∧ ∀ t ∈ sample_field_map.layer_tags, t ≤ view.num_object_queues :=
  (init_mapview_needs_a_tag 5 (fun _ (s : Field.map_view × Unit) => s) sample_field_map () rfl).2
    ⟨3, by decide, by decide⟩ (by decide) (by decide) (fun _ _ => ⟨rfl, rfl⟩) (by decide)

/-! ## Theorems: scrolling and queued nodes -/

set_option maxRecDepth 100000 in
/-- C21, failing input: the sample view at offset `(0, 0)` is scrolled by 32
pixels to the east.  `scroll_map` marks the rectangle `(608, 0, 32, 480)`,
whose columns 608 to 639 were all visible before the scroll; column 640, which
the scroll brings into view, is not in it.  After the change of offset the
rectangle is forwarded as the screen rectangle `(576, 0, 32, 480)`, not as the
strip `(608, 0, 32, 480)` at the right edge of the screen.  For a scroll to the
west the rectangle marked is `(0, 0, 32, 480)`, and column -1 is not in
it. -/
theorem scroll_map_marks_visible_strip :
    scroll_map_marks sample_clean_view 32 0 = .ok sample_view_marked_east
      ∧ column_visible 0 608 ∧ column_visible 0 (608 + 32 - 1)
      ∧ ¬ column_visible 0 640 ∧ column_visible (0 + 32) 640
      ∧ scroll_map 256 no_objects_pass (sample_clean_view, sample_engine []) 32 0
          = .ok (sample_view_at_32,
              { objects := [], tileset_loads := true
                calls := [gfx_call.scroll_screen (-32) 0,
                  gfx_call.add_update_rectangle 576 0 32 480] })
      ∧ scroll_map_marks sample_clean_view (-32) 0 = .ok sample_view_marked_west
      ∧ ¬ column_visible 0 (-1) ∧ column_visible (0 - 32) (-1) := by
  decide

set_option maxRecDepth 100000 in
/-- C22, failing input: on the sample view a sprite is enqueued for the
sample object, which stands at map pixel `(0, 0)`; the image of the object is
then moved to `(32, 32)`, and the map is marked dirty and rendered.  The
sprite is drawn at `(32, 32)`: the node points to the image of the object and
holds no copy.  In the same way a queue of two sprites of keys 10 and 20 is
out of order once the first object has been moved to key 50. -/
theorem queued_node_follows_object_image :
    calls_after_move
        { filename := some [105], image_x := 0, image_y := 0, map_x := 32, map_y := 32
          width := 32, height := 32 }
      = .ok [gfx_call.add_update_rectangle 0 0 64 64,
          gfx_call.draw_image_direct 32 0 0 0 32 32,
          gfx_call.draw_image_direct 32 0 32 32 32 32,
          gfx_call.draw_image (some [105]) 0 0 32 32 32 32]
      ∧ calls_after_move sample_object.image
        = .ok [gfx_call.add_update_rectangle 0 0 64 64,
          gfx_call.draw_image_direct 32 0 0 0 32 32,
          gfx_call.draw_image_direct 32 0 32 32 32 32,
          gfx_call.draw_image (some [105]) 0 0 0 0 32 32]
      ∧ queue_after_move
        = .ok [node_of (sample_sprite 1 40 10), node_of (sample_sprite 2 0 20)]
      ∧ render_key (node_of (sample_sprite 1 40 10)) = 50
      ∧ render_key (node_of (sample_sprite 2 0 20)) = 20 := by
  decide

/-! ## Theorems: the coordinates of an object -/

/-- C23, failing input: the object stands at map pixel `(60, 60)` with a
sprite 48 pixels high, and `set_object_coordinates` is called with `x = 5`,
`y = 10` and the reference `BOTTOM_LEFT` (taken to be 1; only its equality
with the reference matters).  The call returns `FAILURE`, and the object then
stands at `(5, 10)`: the coordinates are stored before the test. -/
theorem set_object_coordinates_failure_moves_object :
    Field.set_object_coordinates 1 (some (sample_field_object 1 1)) 5 10 1
        = (FAILURE, some (sample_field_object_at 1 1 5 10))
      ∧ sample_field_object 1 1 = sample_field_object_at 1 1 60 60
      ∧ sample_field_object_at 1 1 5 10 ≠ sample_field_object 1 1 := by
  decide

/-- C24, counterexample: for a sprite 48 pixels high and the reference
`BOTTOM_LEFT` (taken to be 1), the call with `y = 47` succeeds and stores
`map_y = 0`, although `y - height` is negative; the call with `y = 100` stores
`map_y = 53`, not `100 - 48 = 52`. -/
theorem set_object_coordinates_subtracts_height_counterexample :
    Field.set_object_coordinates 1 (some (sample_field_object 1 1)) 5 47 1
        = (SUCCESS, some (sample_field_object_at 1 1 5 0))
      ∧ (47 : Int) - 48 < 0
      ∧ Field.set_object_coordinates 1 (some (sample_field_object 1 1)) 5 100 1
        = (SUCCESS, some (sample_field_object_at 1 1 5 53)) := by
  decide

/-- C24, amended: with the reference `BOTTOM_LEFT`, for an object whose
sprite is at least 1 pixel high, `set_object_coordinates` succeeds exactly
when `y >= height - 1`, and it then stores `map_x = x` and
`map_y = y - (height - 1)` and changes nothing else. -/
theorem set_object_coordinates_bottom_left (BOTTOM_LEFT : Nat) (o : Field.object_t)
    (image : Field.object_image) (x y : Int) (himage : o.image = some image)
    (hheight : 1 ≤ image.height ∧ image.height < 65536) (hy : 0 ≤ y ∧ y < 4294967296) :
    ((Field.set_object_coordinates BOTTOM_LEFT (some o) x y BOTTOM_LEFT).1 = SUCCESS
        ↔ y ≥ (image.height : Int) - 1)
      ∧ (y ≥ (image.height : Int) - 1 →
          Field.set_object_coordinates BOTTOM_LEFT (some o) x y BOTTOM_LEFT
            = (SUCCESS, some { o with
                image := some { image with map_x := x, map_y := y - ((image.height : Int) - 1) } })) := by
  have hconv : to_uint32 ((image.height : Int) - 1) = (image.height : Int) - 1 := by
    unfold to_uint32
    omega
  by_cases h : y < (image.height : Int) - 1
  · have hr : Field.set_object_coordinates BOTTOM_LEFT (some o) x y BOTTOM_LEFT
        = (FAILURE, some { o with image := some { image with map_x := x, map_y := y } }) := by
      simp only [Field.set_object_coordinates, himage, if_true, hconv, h]
    rw [hr]
    have hne : FAILURE ≠ SUCCESS := by decide
    refine ⟨⟨fun hs => absurd hs hne, fun hge => absurd h (by omega)⟩, ?_⟩
    intro hge
    omega
  · have hsub : to_uint32 (y - ((image.height : Int) - 1)) = y - ((image.height : Int) - 1) := by
      unfold to_uint32
      omega
    have hr : Field.set_object_coordinates BOTTOM_LEFT (some o) x y BOTTOM_LEFT
        = (SUCCESS, some { o with
            image := some { image with map_x := x, map_y := y - ((image.height : Int) - 1) } }) := by
      simp only [Field.set_object_coordinates, himage, if_true, hconv, h, if_false, hsub]
    rw [hr]
    exact ⟨⟨fun _ => by omega, fun _ => rfl⟩, fun _ => rfl⟩

/-- Witness of C24 (amended): the sample object and `y = 47`. -/
theorem set_object_coordinates_bottom_left_witness :
    ((Field.set_object_coordinates 1 (some (sample_field_object 1 1)) 5 47 1).1 = SUCCESS
        ↔ (47 : Int) ≥ ((48 : Nat) : Int) - 1)
      ∧ ((47 : Int) ≥ ((48 : Nat) : Int) - 1 →
          Field.set_object_coordinates 1 (some (sample_field_object 1 1)) 5 47 1
            = (SUCCESS, some { sample_field_object 1 1 with
                image := some { parent := some [1], filename := some [105], image_x := 0
                                image_y := 0, map_x := 5
                                map_y := (47 : Int) - (((48 : Nat) : Int) - 1)
                                width := 16, height := 48 } })) :=
  set_object_coordinates_bottom_left 1 (sample_field_object 1 1)
    { parent := some [1], filename := some [105], image_x := 0, image_y := 0
      map_x := 60, map_y := 60, width := 16, height := 48 }
    5 47 rfl (by decide) (by decide)

/-! ## Theorems: adding and deleting objects -/

theorem add_object_duplicate (ascii_hash : List Nat → Nat) (g_objects : List (List Field.object_t))
    (name script : List Nat) (found : Field.object_t)
    (h : Field.find_object name (g_objects.getD (ascii_hash name) []) = some found) :
    Field.add_object ascii_hash g_objects (some name) (some script) = .error .double_free := by
  simp only [Field.add_object, Field.get_object, h]
  simp

theorem delete_object_not_head (ascii_hash : List Nat → Nat)
    (g_objects : List (List Field.object_t)) (name : List Nat) (head : Field.object_t)
    (rest : List Field.object_t) (hchain : g_objects.getD (ascii_hash name) [] = head :: rest)
    (hhead : strcmp_eq name head.name = false) :
    Field.delete_object ascii_hash g_objects name = .error .null_dereference := by
  simp only [Field.delete_object, hchain, hhead]
  simp

/-- C25, failing input: the table holds the objects named 2 and 1 in one
chain, and `add_object` is called with the name 1.  `get_object` finds the
name, frees the new object and returns `NULL` with the table as it was;
`add_object` then frees the new object a second time. -/
theorem add_object_duplicate_frees_twice :
    Field.find_object [1] (sample_registry.getD (sample_hash [1]) [])
        = some (sample_field_object 1 1)
      ∧ Field.get_object sample_hash sample_registry [1]
          (some { name := [1], script_filename := [], tag := 0, is_dirty := false
                  image := some (Field.init_object_image [1]) })
        = (none, sample_registry, true)
      ∧ Field.add_object sample_hash sample_registry (some [1]) (some [110])
        = .error .double_free := by
  decide

/-- C26, failing input: the table holds the objects named 2 and 1 in one
chain, 2 at the head.  `delete_object` of the name 1, which is present as the
second node, reads through `NULL`, and so does `delete_object` of the absent
name 3; only the head of the chain is deleted as the claim says. -/
theorem delete_object_behind_head_faults :
    Field.find_object [1] (sample_registry.getD (sample_hash [1]) [])
        = some (sample_field_object 1 1)
      ∧ Field.delete_object sample_hash sample_registry [1] = .error .null_dereference
      ∧ Field.find_object [3] (sample_registry.getD (sample_hash [3]) []) = none
      ∧ Field.delete_object sample_hash sample_registry [3] = .error .null_dereference
      ∧ Field.delete_object sample_hash sample_registry [2]
        = .ok (1, [[sample_field_object 1 1]]) := by
  decide

/-! ## Theorems: dirtying an object -/

theorem field_insert_after_perm (n : Field.object_image) :
    ∀ (r : List Field.object_image) (p : Field.object_image),
      (Field.insert_after n p r).Perm (n :: p :: r) := by
  intro r
  induction r with
  | nil => intro p; simp [Field.insert_after]; exact List.Perm.swap _ _ _
  | cons next r1 ih =>
    intro p
    unfold Field.insert_after
    split
    · exact ((ih next).cons p).trans (List.Perm.swap _ _ _)
    · exact List.Perm.swap _ _ _

theorem field_bounds_test (image : Field.object_image) (m : Field.map)
    (hb : Field.in_bounds image m) (hr : Field.in_range image m) :
    ¬ (to_uint32 (image.map_x + (image.width : Int)) > to_uint32 (m.width * (TILE_W : Int))
        ∨ to_uint32 (image.map_y + (image.height : Int))
            > to_uint32 (m.height * (TILE_H : Int))) := by
  unfold Field.in_bounds at hb
  unfold Field.in_range at hr
  have hW : ((TILE_W : Nat) : Int) = 32 := rfl
  have hH : ((TILE_H : Nat) : Int) = 32 := rfl
  rw [hW, hH] at hb hr ⊢
  unfold to_uint32
  omega

theorem field_add_object_image_success (mv : Field.map_view) (tag : Nat)
    (image : Field.object_image) (mv1 : Option Field.map_view)
    (hlen : mv.object_queue.length = mv.num_object_queues)
    (h : Field.add_object_image (some mv) tag (some image) = (SUCCESS, mv1)) :
    ∃ v, mv1 = some v
      ∧ (v.object_queue.getD (tag - 1) []).Perm (image :: mv.object_queue.getD (tag - 1) [])
      ∧ (∀ j, j ≠ tag - 1 → v.object_queue.getD j [] = mv.object_queue.getD j []) := by
  have hne : FAILURE ≠ SUCCESS := by decide
  unfold Field.add_object_image at h
  simp only [] at h
  split at h
  · exact absurd (congrArg Prod.fst h) hne
  · split at h
    · exact absurd (congrArg Prod.fst h) hne
    · split at h
      · exact absurd (congrArg Prod.fst h) hne
      · split at h
        · exact absurd (congrArg Prod.fst h) hne
        · next ht0 htq _ _ =>
          have hlt : tag - 1 < mv.object_queue.length := by omega
          have h2 := (congrArg Prod.snd h).symm
          simp only [] at h2
          refine ⟨_, h2, ?_, ?_⟩
          · rw [getD_set_self _ _ _ _ hlt]
            cases hq : mv.object_queue.getD (tag - 1) [] with
            | nil => exact List.Perm.refl _
            | cons head rest => exact field_insert_after_perm image rest head
          · intro j hj
            exact getD_set_other _ _ _ _ _ (fun e => hj e.symm)

theorem field_add_object_image_accepts (mv : Field.map_view) (tag : Nat)
    (image : Field.object_image) (htag : tag ≠ 0) (hq : tag ≤ mv.num_object_queues)
    (hf : image.filename ≠ none) (hw : image.width ≠ 0) (hh : image.height ≠ 0) :
    (Field.add_object_image (some mv) tag (some image)).1 = SUCCESS := by
  have hq2 : ¬ tag > mv.num_object_queues := by omega
  have hz : ¬ (image.width = 0 ∨ image.height = 0) := fun h => h.elim hw hh
  unfold Field.add_object_image
  simp only []
  rw [if_neg htag, if_neg hq2, if_neg hf, if_neg hz]

/-- C27: `set_object_dirty` is idempotent.  For a clean object with a
non-zero tag whose image lies within the pixel extents of the map (all numbers
being values of their C types), the first call returns, and a second call
returns `SUCCESS` and leaves the object and the view exactly as the first call
left them.  The first call returns `SUCCESS` if the tag is at most the number
of queues and the image has a file name and a non-zero size; and if it returned
`SUCCESS`, then the queue of the tag holds the nodes it held before and one
copy of the image of the object, and the other queues are as before. -/
theorem set_object_dirty_idempotent (o : Field.object_t) (mv : Field.map_view)
    (image : Field.object_image) (himage : o.image = some image)
    (hclean : o.is_dirty = false) (htag : o.tag ≠ 0)
    (hbounds : Field.in_bounds image mv.map) (hrange : Field.in_range image mv.map)
    (hlen : mv.object_queue.length = mv.num_object_queues) :
    ∃ r o1 mv1, Field.set_object_dirty (some o) (some mv) = .ok (r, some o1, some mv1)
      ∧ Field.set_object_dirty (some o1) (some mv1) = .ok (SUCCESS, some o1, some mv1)
      ∧ (o.tag ≤ mv.num_object_queues ∧ image.filename ≠ none ∧ image.width ≠ 0
          ∧ image.height ≠ 0 → r = SUCCESS)
      ∧ (r = SUCCESS →
          (mv1.object_queue.getD (o.tag - 1) []).Perm
              (image :: mv.object_queue.getD (o.tag - 1) [])
            ∧ ∀ j, j ≠ o.tag - 1 → mv1.object_queue.getD j [] = mv.object_queue.getD j []) := by
  have hfirst : Field.set_object_dirty (some o) (some mv)
      = .ok ((Field.add_object_image (some mv) o.tag (some image)).1,
          some { o with is_dirty := true },
          (Field.add_object_image (some mv) o.tag (some image)).2) := by
    simp only [Field.set_object_dirty, hclean, himage, Bool.false_eq_true, if_false,
      field_bounds_test image mv.map hbounds hrange, htag, ne_eq, not_false_eq_true, if_true]
  have hsome : ∃ v, (Field.add_object_image (some mv) o.tag (some image)).2 = some v := by
    unfold Field.add_object_image
    simp only []
    split
    · exact ⟨_, rfl⟩
    · split
      · exact ⟨_, rfl⟩
      · split
        · exact ⟨_, rfl⟩
        · split
          · exact ⟨_, rfl⟩
          · exact ⟨_, rfl⟩
  obtain ⟨v, hv⟩ := hsome
  refine ⟨_, { o with is_dirty := true }, v, by rw [hfirst, hv], ?_, ?_, ?_⟩
  · simp only [Field.set_object_dirty, if_true]
  · rintro ⟨hq, hf, hw, hh⟩
    exact field_add_object_image_accepts mv o.tag image htag hq hf hw hh
  · intro hr
    have hpair : Field.add_object_image (some mv) o.tag (some image) = (SUCCESS, some v) := by
      rw [← hr, ← hv]
    obtain ⟨v1, hv1, hperm, hoth⟩ := field_add_object_image_success mv o.tag image _ hlen hpair
    cases hv1
    exact ⟨hperm, hoth⟩

/-- Witness of C27: the sample object of the registry on the view of the 4x4
map. -/
theorem set_object_dirty_idempotent_witness :
    ∃ r o1 mv1,
      Field.set_object_dirty (some (sample_field_object 1 1)) (some sample_field_view_4x4)
          = .ok (r, some o1, some mv1)
      ∧ Field.set_object_dirty (some o1) (some mv1) = .ok (SUCCESS, some o1, some mv1)
      ∧ ((sample_field_object 1 1).tag ≤ sample_field_view_4x4.num_object_queues
          ∧ (some [105] : Option (List Nat)) ≠ none ∧ 16 ≠ 0 ∧ 48 ≠ 0 → r = SUCCESS)
      ∧ (r = SUCCESS →
          (mv1.object_queue.getD ((sample_field_object 1 1).tag - 1) []).Perm
              ({ parent := some [1], filename := some [105], image_x := 0, image_y := 0
                 map_x := 60, map_y := 60, width := 16, height := 48 }
                :: sample_field_view_4x4.object_queue.getD ((sample_field_object 1 1).tag - 1) [])
            ∧ ∀ j, j ≠ (sample_field_object 1 1).tag - 1 →
              mv1.object_queue.getD j [] = sample_field_view_4x4.object_queue.getD j []) :=
  set_object_dirty_idempotent (sample_field_object 1 1) sample_field_view_4x4
    { parent := some [1], filename := some [105], image_x := 0, image_y := 0
      map_x := 60, map_y := 60, width := 16, height := 48 }
    rfl rfl (by decide) (by decide) (by decide) rfl

/-! ## Theorems: failures of dirtying, and loading a module twice -/

set_option maxRecDepth 100000 in
/-- C28, failing input: a clean object with tag 1 whose image has
`map_x = 2^32 - 16` and a width of 16, on the view of a 4x4 map (128 pixels
wide).  In unbounded integers `map_x + width = 2^32` exceeds 128, but the sum
is made in `unsigned int` and gives 0, so the bounds test lets the object
through: `set_object_dirty` returns `SUCCESS`, sets `is_dirty` and enqueues
the image. -/
theorem set_object_dirty_bounds_wrap :
    (4294967280 : Int) + 16 > 4 * 32
      ∧ to_uint32 (4294967280 + 16) = 0
      ∧ Field.set_object_dirty (some sample_far_object) (some sample_field_view_4x4)
        = .ok (SUCCESS, some { sample_far_object with is_dirty := true },
            some sample_field_view_far_queued) := by
  decide

set_option maxRecDepth 100000 in
/-- C29, failing input: a clean object with tag 2, within the bounds of the
map, on a view that has one queue.  `set_object_dirty` sets `is_dirty` and
then calls `add_object_image`, which rejects the tag: the call returns
`FAILURE` and the object is left dirty.  The same holds for an object of tag 1
whose image has no file name. -/
theorem set_object_dirty_failure_leaves_dirty :
    Field.set_object_dirty (some (sample_field_object 1 2)) (some sample_field_view_4x4)
        = .ok (FAILURE, some { sample_field_object 1 2 with is_dirty := true },
            some sample_field_view_4x4)
      ∧ (sample_field_object 1 2).is_dirty = false
      ∧ Field.set_object_dirty
          (some { name := [1], script_filename := [], tag := 1, is_dirty := false
                  image := some (Field.init_object_image [1]) })
          (some sample_field_view_4x4)
        = .ok (FAILURE,
            some { name := [1], script_filename := [], tag := 1, is_dirty := true
                   image := some (Field.init_object_image [1]) },
            some sample_field_view_4x4) := by
  decide

/-- C30: a bound slot is not loaded again.  For every module set, linker,
name and suffix: if the graphics slot has a library handle then
`load_module_gfx` returns `FAILURE` with the module set unchanged and no call
made (no library opened, no lookup, no `init`); and the same holds for the
event slot and `load_module_event`. -/
theorem load_module_bound_slot_fails (ld : linker) (MODULESUFFIX name : List Nat)
    (modules : module_set) (calls : List module_call) :
    (modules.gfx.metadata.lib_handle ≠ none →
        load_module_gfx ld MODULESUFFIX name modules calls = (FAILURE, modules, calls))
      ∧ (modules.event.metadata.lib_handle ≠ none →
        load_module_event ld MODULESUFFIX name modules calls = (FAILURE, modules, calls)) := by
  have hne : ¬ (SUCCESS = FAILURE) := by decide
  constructor
  · intro h
    have hg : get_module_by_name ld MODULESUFFIX name modules.path modules.gfx.metadata calls
        = (FAILURE, modules.gfx.metadata, calls) := by
      simp only [get_module_by_name, get_module_path, hne, if_false, get_module, h, ne_eq,
        not_false_eq_true, if_true]
    simp only [load_module_gfx, hg, if_true]
  · intro h
    have hg : get_module_by_name ld MODULESUFFIX name modules.path modules.event.metadata calls
        = (FAILURE, modules.event.metadata, calls) := by
      simp only [get_module_by_name, get_module_path, hne, if_false, get_module, h, ne_eq,
        not_false_eq_true, if_true]
    simp only [load_module_event, hg, if_true]

/-- Witness of C30: a module set with both slots bound. -/
theorem load_module_bound_slot_fails_witness :
    load_module_gfx sample_linker [46, 115, 111] [103] sample_modules_bound []
        = (FAILURE, sample_modules_bound, [])
      ∧ load_module_event sample_linker [46, 115, 111] [101] sample_modules_bound []
        = (FAILURE, sample_modules_bound, []) :=
  ⟨(load_module_bound_slot_fails sample_linker [46, 115, 111] [103] sample_modules_bound []).1
      (by decide),
    (load_module_bound_slot_fails sample_linker [46, 115, 111] [101] sample_modules_bound []).2
      (by decide)⟩

/-! ## Theorems: loading and closing modules -/

/-- The two results differ. -/
theorem failure_ne_success : FAILURE ≠ SUCCESS := by decide

/-- `get_module_function` stores what the lookup gives, and fails exactly if
the lookup gives `NULL`. -/
theorem get_module_function_spec (ld : linker) (module : module_data) (function : symbol)
    (calls : List module_call) :
    (get_module_function ld module function calls).2.1
        = ld.DLLLOOKUP module.lib_handle function
      ∧ ((get_module_function ld module function calls).1 = FAILURE
          ↔ ld.DLLLOOKUP module.lib_handle function = none)
      ∧ ((get_module_function ld module function calls).1 = SUCCESS
          ∨ (get_module_function ld module function calls).1 = FAILURE) := by
  unfold get_module_function
  by_cases h : ld.DLLLOOKUP module.lib_handle function = none
  · simp [h]
  · simp [h, failure_ne_success.symm]

/-- `get_module_by_name` opens the path made of the search root, the name
and the suffix. -/
theorem get_module_by_name_eq (ld : linker) (MODULESUFFIX name modulespath : List Nat)
    (module : module_data) (calls : List module_call) :
    get_module_by_name ld MODULESUFFIX name modulespath module calls
      = get_module ld (modulespath ++ name ++ MODULESUFFIX) module calls := by
  simp only [get_module_by_name, get_module_path, if_neg failure_ne_success.symm]

/-- `get_module` on an unbound module: the handle afterwards is what
`DLLOPEN` gives for the path, and the call fails exactly if that is `NULL`. -/
theorem get_module_unbound (ld : linker) (modulepath : List Nat)
    (module : module_data) (calls : List module_call) (h : module.lib_handle = none) :
    (get_module ld modulepath module calls).2.1.lib_handle = ld.DLLOPEN modulepath
      ∧ ((get_module ld modulepath module calls).1 = FAILURE ↔ ld.DLLOPEN modulepath = none)
      ∧ ((get_module ld modulepath module calls).1 = SUCCESS
          ∨ (get_module ld modulepath module calls).1 = FAILURE) := by
  unfold get_module
  rw [if_neg (by simp [h])]
  generalize ld.DLLOPEN modulepath = o
  cases o with
  | none => simp
  | some v =>
    simp only [reduceCtorEq, if_false]
    split <;> simp [failure_ne_success.symm]

/-- `get_module_by_name` on a bound module fails and leaves it alone. -/
theorem get_module_by_name_bound (ld : linker) (MODULESUFFIX name modulespath : List Nat)
    (module : module_data) (calls : List module_call) (h : module.lib_handle ≠ none) :
    get_module_by_name ld MODULESUFFIX name modulespath module calls = (FAILURE, module, calls) := by
  simp only [get_module_by_name, get_module_path, if_neg failure_ne_success.symm, get_module, h,
    ne_eq, not_false_eq_true, if_true]

/-- The lookup that `get_module_function` makes does not fail if the call
does not fail. -/
theorem get_module_function_found (ld : linker) (module : module_data) (function : symbol)
    (calls : List module_call)
    (h : ¬ (get_module_function ld module function calls).1 = FAILURE) :
    (get_module_function ld module function calls).2.1 ≠ none
      ∧ ld.DLLLOOKUP module.lib_handle function ≠ none := by
  obtain ⟨h1, h2, _⟩ := get_module_function_spec ld module function calls
  rw [h1]
  exact ⟨fun e => h (h2.2 e), fun e => h (h2.2 e)⟩

/-- The metadata of the graphics slot after `load_module_gfx` is what
`get_module_by_name` leaves. -/
theorem load_module_gfx_metadata (ld : linker) (MODULESUFFIX name : List Nat)
    (modules : module_set) (calls : List module_call) :
    (load_module_gfx ld MODULESUFFIX name modules calls).2.1.gfx.metadata
      = (get_module_by_name ld MODULESUFFIX name modules.path modules.gfx.metadata calls).2.1 := by
  unfold load_module_gfx
  simp only []
  split_ifs <;> rfl

/-- A successful `load_module_gfx`: the library was opened and every lookup
gave a function. -/
theorem load_module_gfx_success (ld : linker) (MODULESUFFIX name : List Nat)
    (modules : module_set) (calls : List module_call)
    (h : (load_module_gfx ld MODULESUFFIX name modules calls).1 = SUCCESS) :
    (get_module_by_name ld MODULESUFFIX name modules.path modules.gfx.metadata calls).1 ≠ FAILURE
      ∧ gfx_resolved (load_module_gfx ld MODULESUFFIX name modules calls).2.1.gfx
      ∧ ∀ f ∈ gfx_symbols,
          ld.DLLLOOKUP (load_module_gfx ld MODULESUFFIX name modules calls).2.1.gfx.metadata.lib_handle
            f ≠ none := by
  rw [load_module_gfx_metadata]
  revert h
  unfold load_module_gfx
  simp only []
  split_ifs with h0 h1 h2 h3 h4 h5 h6 h7
  all_goals try (intro h; exact absurd h failure_ne_success)
  intro _
  refine ⟨h0, ⟨?_, ?_, ?_, ?_, ?_, ?_, ?_⟩, ?_⟩
  · exact (get_module_function_found _ _ _ _ h1).1
  · exact (get_module_function_found _ _ _ _ h2).1
  · exact (get_module_function_found _ _ _ _ h3).1
  · exact (get_module_function_found _ _ _ _ h4).1
  · exact (get_module_function_found _ _ _ _ h5).1
  · exact (get_module_function_found _ _ _ _ h6).1
  · exact (get_module_function_found _ _ _ _ h7).1
  · intro f hf
    simp only [gfx_symbols, List.mem_cons, List.mem_singleton, List.mem_nil_iff, or_false] at hf
    rcases hf with rfl | rfl | rfl | rfl | rfl | rfl | rfl
    · exact (get_module_function_found _ _ _ _ h1).2
    · exact (get_module_function_found _ _ _ _ h2).2
    · exact (get_module_function_found _ _ _ _ h3).2
    · exact (get_module_function_found _ _ _ _ h4).2
    · exact (get_module_function_found _ _ _ _ h5).2
    · exact (get_module_function_found _ _ _ _ h6).2
    · exact (get_module_function_found _ _ _ _ h7).2

/-- The result of `load_module_gfx` is `SUCCESS` or `FAILURE`. -/
theorem load_module_gfx_result (ld : linker) (MODULESUFFIX name : List Nat)
    (modules : module_set) (calls : List module_call) :
    (load_module_gfx ld MODULESUFFIX name modules calls).1 = SUCCESS
      ∨ (load_module_gfx ld MODULESUFFIX name modules calls).1 = FAILURE := by
  unfold load_module_gfx
  simp only []
  split_ifs <;> simp

/-- The metadata of the event slot after `load_module_event` is what
`get_module_by_name` leaves. -/
theorem load_module_event_metadata (ld : linker) (MODULESUFFIX name : List Nat)
    (modules : module_set) (calls : List module_call) :
    (load_module_event ld MODULESUFFIX name modules calls).2.1.event.metadata
      = (get_module_by_name ld MODULESUFFIX name modules.path modules.event.metadata calls).2.1 := by
  unfold load_module_event
  simp only []
  split_ifs <;> rfl

/-- A successful `load_module_event`: the library was opened and every lookup
gave a function. -/
theorem load_module_event_success (ld : linker) (MODULESUFFIX name : List Nat)
    (modules : module_set) (calls : List module_call)
    (h : (load_module_event ld MODULESUFFIX name modules calls).1 = SUCCESS) :
    (get_module_by_name ld MODULESUFFIX name modules.path modules.event.metadata calls).1
        ≠ FAILURE
      ∧ event_resolved (load_module_event ld MODULESUFFIX name modules calls).2.1.event
      ∧ ∀ f ∈ event_symbols,
          ld.DLLLOOKUP
            (load_module_event ld MODULESUFFIX name modules calls).2.1.event.metadata.lib_handle
            f ≠ none := by
  rw [load_module_event_metadata]
  revert h
  unfold load_module_event
  simp only []
  split_ifs with h0 h1 h2
  all_goals try (intro h; exact absurd h failure_ne_success)
  intro _
  refine ⟨h0, ⟨?_, ?_⟩, ?_⟩
  · exact (get_module_function_found _ _ _ _ h1).1
  · exact (get_module_function_found _ _ _ _ h2).1
  · intro f hf
    simp only [event_symbols, List.mem_cons, List.mem_singleton, List.mem_nil_iff, or_false] at hf
    rcases hf with rfl | rfl
    · exact (get_module_function_found _ _ _ _ h1).2
    · exact (get_module_function_found _ _ _ _ h2).2

/-- The result of `load_module_event` is `SUCCESS` or `FAILURE`. -/
theorem load_module_event_result (ld : linker) (MODULESUFFIX name : List Nat)
    (modules : module_set) (calls : List module_call) :
    (load_module_event ld MODULESUFFIX name modules calls).1 = SUCCESS
      ∨ (load_module_event ld MODULESUFFIX name modules calls).1 = FAILURE := by
  unfold load_module_event
  simp only []
  split_ifs <;> simp

/-- C31 (counterexample): the library opens (handle 7) but lacks
`draw_rect_internal` (for the graphics slot) and `register_release_handle`
(for the event slot).  Both loads into the unbound slots fail, and both slots
keep the open handle, with the missing function pointer `NULL`: the slots are
not left unbound. -/
theorem load_module_partial_binding_counterexample :
    (load_module_gfx sample_linker_missing_symbol [46, 115, 111] [103] sample_modules_unbound
        []).1 = FAILURE
      ∧ (load_module_gfx sample_linker_missing_symbol [46, 115, 111] [103] sample_modules_unbound
          []).2.1.gfx.metadata.lib_handle = some 7
      ∧ (load_module_gfx sample_linker_missing_symbol [46, 115, 111] [103] sample_modules_unbound
          []).2.1.gfx.draw_rect_internal = none
      ∧ (load_module_event sample_linker_missing_symbol [46, 115, 111] [101]
          sample_modules_unbound []).1 = FAILURE
      ∧ (load_module_event sample_linker_missing_symbol [46, 115, 111] [101]
          sample_modules_unbound []).2.1.event.metadata.lib_handle = some 7
      ∧ (load_module_event sample_linker_missing_symbol [46, 115, 111] [101]
          sample_modules_unbound []).2.1.event.register_release_handle = none := by
  decide

/-- `load_module_gfx` leaves the search root and the event slot alone. -/
theorem load_module_gfx_other_slot (ld : linker) (MODULESUFFIX name : List Nat)
    (modules : module_set) (calls : List module_call) :
    (load_module_gfx ld MODULESUFFIX name modules calls).2.1.event = modules.event
      ∧ (load_module_gfx ld MODULESUFFIX name modules calls).2.1.path = modules.path := by
  unfold load_module_gfx
  simp only []
  split_ifs <;> exact ⟨rfl, rfl⟩

/-- `load_module_event` leaves the search root and the graphics slot
alone. -/
theorem load_module_event_other_slot (ld : linker) (MODULESUFFIX name : List Nat)
    (modules : module_set) (calls : List module_call) :
    (load_module_event ld MODULESUFFIX name modules calls).2.1.gfx = modules.gfx
      ∧ (load_module_event ld MODULESUFFIX name modules calls).2.1.path = modules.path := by
  unfold load_module_event
  simp only []
  split_ifs <;> exact ⟨rfl, rfl⟩

/-- C31 (amended): a load into an unbound slot, whatever the state of the
other slot, leaves in the slot the handle that `DLLOPEN` gives for the path of
the module, and leaves the other slot alone.  If the load returns `SUCCESS`
the handle is not `NULL` and every function pointer of the slot is resolved;
otherwise it returns `FAILURE`, which it does if the library does not open
(the handle is then `NULL`) and if the library lacks one of the functions of
the slot (the slot then keeps the handle of the open library).  The first
part is for `load_module_gfx` on a set whose graphics slot is unbound, the
second for `load_module_event` on a set whose event slot is unbound. -/
theorem load_module_binds_on_success (ld : linker) (MODULESUFFIX name : List Nat)
    (modules : module_set) (calls : List module_call) :
    (modules.gfx.metadata.lib_handle = none →
      (load_module_gfx ld MODULESUFFIX name modules calls).2.1.gfx.metadata.lib_handle
          = ld.DLLOPEN (module_path_of MODULESUFFIX name modules)
        ∧ (load_module_gfx ld MODULESUFFIX name modules calls).2.1.event = modules.event
        ∧ ((load_module_gfx ld MODULESUFFIX name modules calls).1 = SUCCESS →
            ld.DLLOPEN (module_path_of MODULESUFFIX name modules) ≠ none
              ∧ gfx_resolved (load_module_gfx ld MODULESUFFIX name modules calls).2.1.gfx)
        ∧ ((load_module_gfx ld MODULESUFFIX name modules calls).1 ≠ SUCCESS →
            (load_module_gfx ld MODULESUFFIX name modules calls).1 = FAILURE)
        ∧ (ld.DLLOPEN (module_path_of MODULESUFFIX name modules) = none →
            (load_module_gfx ld MODULESUFFIX name modules calls).1 = FAILURE)
        ∧ ∀ f ∈ gfx_symbols,
            ld.DLLLOOKUP (ld.DLLOPEN (module_path_of MODULESUFFIX name modules)) f = none →
              (load_module_gfx ld MODULESUFFIX name modules calls).1 = FAILURE)
      ∧ (modules.event.metadata.lib_handle = none →
        (load_module_event ld MODULESUFFIX name modules calls).2.1.event.metadata.lib_handle
          = ld.DLLOPEN (module_path_of MODULESUFFIX name modules)
        ∧ (load_module_event ld MODULESUFFIX name modules calls).2.1.gfx = modules.gfx
        ∧ ((load_module_event ld MODULESUFFIX name modules calls).1 = SUCCESS →
            ld.DLLOPEN (module_path_of MODULESUFFIX name modules) ≠ none
              ∧ event_resolved (load_module_event ld MODULESUFFIX name modules calls).2.1.event)
        ∧ ((load_module_event ld MODULESUFFIX name modules calls).1 ≠ SUCCESS →
            (load_module_event ld MODULESUFFIX name modules calls).1 = FAILURE)
        ∧ (ld.DLLOPEN (module_path_of MODULESUFFIX name modules) = none →
            (load_module_event ld MODULESUFFIX name modules calls).1 = FAILURE)
        ∧ ∀ f ∈ event_symbols,
            ld.DLLLOOKUP (ld.DLLOPEN (module_path_of MODULESUFFIX name modules)) f = none →
              (load_module_event ld MODULESUFFIX name modules calls).1 = FAILURE) := by
  constructor
  · intro hg
    have hgh : (load_module_gfx ld MODULESUFFIX name modules calls).2.1.gfx.metadata.lib_handle
        = ld.DLLOPEN (module_path_of MODULESUFFIX name modules) := by
      rw [load_module_gfx_metadata, get_module_by_name_eq]
      exact (get_module_unbound ld _ _ calls hg).1
    have hgs : (load_module_gfx ld MODULESUFFIX name modules calls).1 = SUCCESS →
        ld.DLLOPEN (module_path_of MODULESUFFIX name modules) ≠ none := by
      intro h ho
      have h0 := (load_module_gfx_success ld MODULESUFFIX name modules calls h).1
      rw [get_module_by_name_eq] at h0
      exact h0 ((get_module_unbound ld _ _ calls hg).2.1.2 ho)
    have hgr := load_module_gfx_result ld MODULESUFFIX name modules calls
    refine ⟨hgh, (load_module_gfx_other_slot ld _ _ _ _).1,
      fun h => ⟨hgs h, (load_module_gfx_success ld _ _ _ _ h).2.1⟩,
      fun h => hgr.resolve_left h, fun ho => hgr.resolve_left (fun h => hgs h ho), ?_⟩
    intro f hf hnone
    refine hgr.resolve_left (fun h => ?_)
    have h3 := (load_module_gfx_success ld _ _ _ _ h).2.2 f hf
    rw [hgh] at h3
    exact h3 hnone
  · intro he
    have heh : (load_module_event ld MODULESUFFIX name modules calls).2.1.event.metadata.lib_handle
        = ld.DLLOPEN (module_path_of MODULESUFFIX name modules) := by
      rw [load_module_event_metadata, get_module_by_name_eq]
      exact (get_module_unbound ld _ _ calls he).1
    have hes : (load_module_event ld MODULESUFFIX name modules calls).1 = SUCCESS →
        ld.DLLOPEN (module_path_of MODULESUFFIX name modules) ≠ none := by
      intro h ho
      have h0 := (load_module_event_success ld MODULESUFFIX name modules calls h).1
      rw [get_module_by_name_eq] at h0
      exact h0 ((get_module_unbound ld _ _ calls he).2.1.2 ho)
    have her := load_module_event_result ld MODULESUFFIX name modules calls
    refine ⟨heh, (load_module_event_other_slot ld _ _ _ _).1,
      fun h => ⟨hes h, (load_module_event_success ld _ _ _ _ h).2.1⟩,
      fun h => her.resolve_left h, fun ho => her.resolve_left (fun h => hes h ho), ?_⟩
    intro f hf hnone
    refine her.resolve_left (fun h => ?_)
    have h3 := (load_module_event_success ld _ _ _ _ h).2.2 f hf
    rw [heh] at h3
    exact h3 hnone

/-- Witness of C31 (amended): the graphics slot of the unbound sample set is
loaded with the linker that has every function, and then the event slot of
the set that this load leaves, whose graphics slot is bound, as the program
does at its start. -/
theorem load_module_binds_on_success_witness :
    sample_modules_unbound.gfx.metadata.lib_handle = none
      ∧ (load_module_gfx sample_linker [46, 115, 111] [103] sample_modules_unbound []).1 = SUCCESS
      ∧ gfx_resolved
          (load_module_gfx sample_linker [46, 115, 111] [103] sample_modules_unbound []).2.1.gfx
      ∧ sample_modules_loaded.gfx.metadata.lib_handle = some 7
      ∧ sample_modules_loaded.event.metadata.lib_handle = none
      ∧ (load_module_event sample_linker [46, 115, 111] [101] sample_modules_loaded []).1
          = SUCCESS
      ∧ event_resolved
          (load_module_event sample_linker [46, 115, 111] [101] sample_modules_loaded []).2.1.event
      ∧ (load_module_event sample_linker [46, 115, 111] [101] sample_modules_loaded []).2.1.gfx
          = sample_modules_loaded.gfx :=
  ⟨rfl, by decide,
    (((load_module_binds_on_success sample_linker [46, 115, 111] [103] sample_modules_unbound
      []).1 rfl).2.2.1 (by decide)).2,
    by decide, by decide, by decide,
    (((load_module_binds_on_success sample_linker [46, 115, 111] [101] sample_modules_loaded
      []).2 (by decide)).2.2.1 (by decide)).2,
    ((load_module_binds_on_success sample_linker [46, 115, 111] [101] sample_modules_loaded
      []).2 (by decide)).2.1⟩

/-- `load_module_gfx` into a bound slot fails and changes nothing. -/
theorem load_module_gfx_bound (ld : linker) (MODULESUFFIX name : List Nat)
    (modules : module_set) (calls : List module_call)
    (h : modules.gfx.metadata.lib_handle ≠ none) :
    load_module_gfx ld MODULESUFFIX name modules calls = (FAILURE, modules, calls) := by
  unfold load_module_gfx
  simp only [get_module_by_name_bound ld MODULESUFFIX name modules.path _ calls h, if_true]

/-- `load_module_event` into a bound slot fails and changes nothing. -/
theorem load_module_event_bound (ld : linker) (MODULESUFFIX name : List Nat)
    (modules : module_set) (calls : List module_call)
    (h : modules.event.metadata.lib_handle ≠ none) :
    load_module_event ld MODULESUFFIX name modules calls = (FAILURE, modules, calls) := by
  unfold load_module_event
  simp only [get_module_by_name_bound ld MODULESUFFIX name modules.path _ calls h, if_true]

/-- `close_module` stores nothing in the module. -/
theorem close_module_module (module : module_data) (calls : List module_call) :
    (close_module module calls).1 = module := by
  unfold close_module
  split <;> rfl

/-- C32 (counterexample): the graphics slot is loaded (handle 7, `term` at
9) and closed.  After the close the handle of the slot is still 7, not `NULL`;
a second `close_module` calls `term` and `DLLCLOSE` once more, and a load into
the closed slot is rejected. -/
theorem close_module_keeps_handle_counterexample :
    sample_modules_loaded.gfx.metadata.lib_handle = some 7
      ∧ (close_module sample_modules_loaded.gfx.metadata []).1.lib_handle = some 7
      ∧ (close_module sample_modules_loaded.gfx.metadata []).2
          = [module_call.call 9, module_call.DLLCLOSE 7]
      ∧ (close_module (close_module sample_modules_loaded.gfx.metadata []).1
            (close_module sample_modules_loaded.gfx.metadata []).2).2
          = [module_call.call 9, module_call.DLLCLOSE 7, module_call.call 9,
             module_call.DLLCLOSE 7]
      ∧ (load_module_gfx sample_linker [46, 115, 111] [103]
            (close_gfx sample_modules_loaded []) []).1 = FAILURE := by
  decide

/-- C32 (amended): `close_module` on an unbound module calls neither `term`
nor `DLLCLOSE`; on a bound module it calls `term` (if resolved) once and then
`DLLCLOSE` on the handle.  It stores nothing in the module: the handle and the
function pointers of the slot stay as they were, and a following load into a
slot that was bound is rejected as already bound, leaving the set as it
was. -/
theorem close_module_leaves_slot_as_it_was (ld : linker) (MODULESUFFIX name : List Nat)
    (modules : module_set) (module : module_data) (calls calls1 : List module_call) :
    (close_module module calls).1 = module
      ∧ (module.lib_handle = none → (close_module module calls).2 = calls)
      ∧ (∀ h, module.lib_handle = some h →
          (close_module module calls).2
            = calls ++ term_calls module ++ [module_call.DLLCLOSE h])
      ∧ (modules.gfx.metadata.lib_handle ≠ none →
          load_module_gfx ld MODULESUFFIX name (close_gfx modules calls) calls1
            = (FAILURE, modules, calls1))
      ∧ (modules.event.metadata.lib_handle ≠ none →
          load_module_event ld MODULESUFFIX name (close_event modules calls) calls1
            = (FAILURE, modules, calls1)) := by
  refine ⟨close_module_module module calls, ?_, ?_, ?_, ?_⟩
  · intro h
    unfold close_module
    rw [h]
  · intro h hh
    unfold close_module term_calls
    rw [hh]
    cases module.term <;> simp
  · intro h
    have hc : close_gfx modules calls = modules := by
      unfold close_gfx
      rw [close_module_module]
    rw [hc]
    exact load_module_gfx_bound ld MODULESUFFIX name modules calls1 h
  · intro h
    have hc : close_event modules calls = modules := by
      unfold close_event
      rw [close_module_module]
    rw [hc]
    exact load_module_event_bound ld MODULESUFFIX name modules calls1 h

/-- Witness of C32 (amended): the bound sample set, whose graphics module has
handle 1 and `term` at 3. -/
theorem close_module_leaves_slot_as_it_was_witness :
    sample_modules_bound.gfx.metadata.lib_handle = some 1
      ∧ (close_module sample_modules_bound.gfx.metadata []).2
          = [] ++ term_calls sample_modules_bound.gfx.metadata ++ [module_call.DLLCLOSE 1]
      ∧ load_module_gfx sample_linker [46, 115, 111] [103] (close_gfx sample_modules_bound []) []
          = (FAILURE, sample_modules_bound, []) :=
  ⟨rfl,
    (close_module_leaves_slot_as_it_was sample_linker [46, 115, 111] [103] sample_modules_bound
      sample_modules_bound.gfx.metadata [] []).2.2.1 1 rfl,
    (close_module_leaves_slot_as_it_was sample_linker [46, 115, 111] [103] sample_modules_bound
      sample_modules_bound.gfx.metadata [] []).2.2.2.1 (by decide)⟩

/-! ## Theorems: the state machine -/

/-- `set_state` does not change the current state. -/
theorem set_state_sg_state (g : state_globals) (new_state : Nat) :
    (set_state g new_state).2.sg_state = g.sg_state := by
  unfold set_state
  split_ifs <;> rfl

/-- A successful `set_state` enqueues the state. -/
theorem set_state_success (g : state_globals) (new_state : Nat)
    (h : (set_state g new_state).1 = SUCCESS) :
    (set_state g new_state).2 = { sg_state := g.sg_state, sg_enqueued_state := new_state }
      ∧ g.sg_state ≠ STATE_QUIT ∧ new_state ≠ STATE_NULL ∧ g.sg_state ≠ new_state := by
  have hne : FAILURE ≠ SUCCESS := by decide
  revert h
  unfold set_state
  split_ifs with h1 h2 h3
  · intro h; exact absurd h hne
  · intro h; exact absurd h hne
  · intro h; exact absurd h hne
  · intro _; exact ⟨rfl, h1, h2, h3⟩

/-- While the current state is `STATE_QUIT`, `update_state` changes
nothing. -/
theorem update_state_quit (init_field cleanup_field : Int) (g : state_globals)
    (h : g.sg_state = STATE_QUIT) :
    (update_state init_field cleanup_field g).2 = g := by
  unfold update_state
  split_ifs with h1 h2 h3
  · rfl
  · rfl
  · rfl
  · exfalso
    apply h2
    unfold cleanup_state
    rw [h]
    rfl

/-- Whether the change from the old state to the new state goes through in
`update_state`: the old state is `STATE_NULL`, or `STATE_FIELD` with a cleanup
of the field that does not fail, and the new state is `STATE_QUIT`, or
`STATE_FIELD` with a start of the field that does not fail. -/
@[reducible] def change_goes_through (init_field cleanup_field : Int) (old_state new_state : Nat) :
    Prop :=
  (old_state = STATE_NULL ∨ (old_state = STATE_FIELD ∧ cleanup_field ≠ FAILURE))
    ∧ (new_state = STATE_QUIT ∨ (new_state = STATE_FIELD ∧ init_field ≠ FAILURE))

/-- When `set_state` succeeds. -/
theorem set_state_success_iff (g : state_globals) (new_state : Nat) :
    (set_state g new_state).1 = SUCCESS
      ↔ g.sg_state ≠ STATE_QUIT ∧ new_state ≠ STATE_NULL ∧ g.sg_state ≠ new_state := by
  constructor
  · intro h
    exact (set_state_success g new_state h).2
  · rintro ⟨h1, h2, h3⟩
    unfold set_state
    rw [if_neg h1, if_neg h2, if_neg h3]

/-- A `set_state` that does not succeed fails and changes nothing. -/
theorem set_state_failure (g : state_globals) (new_state : Nat)
    (h : (set_state g new_state).1 ≠ SUCCESS) : set_state g new_state = (FAILURE, g) := by
  revert h
  unfold set_state
  split_ifs
  · intro _; rfl
  · intro _; rfl
  · intro _; rfl
  · intro h; exact absurd rfl h

/-- When `cleanup_state` does not fail. -/
theorem cleanup_state_ne_failure (cleanup_field : Int) (state : Nat) :
    cleanup_state cleanup_field state ≠ FAILURE
      ↔ state = STATE_NULL ∨ (state = STATE_FIELD ∧ cleanup_field ≠ FAILURE) := by
  unfold cleanup_state
  by_cases h1 : state = STATE_FIELD
  · rw [if_pos h1]
    constructor
    · intro h; exact Or.inr ⟨h1, h⟩
    · rintro (h | ⟨_, h⟩)
      · rw [h1] at h; exact absurd h (by decide)
      · exact h
  · rw [if_neg h1]
    by_cases h2 : state = STATE_NULL
    · rw [if_pos h2]
      exact ⟨fun _ => Or.inl h2, fun _ => failure_ne_success.symm⟩
    · rw [if_neg h2]
      constructor
      · intro h; exact absurd rfl h
      · rintro (h | ⟨h, _⟩)
        · exact absurd h h2
        · exact absurd h h1

/-- When `init_state` does not fail. -/
theorem init_state_ne_failure (init_field : Int) (state : Nat) :
    init_state init_field state ≠ FAILURE
      ↔ state = STATE_QUIT ∨ (state = STATE_FIELD ∧ init_field ≠ FAILURE) := by
  unfold init_state
  by_cases h1 : state = STATE_FIELD
  · rw [if_pos h1]
    constructor
    · intro h; exact Or.inr ⟨h1, h⟩
    · rintro (h | ⟨_, h⟩)
      · rw [h1] at h; exact absurd h (by decide)
      · exact h
  · rw [if_neg h1]
    by_cases h2 : state = STATE_QUIT
    · rw [if_pos h2]
      exact ⟨fun _ => Or.inl h2, fun _ => failure_ne_success.symm⟩
    · rw [if_neg h2]
      constructor
      · intro h; exact absurd rfl h
      · rintro (h | ⟨h, _⟩)
        · exact absurd h h2
        · exact absurd h h1

/-- `update_state` with a state enqueued: the change is made if it goes
through, and nothing is changed otherwise. -/
theorem update_state_enqueued (init_field cleanup_field : Int) (g : state_globals)
    (h : g.sg_enqueued_state ≠ STATE_NULL) :
    (change_goes_through init_field cleanup_field g.sg_state g.sg_enqueued_state →
        update_state init_field cleanup_field g
          = ((g.sg_enqueued_state : Int),
             { sg_state := g.sg_enqueued_state, sg_enqueued_state := STATE_NULL }))
      ∧ (¬ change_goes_through init_field cleanup_field g.sg_state g.sg_enqueued_state →
        update_state init_field cleanup_field g = ((STATE_NULL : Int), g)) := by
  constructor
  · rintro ⟨hc, hi⟩
    unfold update_state
    rw [if_neg h, if_neg ((cleanup_state_ne_failure _ _).2 hc),
      if_neg ((init_state_ne_failure _ _).2 hi)]
  · intro hn
    unfold update_state
    rw [if_neg h]
    by_cases hc : cleanup_state cleanup_field g.sg_state = FAILURE
    · rw [if_pos hc]
    · rw [if_neg hc]
      by_cases hi : init_state init_field g.sg_enqueued_state = FAILURE
      · rw [if_pos hi]
      · exact absurd ⟨(cleanup_state_ne_failure _ _).1 hc, (init_state_ne_failure _ _).1 hi⟩ hn

/-- Once the current state is `STATE_QUIT`, no sequence of calls changes the
state variables. -/
theorem run_state_calls_quit (calls : List state_call) :
    ∀ g : state_globals, g.sg_state = STATE_QUIT → run_state_calls calls g = g := by
  induction calls with
  | nil => intro g _; rfl
  | cons call rest ih =>
    intro g h
    have hstep : (match call with
        | .set_state new_state => (set_state g new_state).2
        | .update_state init_field cleanup_field =>
          (update_state init_field cleanup_field g).2) = g := by
      cases call with
      | set_state new_state =>
        simp only [set_state, h, if_true]
      | update_state init_field cleanup_field =>
        exact update_state_quit init_field cleanup_field g h
    unfold run_state_calls
    rw [List.foldl_cons, hstep]
    exact ih g h

/-- C33 (counterexample): from the start state `STATE_NULL` the state 7 is
requested: `set_state` returns `SUCCESS`, but `update_state` does not make 7
the current state, at the next call or at any later one: `init_state` fails
for it, `update_state` returns `STATE_NULL` and leaves the current state
`STATE_NULL` and the request enqueued.  Likewise `STATE_QUIT` requested in the
field state does not become current at the next `update_state` when the
cleanup of the field fails. -/
theorem set_state_request_not_current_counterexample :
    (set_state sample_state_start 7).1 = SUCCESS
      ∧ update_state SUCCESS SUCCESS (set_state sample_state_start 7).2
          = ((STATE_NULL : Int), { sg_state := STATE_NULL, sg_enqueued_state := 7 })
      ∧ get_state (run_state_calls
            [state_call.set_state 7, state_call.update_state SUCCESS SUCCESS,
             state_call.update_state SUCCESS SUCCESS] sample_state_start) = STATE_NULL
      ∧ (set_state sample_state_field STATE_QUIT).1 = SUCCESS
      ∧ update_state SUCCESS FAILURE (set_state sample_state_field STATE_QUIT).2
          = ((STATE_NULL : Int), { sg_state := STATE_FIELD, sg_enqueued_state := STATE_QUIT }) := by
  decide

/-- C33 (amended): a state change is requested, not immediate.  For every
current state and requested state, `set_state` leaves the value of
`get_state` as it was.  It returns `SUCCESS` exactly if the current state is
not `STATE_QUIT` and the requested state is neither `STATE_NULL` nor the
current state, and then enqueues the state; otherwise it returns `FAILURE` and
changes nothing.  At the next `update_state` an enqueued state (`STATE_QUIT`
included) becomes the current state, and is returned, if the change goes
through: the old state is `STATE_NULL`, or `STATE_FIELD` with a cleanup that
does not fail, and the new state is `STATE_QUIT`, or `STATE_FIELD` with a
start that does not fail.  If it does not go through, `update_state` returns
`STATE_NULL` and leaves the current state and the request as they were.  Once
the current state is `STATE_QUIT`, every `set_state` fails and no sequence of
calls of `set_state` and `update_state` changes the state variables. -/
theorem set_state_takes_effect_at_update (init_field cleanup_field : Int) (g : state_globals)
    (new_state : Nat) :
    get_state (set_state g new_state).2 = get_state g
      ∧ ((set_state g new_state).1 = SUCCESS
          ↔ g.sg_state ≠ STATE_QUIT ∧ new_state ≠ STATE_NULL ∧ g.sg_state ≠ new_state)
      ∧ ((set_state g new_state).1 ≠ SUCCESS → set_state g new_state = (FAILURE, g))
      ∧ ((set_state g new_state).1 = SUCCESS →
          (set_state g new_state).2 = { sg_state := g.sg_state, sg_enqueued_state := new_state }
            ∧ (change_goes_through init_field cleanup_field g.sg_state new_state →
                update_state init_field cleanup_field (set_state g new_state).2
                  = ((new_state : Int),
                     { sg_state := new_state, sg_enqueued_state := STATE_NULL }))
            ∧ (¬ change_goes_through init_field cleanup_field g.sg_state new_state →
                update_state init_field cleanup_field (set_state g new_state).2
                  = ((STATE_NULL : Int), (set_state g new_state).2)))
      ∧ (g.sg_state = STATE_QUIT →
          set_state g new_state = (FAILURE, g)
            ∧ ∀ calls, run_state_calls calls g = g) := by
  refine ⟨set_state_sg_state g new_state, set_state_success_iff g new_state,
    set_state_failure g new_state, ?_, ?_⟩
  · intro h
    obtain ⟨he, _, hn, _⟩ := set_state_success g new_state h
    rw [he]
    have hu := update_state_enqueued init_field cleanup_field
      { sg_state := g.sg_state, sg_enqueued_state := new_state } hn
    exact ⟨rfl, hu.1, hu.2⟩
  · intro h
    refine ⟨?_, fun calls => run_state_calls_quit calls g h⟩
    unfold set_state
    rw [if_pos h]

/-- Witness of C33 (amended): from the start state, `STATE_FIELD` is
requested with a field that starts without failure; and in the state
`STATE_QUIT` a request of `STATE_FIELD` fails. -/
theorem set_state_takes_effect_at_update_witness :
    (set_state sample_state_start STATE_FIELD).1 = SUCCESS
      ∧ get_state (set_state sample_state_start STATE_FIELD).2 = STATE_NULL
      ∧ update_state SUCCESS SUCCESS (set_state sample_state_start STATE_FIELD).2
          = ((STATE_FIELD : Int), { sg_state := STATE_FIELD, sg_enqueued_state := STATE_NULL })
      ∧ set_state { sg_state := STATE_QUIT, sg_enqueued_state := STATE_NULL } STATE_FIELD
          = (FAILURE, { sg_state := STATE_QUIT, sg_enqueued_state := STATE_NULL }) :=
  ⟨by decide, (set_state_takes_effect_at_update SUCCESS SUCCESS sample_state_start STATE_FIELD).1,
    ((set_state_takes_effect_at_update SUCCESS SUCCESS sample_state_start
      STATE_FIELD).2.2.2.1 (by decide)).2.1 (by decide),
    ((set_state_takes_effect_at_update SUCCESS SUCCESS
      { sg_state := STATE_QUIT, sg_enqueued_state := STATE_NULL } STATE_FIELD).2.2.2.2 rfl).1⟩

/-! ## Theorems: indices, queues and chunk IDs of the renderers and loaders -/

/-- C34: on the map 2 tiles wide and 3 tiles high, whose plane has 6 entries,
`render_rect_layer` with a rectangle that covers exactly the map reads the
plane at the indices 6 and 7, for the tiles `(0, 2)` and `(1, 2)` that it does
not skip; and for tile `(0, 1)` it reads index 3, where the plane holds tile
`(1, 1)`, so that the tile is drawn with the value 4 of tile `(1, 1)`.  On the
square 2x2 map a rectangle of 96x96 pixels makes it read for the tiles of
column 2 and line 2, which are not skipped though they are outside the map,
up to index 6 of the 4 entries. -/
theorem render_rect_layer_reads_outside_plane :
    render_rect_layer_reads sample_view_2x3
        { start_x := 0, start_y := 0, width := 64, height := 96 }
      = [{ x := 0, y := 0, index := 0 }, { x := 0, y := 1, index := 3 },
         { x := 0, y := 2, index := 6 }, { x := 1, y := 0, index := 1 },
         { x := 1, y := 1, index := 4 }, { x := 1, y := 2, index := 7 }]
      ∧ sample_view_2x3.map.width * sample_view_2x3.map.height = 6
      ∧ (sample_view_2x3.map.value_planes.getD 0 []).length = 6
      ∧ tile_offset sample_view_2x3.map 0 1 = 2
      ∧ tile_offset sample_view_2x3.map 1 1 = 3
      ∧ get_tile_value sample_view_2x3.map 0 0 1 = 3
      ∧ render_rect_layer sample_view_2x3 0
          { start_x := 0, start_y := 0, width := 64, height := 96 } []
        = [gfx_call.draw_image_direct 32 0 0 0 32 32,
           gfx_call.draw_image_direct 128 0 0 32 32 32,
           gfx_call.draw_image_direct 64 0 32 0 32 32,
           gfx_call.draw_image_direct 160 0 32 32 32 32]
      ∧ ({ x := 2, y := 2, index := 6 } : plane_read)
          ∈ render_rect_layer_reads sample_mapview
              { start_x := 0, start_y := 0, width := 96, height := 96 }
      ∧ sample_mapview.map.width * sample_mapview.map.height = 4 := by
  decide

/-- C35: on the view of the map 3 tiles wide and 2 tiles high,
`mark_dirty_rect` for tile `(0, 1)` sets entry 3 of the matrix
(`0 + 1 * width`).  `render_map_layer` tests entry 2 (`0 + 1 * height`) for
that tile and leaves it alone; it finds entry 3 dirty for tile `(1, 1)`, draws
that tile at screen position `(32, 32)` with the value 4 read at layer offset
3, which is the value of tile `(0, 1)`, and decrements entry 3. -/
theorem render_map_layer_tests_other_entry :
    field_render_after_mark
      = .ok ([0, 0, 0, 1, 0, 0], [gfx_call.draw_image_direct 128 0 32 32 32 32],
          [0, 0, 0, 0, 0, 0])
      ∧ (Field.render_map_layer_tile 0 0 1
          ({ sample_field_view_3x2 with dirty_tiles := [0, 0, 0, 1, 0, 0] }, [])).1.2 = []
      ∧ (Field.render_map_layer_tile 0 1 1
          ({ sample_field_view_3x2 with dirty_tiles := [0, 0, 0, 1, 0, 0] }, [])).1.2
        = [gfx_call.draw_image_direct 128 0 32 32 32 32] := by
  decide

/-- C36: on the view of the 4x4 map, an image of key 20 and then an image of
key 10 are enqueued for tag 1; both calls succeed, and the queue holds the
keys 20, 10 in that order: the second image, whose key is smaller than the key
of the head, is put after the head. -/
theorem field_add_object_image_after_head :
    queue_after_two_adds.1 = SUCCESS ∧ queue_after_two_adds.2.1 = SUCCESS
      ∧ queue_after_two_adds.2.2.map
          (fun mapview => (mapview.object_queue.getD 0 []).map Field.image_key)
        = some [20, 10] := by
  decide

/-- C37: on a file that starts with the bytes "XXXX", `check_magic_sequence`
of `src/src/field/mapload.c` returns `SUCCESS` for the sequence "TAGS", where
the one of `src/src/map/mapload.c` returns false; and the chunk readers for
tags, zone planes and zone properties, all go on to read their data from such
a file. -/
theorem field_check_magic_sequence_accepts_any :
    Field.check_magic_sequence sample_file_wrong_id Field.MAGIC_TAGS
        = (SUCCESS, { data := [88, 88, 88, 88, 0, 0], pos := 4, eof := false })
      ∧ check_magic_sequence sample_file_wrong_id Field.MAGIC_TAGS
        = .ok (false, { data := [88, 88, 88, 88, 0, 0], pos := 4, eof := false })
      ∧ Field.read_layer_tags_chunk 3 sample_file_wrong_id (init_map 1 1 0 0)
        = .ok ({ data := [88, 88, 88, 88, 0, 0], pos := 6, eof := false }, init_map 1 1 0 0)
      ∧ Field.read_map_zone_planes_chunk 3 sample_file_wrong_id (init_map 1 1 0 0)
        = .ok ({ data := [88, 88, 88, 88, 0, 0], pos := 6, eof := false }, init_map 1 1 0 0)
      ∧ Field.read_map_zone_properties_chunk 3 sample_file_wrong_id (init_map 1 1 0 0)
        = .ok ({ data := [88, 88, 88, 88, 0, 0], pos := 6, eof := false }, init_map 1 1 0 0) := by
  decide

/-- C40: on the view of the 1x1 map whose tile has the value 1024,
`render_map` of `src/src/map/mapview.c` draws the tile with the tileset source
x `-32768`, not `32 * 1024 = 32768`: the conversion to `int16_t` changes the
value.  `render_map_layer` of `src/src/field/mapview.c` returns without a draw
for the same tile value. -/
theorem render_map_wraps_tileset_x :
    (render_map 2 no_objects_pass (sample_view_tile_1024, sample_engine_start)).map
        (fun s => s.2.calls)
      = .ok [gfx_call.add_update_rectangle 0 0 32 32,
             gfx_call.draw_image_direct (-32768) 0 0 0 32 32]
      ∧ get_tile_value sample_view_tile_1024.map 0 0 0 = 1024
      ∧ (Field.render_map_layer true 0 (sample_field_view_tile_1024, [])).2 = [] := by
  decide

/-! ## Theorems: loops that never end -/

/-- A loop whose condition holds for every value of the counter never ends:
whatever the fuel, the model runs out of it, if the body returns or runs out
of fuel itself. -/
theorem for_counter_never_returns {σ : Type} (wrap : Nat) (cond : Nat → Bool)
    (hcond : ∀ i, i < wrap → cond i = true) (body : Nat → σ → Except Halt σ) (I : σ → Prop)
    (hbody : ∀ i s, I s → (∃ s1, body i s = .ok s1 ∧ I s1) ∨ body i s = .error .out_of_fuel) :
    ∀ (fuel l : Nat) (s : σ), l < wrap → I s →
      for_counter wrap fuel cond body l s = .error .out_of_fuel := by
  intro fuel
  induction fuel with
  | zero => intro l s _ _; rfl
  | succ fuel ih =>
    intro l s hl hI
    unfold for_counter
    rw [if_pos (hcond l hl)]
    rcases hbody l s hI with ⟨s1, h1, hI1⟩ | h1
    · rw [h1]
      exact ih ((l + 1) % wrap) s1 (Nat.mod_lt _ (by omega)) hI1
    · rw [h1]

/-- A loop whose body returns or runs out of fuel returns or runs out of
fuel. -/
theorem for_counter_ok_or_out_of_fuel {σ : Type} (wrap : Nat) (cond : Nat → Bool)
    (body : Nat → σ → Except Halt σ) (I : σ → Prop)
    (hbody : ∀ i s, I s → (∃ s1, body i s = .ok s1 ∧ I s1) ∨ body i s = .error .out_of_fuel) :
    ∀ (fuel l : Nat) (s : σ), I s →
      (∃ s1, for_counter wrap fuel cond body l s = .ok s1 ∧ I s1)
        ∨ for_counter wrap fuel cond body l s = .error .out_of_fuel := by
  intro fuel
  induction fuel with
  | zero => intro l s _; exact Or.inr rfl
  | succ fuel ih =>
    intro l s hI
    unfold for_counter
    by_cases hc : cond l = true
    · rw [if_pos hc]
      rcases hbody l s hI with ⟨s1, h1, hI1⟩ | h1
      · rw [h1]
        exact ih ((l + 1) % wrap) s1 hI1
      · rw [h1]; exact Or.inr rfl
    · rw [if_neg hc]
      exact Or.inl ⟨s, rfl, hI⟩

/-- The loop of `read_map_tags` never ends for the highest layer index
65535. -/
theorem read_map_tags_never_returns (fuel : Nat) (s : FILE × map_t)
    (h : get_max_layer s.2 = 65535) : read_map_tags fuel s = .error .out_of_fuel := by
  unfold read_map_tags for_uint16
  refine for_counter_never_returns 65536 _ ?_ _ (fun _ => True) ?_ fuel 0 s (by omega) trivial
  · intro i hi
    rw [h]
    exact decide_eq_true (by omega)
  · intro i s1 _
    exact Or.inl ⟨_, rfl, trivial⟩

/-- The loop of `read_map_zone_properties` never ends for the highest zone
index 65535. -/
theorem read_map_zone_properties_never_returns (fuel : Nat) (s : FILE × map_t)
    (h : get_max_zone s.2 = 65535) :
    read_map_zone_properties fuel s = .error .out_of_fuel := by
  unfold read_map_zone_properties for_uint16
  refine for_counter_never_returns 65536 _ ?_ _ (fun _ => True) ?_ fuel 0 s (by omega) trivial
  · intro i hi
    rw [h]
    exact decide_eq_true (by omega)
  · intro i s1 _
    exact Or.inl ⟨_, rfl, trivial⟩

/-- Reading one value plane returns or runs out of fuel. -/
theorem read_map_value_plane_ok_or_out_of_fuel (fuel layer : Nat) (s : FILE × map_t) :
    (∃ s1, read_map_value_plane fuel layer s = .ok s1 ∧ True)
      ∨ read_map_value_plane fuel layer s = .error .out_of_fuel := by
  unfold read_map_value_plane for_uint16
  refine for_counter_ok_or_out_of_fuel 65536 _ _ (fun _ => True) ?_ fuel 0 s trivial
  intro x s1 _
  refine for_counter_ok_or_out_of_fuel 65536 _ _ (fun _ => True) ?_ fuel 0 s1 trivial
  intro y s2 _
  exact Or.inl ⟨_, rfl, trivial⟩

/-- Reading one zone plane returns or runs out of fuel. -/
theorem read_layer_zone_plane_ok_or_out_of_fuel (fuel layer : Nat) (s : FILE × map_t) :
    (∃ s1, read_layer_zone_plane fuel layer s = .ok s1 ∧ True)
      ∨ read_layer_zone_plane fuel layer s = .error .out_of_fuel := by
  unfold read_layer_zone_plane for_uint16
  refine for_counter_ok_or_out_of_fuel 65536 _ _ (fun _ => True) ?_ fuel 0 s trivial
  intro x s1 _
  refine for_counter_ok_or_out_of_fuel 65536 _ _ (fun _ => True) ?_ fuel 0 s1 trivial
  intro y s2 _
  exact Or.inl ⟨_, rfl, trivial⟩

/-- The loop of `read_map_value_planes` never ends for the highest layer
index 65535. -/
theorem read_map_value_planes_never_returns (fuel : Nat) (s : FILE × map_t)
    (h : get_max_layer s.2 = 65535) :
    read_map_value_planes fuel s = .error .out_of_fuel := by
  unfold read_map_value_planes for_uint16
  refine for_counter_never_returns 65536 _ ?_ _ (fun _ => True) ?_ fuel 0 s (by omega) trivial
  · intro i hi
    rw [h]
    exact decide_eq_true (by omega)
  · intro i s1 _
    exact read_map_value_plane_ok_or_out_of_fuel fuel i s1

/-- The loop of `read_map_zone_planes` never ends for the highest layer
index 65535. -/
theorem read_map_zone_planes_never_returns (fuel : Nat) (s : FILE × map_t)
    (h : get_max_layer s.2 = 65535) :
    read_map_zone_planes fuel s = .error .out_of_fuel := by
  unfold read_map_zone_planes for_uint16
  refine for_counter_never_returns 65536 _ ?_ _ (fun _ => True) ?_ fuel 0 s (by omega) trivial
  · intro i hi
    rw [h]
    exact decide_eq_true (by omega)
  · intro i s1 _
    exact read_layer_zone_plane_ok_or_out_of_fuel fuel i s1

/-- The layer loop of `render_map` never ends when the highest layer index is
255 or more: the counter, an `unsigned char`, is never above it. -/
theorem render_map_never_returns (fuel : Nat) (objects_pass : object_pass)
    (hpass : ∀ mv r objs, ∃ q, objects_pass mv r objs = .ok q)
    (s : mapview_t × engine_t) (hnil : s.1.dirty_rectangles ≠ [])
    (ht : s.2.tileset_loads = true) (hmax : 255 ≤ get_max_layer s.1.map) :
    render_map fuel objects_pass s = .error .out_of_fuel := by
  obtain ⟨s0, h0, hm, ht0, _⟩ := g_slist_foreach_handle objects_pass hpass s.1.dirty_rectangles s
  unfold render_map
  simp only [hnil, if_false, h0, for_uint8]
  generalize hX : for_counter 256 fuel _ _ 0 s0 = X
  have hX1 : X = .error .out_of_fuel := by
    rw [← hX]
    refine for_counter_never_returns 256 _ ?_ _ (fun s => s.2.tileset_loads = true) ?_ fuel 0 s0
      (by omega) (ht0.trans ht)
    · intro i hi
      rw [hm]
      exact decide_eq_true (by omega)
    · intro i s1 hI
      exact Or.inl (render_layer_step i s1 hI)
  rw [hX1]

/-- C38: for a map whose highest layer index is 65535 the loops of
`read_map_tags`, `read_map_value_planes` and `read_map_zone_planes` never end,
and for a map whose highest zone index is 65535 the loop of
`read_map_zone_properties` never ends: whatever the fuel, the model of the
loop uses it up, because the condition `counter <= 65535` holds for every
value of the 16-bit counter. -/
theorem loader_loops_never_end_at_65535 :
    get_max_layer sample_map_max_layers = 65535 ∧ get_max_zone sample_map_max_zones = 65535
      ∧ (∀ fuel, read_map_tags fuel (fopen [], sample_map_max_layers) = .error .out_of_fuel)
      ∧ (∀ fuel, read_map_value_planes fuel (fopen [], sample_map_max_layers)
          = .error .out_of_fuel)
      ∧ (∀ fuel, read_map_zone_planes fuel (fopen [], sample_map_max_layers)
          = .error .out_of_fuel)
      ∧ (∀ fuel, read_map_zone_properties fuel (fopen [], sample_map_max_zones)
          = .error .out_of_fuel) :=
  ⟨rfl, rfl, fun fuel => read_map_tags_never_returns fuel _ rfl,
    fun fuel => read_map_value_planes_never_returns fuel _ rfl,
    fun fuel => read_map_zone_planes_never_returns fuel _ rfl,
    fun fuel => read_map_zone_properties_never_returns fuel _ rfl⟩

/-- C39: for the view of the map with 256 layers (highest layer index 255)
and one dirty rectangle, `render_map` never returns: whatever the fuel, the
model of the layer loop uses it up, because the condition `l <= 255` holds for
every value of the 8-bit counter. -/
theorem render_map_never_returns_at_255 :
    get_max_layer sample_view_256_layers.map = 255
      ∧ sample_view_256_layers.dirty_rectangles ≠ []
      ∧ ∀ fuel, render_map fuel no_objects_pass (sample_view_256_layers, sample_engine_start)
          = .error .out_of_fuel :=
  ⟨rfl, by decide, fun fuel =>
    render_map_never_returns fuel no_objects_pass (fun mv _ objs => ⟨_, rfl⟩) _ (by decide) rfl
      (by decide)⟩

end Crystals
